import Mathlib

/-!
# USB device driver, upper half (`os/hal/src/usb.c`)

A shallow embedding of the ChibiOS/RT USB driver upper half: the driver
structure, the standard requests handler `default_handler`, and the
endpoint-zero callbacks `_usb_ep0in` and `_usb_ep0out`, the life cycle
functions and `usbStartTransmitI`.

Conventions of the embedding.

* The driver object `USBDriver` is passed explicitly.  Every call that the code
  of `usb.c` makes to the low level driver (`usb_lld_*`) or to an application
  callback is appended, in program order, to a `trace`.
* Low level driver operations act on the hardware: they are recorded and the
  values they return come from the environment `Env`.  The one operation that
  writes the driver object within a function of `usb.c` is `usb_lld_reset`,
  which repopulates endpoint slot 0; the slot it installs comes from `Env`.
* Application callbacks receive the driver pointer, so they are arbitrary
  functions on the driver, supplied by `Env`; whether a callback is installed
  (a non-null function pointer) is recorded in `USBConfig`.
* A result of `none` stands for undefined behaviour of the C code (a null
  pointer dereference, a remainder by zero) or for a failed `chDbgCheck` or
  `chDbgAssert`, which halts the system.
* An endpoint state structure is owned by the slot of the endpoint table that
  points to it.  Critical sections (`chSysLock`) are not represented.
* `uint8_t`, `uint16_t` and `size_t` values are natural numbers; the code
  performs no arithmetic on them that could overflow, except `status &= ~2`,
  which is written with the 16 bit mask `0xFFFD`.
-/

namespace USB

/-! ## Constants of `usb.h` -/

/-- Modelled from the spec: `usb.h` is absent; direction is bit 7 of `bmRequestType`. -/
def USB_RTYPE_DIR_MASK : Nat := 0x80
/-- Modelled from the spec: `usb.h` is absent; host to device direction. -/
def USB_RTYPE_DIR_HOST2DEV : Nat := 0x00
/-- Modelled from the spec: `usb.h` is absent; device to host direction. -/
def USB_RTYPE_DIR_DEV2HOST : Nat := 0x80
/-- Modelled from the spec: `usb.h` is absent; type is bits 5-6 of `bmRequestType`. -/
def USB_RTYPE_TYPE_MASK : Nat := 0x60
/-- Modelled from the spec: `usb.h` is absent; standard request type. -/
def USB_RTYPE_TYPE_STD : Nat := 0x00
/-- Modelled from the spec: `usb.h` is absent; class request type. -/
def USB_RTYPE_TYPE_CLASS : Nat := 0x20
/-- Modelled from the spec: `usb.h` is absent; vendor request type. -/
def USB_RTYPE_TYPE_VENDOR : Nat := 0x40
/-- Modelled from the spec: `usb.h` is absent; recipient is bits 0-4 of `bmRequestType`. -/
def USB_RTYPE_RECIPIENT_MASK : Nat := 0x1F
/-- Modelled from the spec: `usb.h` is absent; recipient device. -/
def USB_RTYPE_RECIPIENT_DEVICE : Nat := 0x00
/-- Modelled from the spec: `usb.h` is absent; recipient interface. -/
def USB_RTYPE_RECIPIENT_INTERFACE : Nat := 0x01
/-- Modelled from the spec: `usb.h` is absent; recipient endpoint. -/
def USB_RTYPE_RECIPIENT_ENDPOINT : Nat := 0x02

/-- Modelled from the spec: `usb.h` is absent; USB 2.0 request code. -/
def USB_REQ_GET_STATUS : Nat := 0
/-- Modelled from the spec: `usb.h` is absent; USB 2.0 request code. -/
def USB_REQ_CLEAR_FEATURE : Nat := 1
/-- Modelled from the spec: `usb.h` is absent; USB 2.0 request code. -/
def USB_REQ_SET_FEATURE : Nat := 3
/-- Modelled from the spec: `usb.h` is absent; USB 2.0 request code. -/
def USB_REQ_SET_ADDRESS : Nat := 5
/-- Modelled from the spec: `usb.h` is absent; USB 2.0 request code. -/
def USB_REQ_GET_DESCRIPTOR : Nat := 6
/-- Modelled from the spec: `usb.h` is absent; USB 2.0 request code. -/
def USB_REQ_SET_DESCRIPTOR : Nat := 7
/-- Modelled from the spec: `usb.h` is absent; USB 2.0 request code. -/
def USB_REQ_GET_CONFIGURATION : Nat := 8
/-- Modelled from the spec: `usb.h` is absent; USB 2.0 request code. -/
def USB_REQ_SET_CONFIGURATION : Nat := 9
/-- Modelled from the spec: `usb.h` is absent; USB 2.0 request code. -/
def USB_REQ_GET_INTERFACE : Nat := 10
/-- Modelled from the spec: `usb.h` is absent; USB 2.0 request code. -/
def USB_REQ_SET_INTERFACE : Nat := 11
/-- Modelled from the spec: `usb.h` is absent; USB 2.0 request code. -/
def USB_REQ_SYNCH_FRAME : Nat := 12

/-- Modelled from the spec: `usb.h` is absent; USB 2.0 feature selector. -/
def USB_FEATURE_ENDPOINT_HALT : Nat := 0
/-- Modelled from the spec: `usb.h` is absent; USB 2.0 feature selector. -/
def USB_FEATURE_DEVICE_REMOTE_WAKEUP : Nat := 1

/-! ## Types of `usb.h` -/

/-- Modelled from the spec: `usb.h` is absent; the driver life cycle states. -/
inductive usbstate_t
  | USB_STOP
  | USB_READY
  | USB_SELECTED
  | USB_ACTIVE
  deriving DecidableEq, Repr

/-- Modelled from the spec: `usb.h` is absent; the phases of endpoint zero. -/
inductive usbep0state_t
  | USB_EP0_WAITING_SETUP
  | USB_EP0_TX
  | USB_EP0_WAITING_STS
  | USB_EP0_RX
  | USB_EP0_SENDING_STS
  deriving DecidableEq, Repr

/-- Modelled from the spec: `usb.h` is absent; halt status reported by the low level driver. -/
inductive usbepstatus_t
  | EP_STATUS_DISABLED
  | EP_STATUS_STALLED
  | EP_STATUS_ACTIVE
  deriving DecidableEq, Repr

/-- Modelled from the spec: `usb.h` is absent; the events the driver delivers to `event_cb`. -/
inductive usbevent_t
  | USB_EVENT_ADDRESS
  | USB_EVENT_CONFIGURED
  | USB_EVENT_STALLED
  deriving DecidableEq, Repr

/-- Modelled from the spec: the compile time option `USB_SET_ADDRESS_MODE`. -/
inductive usbaddrmode_t
  | USB_EARLY_SET_ADDRESS
  | USB_LATE_SET_ADDRESS
  deriving DecidableEq, Repr

/-- A byte pointer as the driver uses it: null, the address of a driver field,
one of the three static arrays of `usb.c`, or application memory holding the
given bytes (descriptor strings, buffers set up by the requests hook). -/
inductive Ptr
  | NULL
  | status
  | configuration
  | zero_status
  | active_status
  | halted_status
  | mem (bytes : List Nat)
  deriving DecidableEq, Repr

/-- The static array `zero_status` of `usb.c`. -/
def zero_status : List Nat := [0x00, 0x00]
/-- The static array `active_status` of `usb.c`. -/
def active_status : List Nat := [0x00, 0x00]
/-- The static array `halted_status` of `usb.c`. -/
def halted_status : List Nat := [0x01, 0x00]

/-- Modelled from the spec: `USBDescriptor` of `usb.h` (byte length, pointer to bytes). -/
structure USBDescriptor where
  ud_size : Nat
  ud_string : Ptr
  deriving DecidableEq, Repr

/-- Modelled from the spec: `USBEndpointConfig` of `usb.h`, the maximum packet sizes. -/
structure USBEndpointConfig where
  in_maxsize : Nat
  out_maxsize : Nat
  deriving DecidableEq, Repr

/-- Modelled from the spec: `USBEndpointState` of `usb.h`; `config` is a pointer and may be null. -/
structure USBEndpointState where
  config : Option USBEndpointConfig
  transmitting : Bool
  receiving : Bool
  rxsize : Nat
  deriving DecidableEq, Repr

/-- Modelled from the spec: `USBConfig` of `usb.h`.  The fields say which of the
optional callbacks are installed (non-null); `get_descriptor_cb` is called
unconditionally by the code.  The behaviour of the callbacks is in `Env`. -/
structure USBConfig where
  event_cb : Bool
  requests_hook_cb : Bool
  deriving DecidableEq, Repr

/-- Modelled from the spec: `USBDriver` of `usb.h`, with the fields `usb.c` uses.
`USB_MAX_ENDPOINTS` is the compile time size of the endpoint table; a null
pointer is `none`. -/
structure USBDriver (USB_MAX_ENDPOINTS : Nat) where
  state : usbstate_t
  config : Option USBConfig
  param : Option Nat
  ep : Fin (USB_MAX_ENDPOINTS + 1) → Option USBEndpointState
  ep0state : usbep0state_t
  ep0next : Ptr
  ep0n : Nat
  setup : Fin 8 → Nat
  status : Nat
  address : Nat
  configuration : Nat

/-- The calls `usb.c` makes to the low level driver and to the application.
`usb_lld_set_address` carries the value of `usbp->address` it writes to the
hardware. -/
inductive Call
  | usb_lld_init
  | usb_lld_start
  | usb_lld_stop
  | usb_lld_reset
  | usb_lld_set_address (address : Nat)
  | usb_lld_init_endpoint (ep : Nat)
  | usb_lld_disable_endpoints
  | usb_lld_start_in (ep : Nat) (buf : Ptr) (n : Nat)
  | usb_lld_start_out (ep : Nat) (buf : Ptr) (n : Nat)
  | usb_lld_read_packet (ep : Nat) (n : Nat)
  | usb_lld_write_packet (ep : Nat) (buf : Ptr) (n : Nat)
  | usb_lld_stall_in (ep : Nat)
  | usb_lld_stall_out (ep : Nat)
  | usb_lld_clear_in (ep : Nat)
  | usb_lld_clear_out (ep : Nat)
  | usb_lld_get_status_in (ep : Nat)
  | usb_lld_get_status_out (ep : Nat)
  | event_cb (event : usbevent_t)
  | requests_hook_cb
  | get_descriptor_cb (dtype : Nat) (dindex : Nat) (langid : Nat)
  deriving DecidableEq, Repr

/-- The driver together with the calls made so far. -/
structure World (M : Nat) where
  usbp : USBDriver M
  trace : List Call

/-- What lies outside `usb.c`: the compile time address mode, the answers of the
low level driver to status queries, the endpoint zero slot the low level driver
installs on a reset (from the driver object it is given; `none` when it installs
none), and the application callbacks. -/
structure Env (M : Nat) where
  USB_SET_ADDRESS_MODE : usbaddrmode_t
  usb_lld_get_status_in : USBDriver M → Nat → usbepstatus_t
  usb_lld_get_status_out : USBDriver M → Nat → usbepstatus_t
  lld_reset_ep0 : USBDriver M → Option USBEndpointState
  get_descriptor_cb : USBDriver M → Nat → Nat → Nat → Option USBDescriptor
  requests_hook_cb : USBDriver M → USBDriver M × Bool
  event_cb : USBDriver M → usbevent_t → USBDriver M

variable {M : Nat}

/-- Records a call. -/
def World.call (w : World M) (c : Call) : World M :=
  { w with trace := w.trace ++ [c] }

/-- Modelled from the spec: `usb_lld_fetch_word`, a little-endian 16 bit read of
the SETUP packet at offset `i`. -/
def usb_lld_fetch_word (setup : Fin 8 → Nat) (i : Fin 8) : Nat :=
  setup i + 256 * setup (i + 1)

/-- Modelled from the spec: the macro `usbSetupTransfer(usbp, buf, n)` of
`usb.h`, which sets the buffer pointer and the byte count of the transfer. -/
def usbSetupTransfer (w : World M) (buf : Ptr) (n : Nat) : World M :=
  { w with usbp := { w.usbp with ep0next := buf, ep0n := n } }

/-- The statement `if (usbp->config->event_cb) usbp->config->event_cb(usbp, ev);`. -/
def invoke_event_cb (env : Env M) (ev : usbevent_t) (w : World M) : Option (World M) :=
  match w.usbp.config with
  | none => none
  | some cfg =>
    if cfg.event_cb then
      some { usbp := env.event_cb w.usbp ev, trace := w.trace ++ [Call.event_cb ev] }
    else
      some w

/-- The function `set_address` of `usb.c`. -/
def set_address (env : Env M) (w : World M) : Option (World M) :=
  let w1 : World M := { w with usbp := { w.usbp with address := w.usbp.setup 2 } }
  let w2 := w1.call (Call.usb_lld_set_address w1.usbp.address)
  match invoke_event_cb env usbevent_t.USB_EVENT_ADDRESS w2 with
  | none => none
  | some w3 => some { w3 with usbp := { w3.usbp with state := usbstate_t.USB_SELECTED } }

/-- The value the `switch` of `default_handler` decodes: recipient and type bits
of `setup[0]`, with `setup[1]` in the high byte. -/
def request_selector (setup : Fin 8 → Nat) : Nat :=
  (setup 0 &&& (USB_RTYPE_RECIPIENT_MASK ||| USB_RTYPE_TYPE_MASK)) ||| (setup 1 <<< 8)

/-- The function `default_handler` of `usb.c`: the standard requests handler.
The result pairs the updated world with the exit code (`true` when the request
was handled).  The cases of the C `switch` have distinct labels, so they are
tested in source order. -/
def default_handler (env : Env M) (w : World M) : Option (World M × Bool) :=
  let usbp := w.usbp
  let sel := request_selector usbp.setup
  if sel = (USB_RTYPE_RECIPIENT_DEVICE ||| (USB_REQ_GET_STATUS <<< 8)) then
    some (usbSetupTransfer w Ptr.status 2, true)
  else if sel = (USB_RTYPE_RECIPIENT_DEVICE ||| (USB_REQ_CLEAR_FEATURE <<< 8)) then
    if usbp.setup 2 = USB_FEATURE_DEVICE_REMOTE_WAKEUP then
      let w1 : World M := { w with usbp := { usbp with status := usbp.status &&& 0xFFFD } }
      some (usbSetupTransfer w1 Ptr.NULL 0, true)
    else
      some (w, false)
  else if sel = (USB_RTYPE_RECIPIENT_DEVICE ||| (USB_REQ_SET_FEATURE <<< 8)) then
    if usbp.setup 2 = USB_FEATURE_DEVICE_REMOTE_WAKEUP then
      let w1 : World M := { w with usbp := { usbp with status := usbp.status ||| 2 } }
      some (usbSetupTransfer w1 Ptr.NULL 0, true)
    else
      some (w, false)
  else if sel = (USB_RTYPE_RECIPIENT_DEVICE ||| (USB_REQ_SET_ADDRESS <<< 8)) then
    let early : Option (World M) :=
      match env.USB_SET_ADDRESS_MODE with
      | usbaddrmode_t.USB_EARLY_SET_ADDRESS =>
        if usbp.setup 0 = USB_RTYPE_RECIPIENT_DEVICE ∧ usbp.setup 1 = USB_REQ_SET_ADDRESS then
          set_address env w
        else
          some w
      | usbaddrmode_t.USB_LATE_SET_ADDRESS => some w
    match early with
    | none => none
    | some w1 => some (usbSetupTransfer w1 Ptr.NULL 0, true)
  else if sel = (USB_RTYPE_RECIPIENT_DEVICE ||| (USB_REQ_GET_DESCRIPTOR <<< 8)) then
    match usbp.config with
    | none => none
    | some _ =>
      let dtype := usbp.setup 3
      let dindex := usbp.setup 2
      let langid := usb_lld_fetch_word usbp.setup 4
      let w1 := w.call (Call.get_descriptor_cb dtype dindex langid)
      match env.get_descriptor_cb usbp dtype dindex langid with
      | none => some (w1, false)
      | some dp => some (usbSetupTransfer w1 dp.ud_string dp.ud_size, true)
  else if sel = (USB_RTYPE_RECIPIENT_DEVICE ||| (USB_REQ_GET_CONFIGURATION <<< 8)) then
    some (usbSetupTransfer w Ptr.configuration 1, true)
  else if sel = (USB_RTYPE_RECIPIENT_DEVICE ||| (USB_REQ_SET_CONFIGURATION <<< 8)) then
    let w1 : World M := { w with usbp := { usbp with configuration := usbp.setup 2 } }
    let w2 : World M :=
      if w1.usbp.configuration = 0 then
        { w1 with usbp := { w1.usbp with state := usbstate_t.USB_SELECTED } }
      else
        { w1 with usbp := { w1.usbp with state := usbstate_t.USB_ACTIVE } }
    match invoke_event_cb env usbevent_t.USB_EVENT_CONFIGURED w2 with
    | none => none
    | some w3 => some (usbSetupTransfer w3 Ptr.NULL 0, true)
  else if sel = (USB_RTYPE_RECIPIENT_INTERFACE ||| (USB_REQ_GET_STATUS <<< 8)) ∨
          sel = (USB_RTYPE_RECIPIENT_ENDPOINT ||| (USB_REQ_SYNCH_FRAME <<< 8)) then
    some (usbSetupTransfer w Ptr.zero_status 2, true)
  else if sel = (USB_RTYPE_RECIPIENT_ENDPOINT ||| (USB_REQ_GET_STATUS <<< 8)) then
    if usbp.setup 4 &&& 0x80 ≠ 0 then
      let w1 := w.call (Call.usb_lld_get_status_in (usbp.setup 4 &&& 0x0F))
      match env.usb_lld_get_status_in usbp (usbp.setup 4 &&& 0x0F) with
      | usbepstatus_t.EP_STATUS_STALLED => some (usbSetupTransfer w1 Ptr.halted_status 2, true)
      | usbepstatus_t.EP_STATUS_ACTIVE => some (usbSetupTransfer w1 Ptr.active_status 2, true)
      | _ => some (w1, false)
    else
      let w1 := w.call (Call.usb_lld_get_status_out (usbp.setup 4 &&& 0x0F))
      match env.usb_lld_get_status_out usbp (usbp.setup 4 &&& 0x0F) with
      | usbepstatus_t.EP_STATUS_STALLED => some (usbSetupTransfer w1 Ptr.halted_status 2, true)
      | usbepstatus_t.EP_STATUS_ACTIVE => some (usbSetupTransfer w1 Ptr.active_status 2, true)
      | _ => some (w1, false)
  else if sel = (USB_RTYPE_RECIPIENT_ENDPOINT ||| (USB_REQ_CLEAR_FEATURE <<< 8)) then
    if usbp.setup 2 ≠ USB_FEATURE_ENDPOINT_HALT then
      some (w, false)
    else
      let w1 : World M :=
        if (usbp.setup 4 &&& 0x0F) > 0 then
          if usbp.setup 4 &&& 0x80 ≠ 0 then
            w.call (Call.usb_lld_clear_in (usbp.setup 4 &&& 0x0F))
          else
            w.call (Call.usb_lld_clear_out (usbp.setup 4 &&& 0x0F))
        else w
      some (usbSetupTransfer w1 Ptr.NULL 0, true)
  else if sel = (USB_RTYPE_RECIPIENT_ENDPOINT ||| (USB_REQ_SET_FEATURE <<< 8)) then
    if usbp.setup 2 ≠ USB_FEATURE_ENDPOINT_HALT then
      some (w, false)
    else
      let w1 : World M :=
        if (usbp.setup 4 &&& 0x0F) > 0 then
          if usbp.setup 4 &&& 0x80 ≠ 0 then
            w.call (Call.usb_lld_stall_in (usbp.setup 4 &&& 0x0F))
          else
            w.call (Call.usb_lld_stall_out (usbp.setup 4 &&& 0x0F))
        else w
      some (usbSetupTransfer w1 Ptr.NULL 0, true)
  else
    some (w, false)

/-- The block under the comment `Error response.` that ends both `_usb_ep0in`
and `_usb_ep0out`. -/
def ep0_error_response (env : Env M) (w : World M) : Option (World M) :=
  let w1 := (w.call (Call.usb_lld_stall_in 0)).call (Call.usb_lld_stall_out 0)
  match invoke_event_cb env usbevent_t.USB_EVENT_STALLED w1 with
  | none => none
  | some w2 =>
    some { w2 with usbp := { w2.usbp with ep0state := usbep0state_t.USB_EP0_WAITING_SETUP } }

/-- The function `_usb_ep0in` of `usb.c`: the default EP0 IN callback. -/
def _usb_ep0in (env : Env M) (w : World M) : Option (World M) :=
  let toStatus : World M :=
    ({ w with usbp := { w.usbp with ep0state := usbep0state_t.USB_EP0_WAITING_STS } } : World M).call
      (Call.usb_lld_start_out 0 Ptr.NULL 0)
  match w.usbp.ep0state with
  | usbep0state_t.USB_EP0_TX =>
    let max := usb_lld_fetch_word w.usbp.setup 6
    if w.usbp.ep0n < max then
      match w.usbp.ep 0 with
      | none => none
      | some epp =>
        match epp.config with
        | none => none
        | some epc =>
          if epc.in_maxsize = 0 then none
          else if w.usbp.ep0n % epc.in_maxsize = 0 then
            some (w.call (Call.usb_lld_start_in 0 Ptr.NULL 0))
          else some toStatus
    else some toStatus
  | usbep0state_t.USB_EP0_SENDING_STS =>
    let late : Option (World M) :=
      match env.USB_SET_ADDRESS_MODE with
      | usbaddrmode_t.USB_LATE_SET_ADDRESS =>
        if w.usbp.setup 0 = USB_RTYPE_RECIPIENT_DEVICE ∧ w.usbp.setup 1 = USB_REQ_SET_ADDRESS then
          set_address env w
        else
          some w
      | usbaddrmode_t.USB_EARLY_SET_ADDRESS => some w
    match late with
    | none => none
    | some w1 =>
      some { w1 with usbp := { w1.usbp with ep0state := usbep0state_t.USB_EP0_WAITING_SETUP } }
  | _ => ep0_error_response env w

/-- The hook test of `_usb_ep0out`: when `requests_hook_cb` is installed it is
called and its answer returned; otherwise the answer is `false`. -/
def hook_stage (env : Env M) (cfg : USBConfig) (w : World M) : World M × Bool :=
  if cfg.requests_hook_cb then
    let r := env.requests_hook_cb w.usbp
    ({ usbp := r.1, trace := w.trace ++ [Call.requests_hook_cb] }, r.2)
  else
    (w, false)

/-- The request dispatch of `_usb_ep0out` in the `USB_EP0_WAITING_SETUP` case:
the application hook first, then the standard handler for standard requests.
The result is `true` when the request was accepted and `false` when the code
takes the `break` to the error response. -/
def setup_dispatch (env : Env M) (w : World M) : Option (World M × Bool) :=
  match w.usbp.config with
  | none => none
  | some cfg =>
    let hooked := hook_stage env cfg w
    if hooked.2 then
      some (hooked.1, true)
    else if hooked.1.usbp.setup 0 &&& USB_RTYPE_TYPE_MASK ≠ USB_RTYPE_TYPE_STD then
      some (hooked.1, false)
    else
      default_handler env hooked.1

/-- The transfer preparation of `_usb_ep0out` that follows an accepted SETUP:
the length clamp and the start of the data or status phase. -/
def transfer_preparation (w : World M) : World M :=
  let max := usb_lld_fetch_word w.usbp.setup 6
  let w1 : World M :=
    if w.usbp.ep0n > max then { w with usbp := { w.usbp with ep0n := max } } else w
  if w1.usbp.setup 0 &&& USB_RTYPE_DIR_MASK = USB_RTYPE_DIR_DEV2HOST then
    if w1.usbp.ep0n > 0 then
      ({ w1 with usbp := { w1.usbp with ep0state := usbep0state_t.USB_EP0_TX } } : World M).call
        (Call.usb_lld_start_in 0 w1.usbp.ep0next w1.usbp.ep0n)
    else
      ({ w1 with usbp := { w1.usbp with ep0state := usbep0state_t.USB_EP0_WAITING_STS } } : World M).call
        (Call.usb_lld_start_out 0 Ptr.NULL 0)
  else
    if w1.usbp.ep0n > 0 then
      ({ w1 with usbp := { w1.usbp with ep0state := usbep0state_t.USB_EP0_RX } } : World M).call
        (Call.usb_lld_start_out 0 w1.usbp.ep0next w1.usbp.ep0n)
    else
      ({ w1 with usbp := { w1.usbp with ep0state := usbep0state_t.USB_EP0_SENDING_STS } } : World M).call
        (Call.usb_lld_start_in 0 Ptr.NULL 0)

/-- The function `_usb_ep0out` of `usb.c`: the default EP0 OUT callback. -/
def _usb_ep0out (env : Env M) (w : World M) : Option (World M) :=
  match w.usbp.ep0state with
  | usbep0state_t.USB_EP0_WAITING_SETUP =>
    match setup_dispatch env w with
    | none => none
    | some (w1, false) => ep0_error_response env w1
    | some (w1, true) => some (transfer_preparation w1)
  | usbep0state_t.USB_EP0_RX =>
    some (({ w with usbp := { w.usbp with ep0state := usbep0state_t.USB_EP0_SENDING_STS } } : World M).call
      (Call.usb_lld_start_in 0 Ptr.NULL 0))
  | usbep0state_t.USB_EP0_WAITING_STS =>
    match w.usbp.ep 0 with
    | none => none
    | some epp =>
      if epp.rxsize ≠ 0 then ep0_error_response env w
      else
        some { w with usbp := { w.usbp with ep0state := usbep0state_t.USB_EP0_WAITING_SETUP } }
  | _ => ep0_error_response env w

/-! ## Life cycle and transfer functions -/

/-- The function `usbObjectInit` of `usb.c`.  It writes three fields; the others
keep what the memory held. -/
def usbObjectInit (w : World M) : World M :=
  { w with usbp := { w.usbp with state := usbstate_t.USB_STOP, config := none, param := none } }

/-- The function `usbStart` of `usb.c`; `config` is a pointer and may be null. -/
def usbStart (w : World M) (config : Option USBConfig) : Option (World M) :=
  match config with
  | none => none
  | some cfg =>
    if w.usbp.state = usbstate_t.USB_STOP ∨ w.usbp.state = usbstate_t.USB_READY then
      let w1 : World M := { w with usbp := { w.usbp with config := some cfg, ep := fun _ => none } }
      let w2 := w1.call Call.usb_lld_start
      some { w2 with usbp := { w2.usbp with state := usbstate_t.USB_READY } }
    else
      none

/-- The function `usbStop` of `usb.c`. -/
def usbStop (w : World M) : Option (World M) :=
  if w.usbp.state = usbstate_t.USB_STOP ∨ w.usbp.state = usbstate_t.USB_READY then
    let w1 := w.call Call.usb_lld_stop
    some { w1 with usbp := { w1.usbp with state := usbstate_t.USB_STOP } }
  else
    none

/-- The function `usbInitEndpointI` of `usb.c`.  The two `chDbgAssert` are those
of the source: `usbp->state == USB_ACTIVE` and `usbp->ep[ep] != NULL`.  The
structure `*epp` is zeroed by `memset`, linked to `epcp` and stored in the
slot. -/
def usbInitEndpointI (w : World M) (ep : Fin (M + 1)) (epcp : Option USBEndpointConfig) :
    Option (World M) :=
  if w.usbp.state ≠ usbstate_t.USB_ACTIVE then none
  else if w.usbp.ep ep = none then none
  else
    let epp : USBEndpointState :=
      { config := epcp, transmitting := false, receiving := false, rxsize := 0 }
    let w1 : World M := { w with usbp := { w.usbp with ep := Function.update w.usbp.ep ep (some epp) } }
    some (w1.call (Call.usb_lld_init_endpoint ep.val))

/-- The statements of `usbInitEndpointI` that follow its two `chDbgAssert`: the
structure `*epp` is zeroed by `memset`, linked to `epcp` and stored in the slot,
and the low level driver initialises the endpoint.  It is what the function
does when its assertions pass and when they are compiled out. -/
def usbInitEndpointI_body (w : World M) (ep : Fin (M + 1)) (epcp : Option USBEndpointConfig) :
    World M :=
  let epp : USBEndpointState :=
    { config := epcp, transmitting := false, receiving := false, rxsize := 0 }
  let w1 : World M := { w with usbp := { w.usbp with ep := Function.update w.usbp.ep ep (some epp) } }
  w1.call (Call.usb_lld_init_endpoint ep.val)

/-- The function `usbDisableEndpointsI` of `usb.c`. -/
def usbDisableEndpointsI (w : World M) : Option (World M) :=
  if w.usbp.state ≠ usbstate_t.USB_SELECTED then none
  else
    let w1 : World M :=
      { w with usbp := { w.usbp with ep := fun i => if 1 ≤ i.val then none else w.usbp.ep i } }
    some (w1.call Call.usb_lld_disable_endpoints)

/-- The function `usbStartTransmitI` of `usb.c`; the result pairs the updated
world with the returned flag (`true` when the endpoint is busy). -/
def usbStartTransmitI (w : World M) (ep : Fin (M + 1)) (buf : Ptr) (n : Nat) :
    Option (World M × Bool) :=
  match w.usbp.ep ep with
  | none => none
  | some epp =>
    if epp.transmitting then some (w, true)
    else
      let w1 : World M :=
        { w with usbp := { w.usbp with
            ep := Function.update w.usbp.ep ep (some { epp with transmitting := true }) } }
      some (w1.call (Call.usb_lld_start_in ep.val buf n), false)

/-- Modelled from the spec: `usb_lld_reset`, which is not part of `usb.c`.  The
low level driver is handed the driver object as it is at the call and
repopulates endpoint slot 0 ("LLD repopulates during reset"); it writes no other
field of the driver object. -/
def usb_lld_reset (env : Env M) (w : World M) : World M :=
  let w1 := w.call Call.usb_lld_reset
  { w1 with usbp := { w1.usbp with
      ep := Function.update w1.usbp.ep 0 (env.lld_reset_ep0 w1.usbp) } }

/-- The function `_usb_reset` of `usb.c`: the state, the status, the address
and the configuration number, then the loop over `ep[0..USB_MAX_ENDPOINTS]`,
then the EP0 phase, then the low level reset. -/
def _usb_reset (env : Env M) (w : World M) : World M :=
  let w1 : World M :=
    { w with usbp := { w.usbp with
        state := usbstate_t.USB_READY, status := 0, address := 0, configuration := 0 } }
  let w2 : World M := { w1 with usbp := { w1.usbp with ep := fun _ => none } }
  let w3 : World M :=
    { w2 with usbp := { w2.usbp with ep0state := usbep0state_t.USB_EP0_WAITING_SETUP } }
  usb_lld_reset env w3

/-- Modelled from the spec: the low level driver, which is not part of `usb.c`,
populates endpoint slot 0 during a reset and records in it the size of the
packet received (`rxsize`). -/
def lld_set_ep0 (w : World M) (epp : USBEndpointState) : World M :=
  { w with usbp := { w.usbp with ep := Function.update w.usbp.ep 0 (some epp) } }

/-- Modelled from the spec: the low level driver, which is not part of `usb.c`,
stores the SETUP packet it received in `setup` before the EP0 OUT callback. -/
def lld_set_setup (w : World M) (setup : Fin 8 → Nat) : World M :=
  { w with usbp := { w.usbp with setup := setup } }

/-! ## Concrete inputs -/

/-- The eight bytes of a SETUP packet. -/
def mkSetup (b0 b1 b2 b3 b4 b5 b6 b7 : Nat) : Fin 8 → Nat :=
  ![b0, b1, b2, b3, b4, b5, b6, b7]

/-- An endpoint zero slot with the given maximum packet sizes. -/
def ep0slot (maxsize : Nat) (rxsize : Nat) : USBEndpointState :=
  { config := some { in_maxsize := maxsize, out_maxsize := maxsize },
    transmitting := false, receiving := false, rxsize := rxsize }

/-- A driver with the given SETUP packet, configuration and EP0 phase, seven
endpoints, EP0 populated with 64 byte packets. -/
def sampleDriver (cfg : USBConfig) (st : usbep0state_t) (setup : Fin 8 → Nat) : USBDriver 7 :=
  { state := usbstate_t.USB_READY, config := some cfg, param := none,
    ep := fun i => if i = 0 then some (ep0slot 64 0) else none,
    ep0state := st, ep0next := Ptr.NULL, ep0n := 0, setup := setup,
    status := 0, address := 0, configuration := 0 }

/-- An environment whose callbacks leave the driver as it is: the hook declines,
no descriptor is known, every endpoint reports the given status, and a reset
installs endpoint zero with 64 byte packets. -/
def sampleEnv (mode : usbaddrmode_t) (st : usbepstatus_t) : Env 7 :=
  { USB_SET_ADDRESS_MODE := mode,
    usb_lld_get_status_in := fun _ _ => st,
    usb_lld_get_status_out := fun _ _ => st,
    lld_reset_ep0 := fun _ => some (ep0slot 64 0),
    get_descriptor_cb := fun _ _ _ _ => none,
    requests_hook_cb := fun d => (d, false),
    event_cb := fun d _ => d }

/-- A device descriptor of 18 bytes. -/
def deviceDescriptor : USBDescriptor :=
  { ud_size := 18,
    ud_string := Ptr.mem [0x12, 0x01, 0x10, 0x01, 0x02, 0x00, 0x00, 0x40, 0x83, 0x04,
                          0x40, 0x57, 0x00, 0x02, 0x01, 0x02, 0x03, 0x01] }

/-- An environment like `sampleEnv` whose descriptor callback knows the device
descriptor (type 1, index 0). -/
def descriptorEnv (mode : usbaddrmode_t) : Env 7 :=
  { sampleEnv mode usbepstatus_t.EP_STATUS_ACTIVE with
    get_descriptor_cb := fun _ dtype dindex _ =>
      if dtype = 1 ∧ dindex = 0 then some deviceDescriptor else none }

/-- A driver in the IN data stage of GET_DESCRIPTOR(Configuration)
`80 06 00 02 00 00 FF 00`: 64 bytes to send, 255 requested, 64 byte packets. -/
def txDriver : USBDriver 7 :=
  { sampleDriver ⟨false, false⟩ usbep0state_t.USB_EP0_TX
      (mkSetup 0x80 0x06 0x00 0x02 0x00 0x00 0xFF 0x00) with
    ep0next := Ptr.mem (List.replicate 64 0), ep0n := 64 }

/-- An environment like `sampleEnv` (LATE mode) whose event callback enables
endpoint 1 in response to the CONFIGURED event of a non-zero configuration, by
binding slot 1 of the endpoint table. -/
def bindingEnv : Env 7 :=
  { sampleEnv usbaddrmode_t.USB_LATE_SET_ADDRESS usbepstatus_t.EP_STATUS_ACTIVE with
    event_cb := fun d ev =>
      if ev = usbevent_t.USB_EVENT_CONFIGURED ∧ d.state = usbstate_t.USB_ACTIVE then
        { d with ep := Function.update d.ep 1 (some (ep0slot 64 0)) }
      else d }

/-- An environment like `sampleEnv` (LATE mode) whose low level reset installs
endpoint zero only when it finds the driver in READY with address 0 and slot 1
null. -/
def resetProbeEnv : Env 7 :=
  { sampleEnv usbaddrmode_t.USB_LATE_SET_ADDRESS usbepstatus_t.EP_STATUS_ACTIVE with
    lld_reset_ep0 := fun d =>
      if d.state = usbstate_t.USB_READY ∧ d.address = 0 ∧ (d.ep 1).isNone then
        some (ep0slot 64 0)
      else none }

/-- The memory of a driver object before `usbObjectInit`. -/
def rawWorld : World 7 :=
  ⟨sampleDriver ⟨false, false⟩ usbep0state_t.USB_EP0_WAITING_SETUP (mkSetup 0 0 0 0 0 0 0 0), []⟩

/-- A driver in ACTIVE with configuration 1 selected: endpoint zero populated,
every other slot unbound. -/
def activeDriver : USBDriver 7 :=
  { sampleDriver ⟨true, false⟩ usbep0state_t.USB_EP0_WAITING_SETUP
      (mkSetup 0x00 0x09 0x01 0x00 0x00 0x00 0x00 0x00) with
    state := usbstate_t.USB_ACTIVE, configuration := 1 }

/-- A driver in ACTIVE with configuration 1 selected, address 7, and endpoint 1
enabled (slot 1 bound). -/
def boundDriver : USBDriver 7 :=
  { activeDriver with
    address := 7,
    ep := fun i => if i = 0 ∨ i = 1 then some (ep0slot 64 0) else none }

/-! ## Vocabulary of the statements -/

/-- The driver after `k` successive EP0 IN-complete events. -/
def ep0in_repeat (env : Env M) : Nat → World M → Option (World M)
  | 0, w => some w
  | k + 1, w =>
    match _usb_ep0in env w with
    | none => none
    | some w1 => ep0in_repeat env k w1


/-- The bytes a transfer pointer refers to (the status word on a little-endian
target). -/
def Ptr.read (d : USBDriver M) : Ptr → List Nat
  | Ptr.NULL => []
  | Ptr.status => [d.status % 256, d.status / 256 % 256]
  | Ptr.configuration => [d.configuration]
  | Ptr.zero_status => USB.zero_status
  | Ptr.active_status => USB.active_status
  | Ptr.halted_status => USB.halted_status
  | Ptr.mem bytes => bytes

/-- The reply a request handler has set up: the first `ep0n` bytes at `ep0next`. -/
def reply (d : USBDriver M) : List Nat :=
  (d.ep0next.read d).take d.ep0n

/-- A standard request (type bits of `setup[0]`) for the given recipient
(recipient bits of `setup[0]`) with the given request code (`setup[1]`). -/
def isStandardRequest (setup : Fin 8 → Nat) (recipient request : Nat) : Prop :=
  setup 0 &&& USB_RTYPE_TYPE_MASK = USB_RTYPE_TYPE_STD ∧
  setup 0 &&& USB_RTYPE_RECIPIENT_MASK = recipient ∧
  setup 1 = request

instance (setup : Fin 8 → Nat) (recipient request : Nat) :
    Decidable (isStandardRequest setup recipient request) := by
  unfold isStandardRequest; infer_instance

/-- The application callbacks leave the life cycle fields of the driver as they
are: `state`, `configuration`, `config` and the endpoint table.  They may write
every other field (the hook sets up the transfer in `ep0next` and `ep0n`). -/
def Env.keepsFields (env : Env M) : Prop :=
  (∀ (d : USBDriver M) (ev : usbevent_t),
    (env.event_cb d ev).state = d.state ∧
    (env.event_cb d ev).configuration = d.configuration ∧
    (env.event_cb d ev).config = d.config ∧
    (env.event_cb d ev).ep = d.ep) ∧
  (∀ d : USBDriver M,
    (env.requests_hook_cb d).1.state = d.state ∧
    (env.requests_hook_cb d).1.configuration = d.configuration ∧
    (env.requests_hook_cb d).1.config = d.config ∧
    (env.requests_hook_cb d).1.ep = d.ep)

/-- A bound on what an EP0 callback does to the life cycle fields: `config` and
the endpoint table are kept, and either `state` and `configuration` are kept
too, or a configuration is attached and the state becomes SELECTED, or ACTIVE
with a non-zero configuration number. -/
def lifecycleEffect (d d1 : USBDriver M) : Prop :=
  d1.config = d.config ∧ d1.ep = d.ep ∧
  ((d1.state = d.state ∧ d1.configuration = d.configuration) ∨
   (d.config ≠ none ∧ d1.state = usbstate_t.USB_SELECTED) ∨
   (d.config ≠ none ∧ d1.state = usbstate_t.USB_ACTIVE ∧ d1.configuration ≠ 0))

/-- One step of the driver other than `usbStart`: a life cycle function of
`usb.c` called within its assertions, an EP0 callback, or the low level driver
storing a SETUP packet or the state of endpoint zero. -/
inductive Step (env : Env M) : World M → World M → Prop
  | stop {w w1 : World M} : usbStop w = some w1 → Step env w w1
  | reset (w : World M) : Step env w (_usb_reset env w)
  | init_endpoint {w w1 : World M} (ep : Fin (M + 1)) (epcp : Option USBEndpointConfig) :
      usbInitEndpointI w ep epcp = some w1 → Step env w w1
  | disable_endpoints {w w1 : World M} : usbDisableEndpointsI w = some w1 → Step env w w1
  | lld_ep0 (w : World M) (epp : USBEndpointState) : Step env w (lld_set_ep0 w epp)
  | lld_setup (w : World M) (setup : Fin 8 → Nat) : Step env w (lld_set_setup w setup)
  | ep0in {w w1 : World M} : _usb_ep0in env w = some w1 → Step env w w1
  | ep0out {w w1 : World M} : _usb_ep0out env w = some w1 → Step env w w1

/-- The worlds reachable from `usbObjectInit` (on any memory contents) through
`usbStart` and the steps of `Step`. -/
inductive Reachable (env : Env M) : World M → Prop
  | init (w : World M) : Reachable env (usbObjectInit w)
  | start {w w1 : World M} (config : Option USBConfig) :
      Reachable env w → usbStart w config = some w1 → Reachable env w1
  | step {w w1 : World M} : Reachable env w → Step env w w1 → Reachable env w1

/-- The worlds reachable from `usbObjectInit` through the steps of `Step`, with
no call of `usbStart`. -/
inductive ReachableUnstarted (env : Env M) : World M → Prop
  | init (w : World M) : ReachableUnstarted env (usbObjectInit w)
  | step {w w1 : World M} : ReachableUnstarted env w → Step env w w1 → ReachableUnstarted env w1

/-- The worlds reachable from `usbObjectInit` (on any memory contents) through
`usbStart`, `usbStop`, `_usb_reset`, `usbInitEndpointI`, `usbDisableEndpointsI`,
the EP0 callbacks and the writes of the low level driver, each with a flag.
`usbInitEndpointI` is called in ACTIVE (its first assertion) on a slot that is
unbound, as the message of its second assertion asks, or bound, as the test of
that assertion is written: no use is made of the second assertion.  The flag is
`true` when a non-zero slot may be bound: from the initial memory, and from a
call of `usbInitEndpointI` on a non-zero endpoint, until the next `usbStart`,
`_usb_reset` or `usbDisableEndpointsI`. -/
inductive ReachableEnabling (env : Env M) : Bool → World M → Prop
  | init (w : World M) : ReachableEnabling env true (usbObjectInit w)
  | start {f : Bool} {w w1 : World M} (config : Option USBConfig) :
      ReachableEnabling env f w → usbStart w config = some w1 → ReachableEnabling env false w1
  | stop {f : Bool} {w w1 : World M} :
      ReachableEnabling env f w → usbStop w = some w1 → ReachableEnabling env f w1
  | reset {f : Bool} {w : World M} :
      ReachableEnabling env f w → ReachableEnabling env false (_usb_reset env w)
  | init_endpoint {f : Bool} {w : World M} (ep : Fin (M + 1)) (epcp : Option USBEndpointConfig) :
      ReachableEnabling env f w → w.usbp.state = usbstate_t.USB_ACTIVE → ep ≠ 0 →
      ReachableEnabling env true (usbInitEndpointI_body w ep epcp)
  | init_endpoint_zero {f : Bool} {w : World M} (epcp : Option USBEndpointConfig) :
      ReachableEnabling env f w → w.usbp.state = usbstate_t.USB_ACTIVE →
      ReachableEnabling env f (usbInitEndpointI_body w 0 epcp)
  | disable_endpoints {f : Bool} {w w1 : World M} :
      ReachableEnabling env f w → usbDisableEndpointsI w = some w1 →
      ReachableEnabling env false w1
  | lld_ep0 {f : Bool} {w : World M} (epp : USBEndpointState) :
      ReachableEnabling env f w → ReachableEnabling env f (lld_set_ep0 w epp)
  | lld_setup {f : Bool} {w : World M} (setup : Fin 8 → Nat) :
      ReachableEnabling env f w → ReachableEnabling env f (lld_set_setup w setup)
  | ep0in {f : Bool} {w w1 : World M} :
      ReachableEnabling env f w → _usb_ep0in env w = some w1 → ReachableEnabling env f w1
  | ep0out {f : Bool} {w w1 : World M} :
      ReachableEnabling env f w → _usb_ep0out env w = some w1 → ReachableEnabling env f w1

/-- The invariant of the life cycle fields: with no configuration attached the
state is STOP or READY; with one attached every non-zero endpoint slot is null;
in ACTIVE the configuration number is non-zero. -/
def lifecycleInvariant (d : USBDriver M) : Prop :=
  (d.config = none → d.state = usbstate_t.USB_STOP ∨ d.state = usbstate_t.USB_READY) ∧
  (d.config ≠ none → ∀ i : Fin (M + 1), i ≠ 0 → d.ep i = none) ∧
  (d.state = usbstate_t.USB_ACTIVE → d.configuration ≠ 0)

/-- The calls that only ask for a value: the descriptor callback and the two
endpoint status queries of the low level driver. -/
def Call.isQuery : Call → Bool
  | Call.get_descriptor_cb _ _ _ => true
  | Call.usb_lld_get_status_in _ => true
  | Call.usb_lld_get_status_out _ => true
  | _ => false

/-- Two drivers that are equal except for bit 7 of `setup[0]`. -/
structure EqualUpToDirection (d1 d2 : USBDriver M) : Prop where
  state : d1.state = d2.state
  config : d1.config = d2.config
  param : d1.param = d2.param
  ep : d1.ep = d2.ep
  ep0state : d1.ep0state = d2.ep0state
  ep0next : d1.ep0next = d2.ep0next
  ep0n : d1.ep0n = d2.ep0n
  status : d1.status = d2.status
  address : d1.address = d2.address
  configuration : d1.configuration = d2.configuration
  setup_rest : ∀ i : Fin 8, i ≠ 0 → d1.setup i = d2.setup i
  setup0_bits : ∀ k : Nat, k ≠ 7 → (d1.setup 0).testBit k = (d2.setup 0).testBit k

/-- The environment does not look at the direction bit: on two drivers that are
equal except for bit 7 of `setup[0]` the descriptor callback and the endpoint
status queries answer alike, and the event callback leaves two drivers that are
again equal except for that bit. -/
def Env.ignoresDirection (env : Env M) : Prop :=
  ∀ d1 d2 : USBDriver M, EqualUpToDirection d1 d2 →
    (∀ t i l : Nat, env.get_descriptor_cb d1 t i l = env.get_descriptor_cb d2 t i l) ∧
    (∀ e : Nat, env.usb_lld_get_status_in d1 e = env.usb_lld_get_status_in d2 e) ∧
    (∀ e : Nat, env.usb_lld_get_status_out d1 e = env.usb_lld_get_status_out d2 e) ∧
    (∀ ev : usbevent_t, EqualUpToDirection (env.event_cb d1 ev) (env.event_cb d2 ev))

/-- Two results of a request handler that agree up to the direction bit: both
undefined, or the same exit code, the same calls, and drivers that are equal
except for bit 7 of `setup[0]`. -/
def sameOutcome (r1 r2 : Option (World M × Bool)) : Prop :=
  (r1 = none ∧ r2 = none) ∨
  ∃ (a c : World M) (b : Bool), r1 = some (a, b) ∧ r2 = some (c, b) ∧
    EqualUpToDirection a.usbp c.usbp ∧ a.trace = c.trace

/-- Following the spec's words (4.3): the phase entered after an accepted SETUP
and the call that starts it, chosen from the direction bit (bit 7 of
`setup[0]`) and the transfer length `n`. -/
def specDataStage (setup0 : Nat) (next : Ptr) (n : Nat) : usbep0state_t × Call :=
  if setup0.testBit 7 then
    if 0 < n then (usbep0state_t.USB_EP0_TX, Call.usb_lld_start_in 0 next n)
    else (usbep0state_t.USB_EP0_WAITING_STS, Call.usb_lld_start_out 0 Ptr.NULL 0)
  else
    if 0 < n then (usbep0state_t.USB_EP0_RX, Call.usb_lld_start_out 0 next n)
    else (usbep0state_t.USB_EP0_SENDING_STS, Call.usb_lld_start_in 0 Ptr.NULL 0)

/-! ## Auxiliary facts -/

/-- Bit 7 of a byte, as the code tests it against `USB_RTYPE_DIR_DEV2HOST`. -/
theorem and_0x80_eq_iff_testBit (a : Nat) : a &&& 0x80 = 0x80 ↔ a.testBit 7 = true := by
  have h := Nat.and_two_pow a 7
  norm_num at h
  rw [h]
  cases a.testBit 7 <;> simp

/-- Bit 7 of a byte, as the code tests it for being non-zero. -/
theorem and_0x80_ne_zero_iff_testBit (a : Nat) : a &&& 0x80 ≠ 0 ↔ a.testBit 7 = true := by
  have h := Nat.and_two_pow a 7
  norm_num at h
  rw [h]
  cases a.testBit 7 <;> simp

/-- The word at offset 6 of the SETUP packet is `wLength`. -/
theorem fetch_word_6 (setup : Fin 8 → Nat) :
    usb_lld_fetch_word setup 6 = setup 6 + 256 * setup 7 := rfl

/-- The word at offset 4 of the SETUP packet is `wIndex`. -/
theorem fetch_word_4 (setup : Fin 8 → Nat) :
    usb_lld_fetch_word setup 4 = setup 4 + 256 * setup 5 := rfl

/-- An accepted SETUP in `USB_EP0_WAITING_SETUP` runs the transfer preparation. -/
theorem ep0out_of_accepted (env : Env M) (w wd : World M)
    (hst : w.usbp.ep0state = usbep0state_t.USB_EP0_WAITING_SETUP)
    (hacc : setup_dispatch env w = some (wd, true)) :
    _usb_ep0out env w = some (transfer_preparation wd) := by
  simp [_usb_ep0out, hst, hacc]

/-- A rejected SETUP in `USB_EP0_WAITING_SETUP` runs the error response. -/
theorem ep0out_of_rejected (env : Env M) (w wd : World M)
    (hst : w.usbp.ep0state = usbep0state_t.USB_EP0_WAITING_SETUP)
    (hrej : setup_dispatch env w = some (wd, false)) :
    _usb_ep0out env w = ep0_error_response env wd := by
  simp [_usb_ep0out, hst, hrej]

/-! ## The claims -/

/-- C1: for a driver in `USB_EP0_WAITING_SETUP` whose SETUP packet is accepted
by the dispatch (hook or standard handler), `_usb_ep0out` returns, the length
it leaves in `ep0n` is the clamped length, and the next phase is chosen from
bit 7 of `setup[0]` and that length: device-to-host with `n > 0` gives
`USB_EP0_TX` and `usb_lld_start_in(0, ep0next, n)`; device-to-host with `n = 0`
gives `USB_EP0_WAITING_STS` and `usb_lld_start_out(0, NULL, 0)`; host-to-device
with `n > 0` gives `USB_EP0_RX` and `usb_lld_start_out(0, ep0next, n)`;
host-to-device with `n = 0` gives `USB_EP0_SENDING_STS` and
`usb_lld_start_in(0, NULL, 0)`.  In each case that call is the only one made
after the dispatch. -/
theorem C1_ep0out_phase_selection (env : Env M) (w wd : World M)
    (hst : w.usbp.ep0state = usbep0state_t.USB_EP0_WAITING_SETUP)
    (hacc : setup_dispatch env w = some (wd, true)) :
    ∃ w1 : World M, _usb_ep0out env w = some w1 ∧
      w1.usbp.ep0n = min wd.usbp.ep0n (wd.usbp.setup 6 + 256 * wd.usbp.setup 7) ∧
      w1.usbp.ep0next = wd.usbp.ep0next ∧
      (((wd.usbp.setup 0).testBit 7 = true ∧ 0 < w1.usbp.ep0n) →
        w1.usbp.ep0state = usbep0state_t.USB_EP0_TX ∧
        w1.trace = wd.trace ++ [Call.usb_lld_start_in 0 w1.usbp.ep0next w1.usbp.ep0n]) ∧
      (((wd.usbp.setup 0).testBit 7 = true ∧ w1.usbp.ep0n = 0) →
        w1.usbp.ep0state = usbep0state_t.USB_EP0_WAITING_STS ∧
        w1.trace = wd.trace ++ [Call.usb_lld_start_out 0 Ptr.NULL 0]) ∧
      (((wd.usbp.setup 0).testBit 7 = false ∧ 0 < w1.usbp.ep0n) →
        w1.usbp.ep0state = usbep0state_t.USB_EP0_RX ∧
        w1.trace = wd.trace ++ [Call.usb_lld_start_out 0 w1.usbp.ep0next w1.usbp.ep0n]) ∧
      (((wd.usbp.setup 0).testBit 7 = false ∧ w1.usbp.ep0n = 0) →
        w1.usbp.ep0state = usbep0state_t.USB_EP0_SENDING_STS ∧
        w1.trace = wd.trace ++ [Call.usb_lld_start_in 0 Ptr.NULL 0]) := by
  refine ⟨transfer_preparation wd, ep0out_of_accepted env w wd hst hacc, ?_⟩
  have hdir := and_0x80_eq_iff_testBit (wd.usbp.setup 0)
  simp only [transfer_preparation, fetch_word_6, USB_RTYPE_DIR_MASK, USB_RTYPE_DIR_DEV2HOST,
    World.call]
  by_cases hb : (wd.usbp.setup 0).testBit 7 = true
  · have hd : wd.usbp.setup 0 &&& 0x80 = 0x80 := hdir.mpr hb
    by_cases hc : wd.usbp.ep0n > wd.usbp.setup 6 + 256 * wd.usbp.setup 7
    · by_cases hz : wd.usbp.setup 6 + 256 * wd.usbp.setup 7 > 0
      · simp [hb, hd, hc, hz]; omega
      · simp [hb, hd, hc, hz]; omega
    · by_cases hz : wd.usbp.ep0n > 0
      · simp [hb, hd, hc, hz]; omega
      · simp [hb, hd, hc, hz]; omega
  · have hd : ¬ (wd.usbp.setup 0 &&& 0x80 = 0x80) := fun h => hb (hdir.mp h)
    by_cases hc : wd.usbp.ep0n > wd.usbp.setup 6 + 256 * wd.usbp.setup 7
    · by_cases hz : wd.usbp.setup 6 + 256 * wd.usbp.setup 7 > 0
      · simp [hb, hd, hc, hz]; omega
      · simp [hb, hd, hc, hz]; omega
    · by_cases hz : wd.usbp.ep0n > 0
      · simp [hb, hd, hc, hz]; omega
      · simp [hb, hd, hc, hz]; omega

/-- Witness for C1: GET_DESCRIPTOR(Device) `80 06 00 01 00 00 12 00` answered
with the 18 byte descriptor is accepted and starts an 18 byte IN data stage. -/
theorem C1_ep0out_phase_selection_witness :
    ∃ w1 : World 7,
      _usb_ep0out (descriptorEnv usbaddrmode_t.USB_LATE_SET_ADDRESS)
        ⟨sampleDriver ⟨false, false⟩ usbep0state_t.USB_EP0_WAITING_SETUP
          (mkSetup 0x80 0x06 0x00 0x01 0x00 0x00 0x12 0x00), []⟩ = some w1 ∧
      w1.usbp.ep0n = 18 ∧
      w1.usbp.ep0state = usbep0state_t.USB_EP0_TX ∧
      w1.trace = [Call.get_descriptor_cb 1 0 0,
                  Call.usb_lld_start_in 0 deviceDescriptor.ud_string 18] := by
  obtain ⟨w1, h1, hn, hp, htx, -⟩ :=
    C1_ep0out_phase_selection (descriptorEnv usbaddrmode_t.USB_LATE_SET_ADDRESS)
      ⟨sampleDriver ⟨false, false⟩ usbep0state_t.USB_EP0_WAITING_SETUP
        (mkSetup 0x80 0x06 0x00 0x01 0x00 0x00 0x12 0x00), []⟩
      (usbSetupTransfer
        (World.call ⟨sampleDriver ⟨false, false⟩ usbep0state_t.USB_EP0_WAITING_SETUP
          (mkSetup 0x80 0x06 0x00 0x01 0x00 0x00 0x12 0x00), []⟩ (Call.get_descriptor_cb 1 0 0))
        deviceDescriptor.ud_string 18)
      rfl rfl
  have hn18 : w1.usbp.ep0n = 18 := by rw [hn]; decide
  have h := htx ⟨by decide, by omega⟩
  rw [hn18, hp] at h
  exact ⟨w1, h1, hn18, h.1, h.2⟩

/-- C2: for an accepted SETUP packet, `_usb_ep0out` leaves
`ep0n = min(n_handler, wLength)`, where `n_handler` is the length the request
handler set and `wLength = setup[6] + 256 * setup[7]`; the one call it then
makes is `usb_lld_start_in` or `usb_lld_start_out` on endpoint zero with a byte
count that does not exceed `wLength` (nor the handler's length). -/
theorem C2_ep0out_length_clamp (env : Env M) (w wd : World M)
    (hst : w.usbp.ep0state = usbep0state_t.USB_EP0_WAITING_SETUP)
    (hacc : setup_dispatch env w = some (wd, true)) :
    ∃ w1 : World M, _usb_ep0out env w = some w1 ∧
      w1.usbp.ep0n = min wd.usbp.ep0n (wd.usbp.setup 6 + 256 * wd.usbp.setup 7) ∧
      ∃ (buf : Ptr) (k : Nat),
        (w1.trace = wd.trace ++ [Call.usb_lld_start_in 0 buf k] ∨
         w1.trace = wd.trace ++ [Call.usb_lld_start_out 0 buf k]) ∧
        k ≤ wd.usbp.setup 6 + 256 * wd.usbp.setup 7 ∧ k ≤ wd.usbp.ep0n := by
  refine ⟨transfer_preparation wd, ep0out_of_accepted env w wd hst hacc, ?_⟩
  simp only [transfer_preparation, fetch_word_6, World.call]
  by_cases hd : wd.usbp.setup 0 &&& USB_RTYPE_DIR_MASK = USB_RTYPE_DIR_DEV2HOST
  · by_cases hc : wd.usbp.ep0n > wd.usbp.setup 6 + 256 * wd.usbp.setup 7
    · by_cases hz : wd.usbp.setup 6 + 256 * wd.usbp.setup 7 > 0
      · simp only [hd, hc, hz, if_true]
        exact ⟨by simp; omega, wd.usbp.ep0next, _, Or.inl rfl, le_refl _, by omega⟩
      · simp only [hd, hc, hz, if_true, if_false]
        exact ⟨by simp; omega, Ptr.NULL, 0, Or.inr rfl, by omega, by omega⟩
    · by_cases hz : wd.usbp.ep0n > 0
      · simp only [hd, hc, hz, if_true, if_false]
        exact ⟨by simp; omega, wd.usbp.ep0next, _, Or.inl rfl, by omega, le_refl _⟩
      · simp only [hd, hc, hz, if_true, if_false]
        exact ⟨by simp; omega, Ptr.NULL, 0, Or.inr rfl, by omega, by omega⟩
  · by_cases hc : wd.usbp.ep0n > wd.usbp.setup 6 + 256 * wd.usbp.setup 7
    · by_cases hz : wd.usbp.setup 6 + 256 * wd.usbp.setup 7 > 0
      · simp only [hd, hc, hz, if_true, if_false]
        exact ⟨by simp; omega, wd.usbp.ep0next, _, Or.inr rfl, le_refl _, by omega⟩
      · simp only [hd, hc, hz, if_true, if_false]
        exact ⟨by simp; omega, Ptr.NULL, 0, Or.inl rfl, by omega, by omega⟩
    · by_cases hz : wd.usbp.ep0n > 0
      · simp only [hd, hc, hz, if_true, if_false]
        exact ⟨by simp; omega, wd.usbp.ep0next, _, Or.inr rfl, by omega, le_refl _⟩
      · simp only [hd, hc, hz, if_true, if_false]
        exact ⟨by simp; omega, Ptr.NULL, 0, Or.inl rfl, by omega, by omega⟩

/-- Witness for C2: GET_DESCRIPTOR(Device) with `wLength = 8`,
`80 06 00 01 00 00 08 00`, answered with the 18 byte descriptor: the transfer
is clamped to 8 bytes. -/
theorem C2_ep0out_length_clamp_witness :
    ∃ w1 : World 7,
      _usb_ep0out (descriptorEnv usbaddrmode_t.USB_LATE_SET_ADDRESS)
        ⟨sampleDriver ⟨false, false⟩ usbep0state_t.USB_EP0_WAITING_SETUP
          (mkSetup 0x80 0x06 0x00 0x01 0x00 0x00 0x08 0x00), []⟩ = some w1 ∧
      w1.usbp.ep0n = 8 := by
  obtain ⟨w1, h1, hn, -⟩ :=
    C2_ep0out_length_clamp (descriptorEnv usbaddrmode_t.USB_LATE_SET_ADDRESS)
      ⟨sampleDriver ⟨false, false⟩ usbep0state_t.USB_EP0_WAITING_SETUP
        (mkSetup 0x80 0x06 0x00 0x01 0x00 0x00 0x08 0x00), []⟩
      (usbSetupTransfer
        (World.call ⟨sampleDriver ⟨false, false⟩ usbep0state_t.USB_EP0_WAITING_SETUP
          (mkSetup 0x80 0x06 0x00 0x01 0x00 0x00 0x08 0x00), []⟩ (Call.get_descriptor_cb 1 0 0))
        deviceDescriptor.ud_string 18)
      rfl rfl
  exact ⟨w1, h1, by rw [hn]; decide⟩

/-- The error response on a driver with a configuration attached: the two EP0
stalls, the STALLED event when `event_cb` is installed, and
`USB_EP0_WAITING_SETUP`. -/
theorem error_response_spec (env : Env M) (w : World M) (cfg : USBConfig)
    (hcfg : w.usbp.config = some cfg) :
    ∃ w1 : World M, ep0_error_response env w = some w1 ∧
      w1.usbp.ep0state = usbep0state_t.USB_EP0_WAITING_SETUP ∧
      w1.trace = w.trace ++ [Call.usb_lld_stall_in 0, Call.usb_lld_stall_out 0] ++
        (if cfg.event_cb then [Call.event_cb usbevent_t.USB_EVENT_STALLED] else []) := by
  cases hcb : cfg.event_cb <;>
    simp [ep0_error_response, invoke_event_cb, World.call, hcfg, hcb]

/-- Counterexample to C3 as stated: with no event callback installed
(`event_cb` null), an EP0 IN-complete in `USB_EP0_RX` takes the error path,
stalls EP0 IN and OUT and ends in `USB_EP0_WAITING_SETUP`, but no STALLED event
is emitted. -/
theorem C3_counterexample :
    (_usb_ep0in (sampleEnv usbaddrmode_t.USB_LATE_SET_ADDRESS usbepstatus_t.EP_STATUS_ACTIVE)
        ⟨sampleDriver ⟨false, false⟩ usbep0state_t.USB_EP0_RX (mkSetup 0 0 0 0 0 0 0 0), []⟩).map
      (fun w1 => (w1.usbp.ep0state, w1.trace,
                  w1.trace.count (Call.event_cb usbevent_t.USB_EVENT_STALLED))) =
      some (usbep0state_t.USB_EP0_WAITING_SETUP,
            [Call.usb_lld_stall_in 0, Call.usb_lld_stall_out 0], 0) := by
  decide

/-- C3 (amended): on a driver with a configuration attached, the EP0 protocol
error path calls `usb_lld_stall_in(0)` and `usb_lld_stall_out(0)`, emits exactly
one STALLED event when an event callback is installed and none otherwise, makes
no other call, and ends with `ep0state = USB_EP0_WAITING_SETUP`.  The path is
taken by `_usb_ep0in` in every state other than TX and SENDING_STS, and by
`_usb_ep0out` in TX and SENDING_STS, in WAITING_STS with a non-empty status
packet, and in WAITING_SETUP when the dispatch rejects the request (there it
runs on the driver the dispatch leaves). -/
theorem C3_error_path (env : Env M) (w : World M) (cfg : USBConfig)
    (hcfg : w.usbp.config = some cfg) :
    (∃ w1 : World M, ep0_error_response env w = some w1 ∧
      w1.usbp.ep0state = usbep0state_t.USB_EP0_WAITING_SETUP ∧
      w1.trace = w.trace ++ [Call.usb_lld_stall_in 0, Call.usb_lld_stall_out 0] ++
        (if cfg.event_cb then [Call.event_cb usbevent_t.USB_EVENT_STALLED] else []) ∧
      (w1.trace.drop w.trace.length).count (Call.event_cb usbevent_t.USB_EVENT_STALLED) =
        (if cfg.event_cb then 1 else 0)) ∧
    (w.usbp.ep0state ≠ usbep0state_t.USB_EP0_TX →
      w.usbp.ep0state ≠ usbep0state_t.USB_EP0_SENDING_STS →
      _usb_ep0in env w = ep0_error_response env w) ∧
    (w.usbp.ep0state = usbep0state_t.USB_EP0_TX ∨
      w.usbp.ep0state = usbep0state_t.USB_EP0_SENDING_STS →
      _usb_ep0out env w = ep0_error_response env w) ∧
    (∀ epp : USBEndpointState, w.usbp.ep0state = usbep0state_t.USB_EP0_WAITING_STS →
      w.usbp.ep 0 = some epp → epp.rxsize ≠ 0 →
      _usb_ep0out env w = ep0_error_response env w) ∧
    (∀ w0 : World M, w0.usbp.ep0state = usbep0state_t.USB_EP0_WAITING_SETUP →
      setup_dispatch env w0 = some (w, false) →
      _usb_ep0out env w0 = ep0_error_response env w) := by
  refine ⟨?_, ?_, ?_, ?_, ?_⟩
  · obtain ⟨w1, h1, hs, ht⟩ := error_response_spec env w cfg hcfg
    refine ⟨w1, h1, hs, ht, ?_⟩
    rw [ht, List.append_assoc, List.drop_left]
    cases cfg.event_cb <;> simp
  · intro h1 h2
    cases hst : w.usbp.ep0state <;> simp_all [_usb_ep0in]
  · intro h
    rcases h with h | h <;> simp [_usb_ep0out, h]
  · intro epp hst hep hrx
    simp [_usb_ep0out, hst, hep, hrx]
  · intro w0 hst hrej
    exact ep0out_of_rejected env w0 w hst hrej

/-- Witness for C3: an EP0 IN-complete in `USB_EP0_RX` with an event callback
installed stalls EP0 and emits one STALLED event. -/
theorem C3_error_path_witness :
    ∃ w1 : World 7,
      _usb_ep0in (sampleEnv usbaddrmode_t.USB_LATE_SET_ADDRESS usbepstatus_t.EP_STATUS_ACTIVE)
        ⟨sampleDriver ⟨true, false⟩ usbep0state_t.USB_EP0_RX (mkSetup 0 0 0 0 0 0 0 0), []⟩ =
        some w1 ∧
      w1.usbp.ep0state = usbep0state_t.USB_EP0_WAITING_SETUP ∧
      w1.trace = [Call.usb_lld_stall_in 0, Call.usb_lld_stall_out 0,
                  Call.event_cb usbevent_t.USB_EVENT_STALLED] := by
  obtain ⟨⟨w1, h1, hs, ht, -⟩, hin, -⟩ :=
    C3_error_path (sampleEnv usbaddrmode_t.USB_LATE_SET_ADDRESS usbepstatus_t.EP_STATUS_ACTIVE)
      ⟨sampleDriver ⟨true, false⟩ usbep0state_t.USB_EP0_RX (mkSetup 0 0 0 0 0 0 0 0), []⟩
      ⟨true, false⟩ rfl
  exact ⟨w1, by rw [hin (by decide) (by decide)]; exact h1, hs, by rw [ht]; rfl⟩

/-- C4 (code behaviour): in `USB_EP0_TX` with a reply length `ep0n` that is a
non-zero multiple of `in_maxsize` and less than `wLength`, an EP0 IN-complete
emits a zero-length packet and leaves the driver as it was, still in
`USB_EP0_TX`; so every further IN-complete emits another zero-length packet
and the status stage (`USB_EP0_WAITING_STS`, `usb_lld_start_out(0, NULL, 0)`)
is never entered: after `k` IN-completes the calls made are `k` zero-length
packets. -/
theorem C4_zero_length_packet_repeats (env : Env M) (w : World M)
    (epp : USBEndpointState) (epc : USBEndpointConfig)
    (hst : w.usbp.ep0state = usbep0state_t.USB_EP0_TX)
    (hep : w.usbp.ep 0 = some epp) (hc : epp.config = some epc)
    (hmax : 0 < epc.in_maxsize)
    (hpos : 0 < w.usbp.ep0n) (hmul : w.usbp.ep0n % epc.in_maxsize = 0)
    (hlt : w.usbp.ep0n < w.usbp.setup 6 + 256 * w.usbp.setup 7) :
    ∀ k : Nat, ep0in_repeat env k w =
      some { w with trace := w.trace ++ List.replicate k (Call.usb_lld_start_in 0 Ptr.NULL 0) } := by
  intro k
  induction k generalizing w with
  | zero => simp [ep0in_repeat]
  | succ k ih =>
    have hstep : _usb_ep0in env w = some (w.call (Call.usb_lld_start_in 0 Ptr.NULL 0)) := by
      have hne : epc.in_maxsize ≠ 0 := by omega
      simp [_usb_ep0in, hst, hep, hc, fetch_word_6, hlt, hne, hmul]
    simp only [ep0in_repeat, hstep]
    rw [ih (w.call (Call.usb_lld_start_in 0 Ptr.NULL 0)) hst hep hpos hmul hlt]
    simp [World.call, List.replicate_succ]

/-- Witness for C4: with 64 bytes sent of 255 requested and 64 byte packets,
two IN-completes emit two zero-length packets and the driver is still in
`USB_EP0_TX`. -/
theorem C4_zero_length_packet_repeats_witness :
    (ep0in_repeat (sampleEnv usbaddrmode_t.USB_LATE_SET_ADDRESS usbepstatus_t.EP_STATUS_ACTIVE) 2
        ⟨txDriver, []⟩).map (fun w1 => (w1.usbp.ep0state, w1.trace)) =
      some (usbep0state_t.USB_EP0_TX,
            [Call.usb_lld_start_in 0 Ptr.NULL 0, Call.usb_lld_start_in 0 Ptr.NULL 0]) := by
  rw [C4_zero_length_packet_repeats
    (sampleEnv usbaddrmode_t.USB_LATE_SET_ADDRESS usbepstatus_t.EP_STATUS_ACTIVE)
    ⟨txDriver, []⟩ (ep0slot 64 0) ⟨64, 64⟩ rfl rfl rfl (by decide) (by decide) (by decide)
    (by decide) 2]
  rfl

/-- The request selector of a standard request. -/
theorem selector_of_standard (setup : Fin 8 → Nat) (recipient request : Nat)
    (h : isStandardRequest setup recipient request) :
    request_selector setup = recipient ||| (request <<< 8) := by
  obtain ⟨h1, h2, h3⟩ := h
  have hm : USB_RTYPE_RECIPIENT_MASK ||| USB_RTYPE_TYPE_MASK = 0x1F ||| 0x60 := rfl
  simp only [USB_RTYPE_TYPE_MASK, USB_RTYPE_TYPE_STD, USB_RTYPE_RECIPIENT_MASK] at h1 h2
  rw [request_selector, hm, Nat.and_or_distrib_left, h1, h2, h3]
  simp

/-- A packet whose first byte is zero is a standard request to the device. -/
theorem standard_of_setup0_zero (setup : Fin 8 → Nat) (request : Nat)
    (h0 : setup 0 = 0) (h1 : setup 1 = request) :
    isStandardRequest setup USB_RTYPE_RECIPIENT_DEVICE request := by
  simp [isStandardRequest, h0, h1, USB_RTYPE_TYPE_STD, USB_RTYPE_RECIPIENT_DEVICE]

/-- The dispatch with no hook installed, for a standard request, is the
standard handler. -/
theorem dispatch_no_hook_standard (env : Env M) (w : World M) (cfg : USBConfig)
    (hcfg : w.usbp.config = some cfg) (hhook : cfg.requests_hook_cb = false)
    (hstd : w.usbp.setup 0 &&& USB_RTYPE_TYPE_MASK = USB_RTYPE_TYPE_STD) :
    setup_dispatch env w = default_handler env w := by
  simp [setup_dispatch, hook_stage, hcfg, hhook, hstd]

/-- The standard handler on SET_ADDRESS in LATE mode only prepares the
zero-length status reply. -/
theorem default_handler_set_address_late (env : Env M) (w : World M)
    (hmode : env.USB_SET_ADDRESS_MODE = usbaddrmode_t.USB_LATE_SET_ADDRESS)
    (hreq : isStandardRequest w.usbp.setup USB_RTYPE_RECIPIENT_DEVICE USB_REQ_SET_ADDRESS) :
    default_handler env w = some (usbSetupTransfer w Ptr.NULL 0, true) := by
  have hsel := selector_of_standard _ _ _ hreq
  simp [default_handler, hsel, hmode, USB_RTYPE_RECIPIENT_DEVICE, USB_REQ_SET_ADDRESS,
    USB_REQ_GET_STATUS, USB_REQ_CLEAR_FEATURE, USB_REQ_SET_FEATURE]

/-- The function `set_address` on a driver with a configuration attached. -/
theorem set_address_spec (env : Env M) (w : World M) (cfg : USBConfig)
    (hcfg : w.usbp.config = some cfg) :
    set_address env w = some
      { usbp :=
          { (if cfg.event_cb then
              env.event_cb { w.usbp with address := w.usbp.setup 2 } usbevent_t.USB_EVENT_ADDRESS
             else { w.usbp with address := w.usbp.setup 2 }) with
            state := usbstate_t.USB_SELECTED },
        trace := w.trace ++ [Call.usb_lld_set_address (w.usbp.setup 2)] ++
          (if cfg.event_cb then [Call.event_cb usbevent_t.USB_EVENT_ADDRESS] else []) } := by
  cases hcb : cfg.event_cb <;>
    simp [set_address, invoke_event_cb, World.call, hcfg, hcb]

/-- Counterexample to C5 as stated: SET_ADDRESS `00 05 05 00 00 00 00 00` in
LATE mode with no event callback installed.  After the SETUP dispatch and the
following EP0 IN-complete the address is 5, `usb_lld_set_address` was called,
the state is SELECTED and EP0 waits for a SETUP, but the ADDRESS event was not
emitted at either point. -/
theorem C5_counterexample :
    ((_usb_ep0out (sampleEnv usbaddrmode_t.USB_LATE_SET_ADDRESS usbepstatus_t.EP_STATUS_ACTIVE)
        ⟨sampleDriver ⟨false, false⟩ usbep0state_t.USB_EP0_WAITING_SETUP
          (mkSetup 0x00 0x05 0x05 0x00 0x00 0x00 0x00 0x00), []⟩).bind
      (_usb_ep0in (sampleEnv usbaddrmode_t.USB_LATE_SET_ADDRESS
        usbepstatus_t.EP_STATUS_ACTIVE))).map
      (fun w2 => (w2.usbp.address, w2.usbp.state, w2.usbp.ep0state, w2.trace,
                  w2.trace.count (Call.event_cb usbevent_t.USB_EVENT_ADDRESS))) =
      some (5, usbstate_t.USB_SELECTED, usbep0state_t.USB_EP0_WAITING_SETUP,
            [Call.usb_lld_start_in 0 Ptr.NULL 0, Call.usb_lld_set_address 5], 0) := by
  decide

/-- C5 (amended): for a SET_ADDRESS control transfer (`setup[0] = 0x00`,
`setup[1] = SET_ADDRESS`, no hook, configuration attached) the address commit
(`address := setup[2]`, `usb_lld_set_address`, the ADDRESS event when an event
callback is installed, `state := SELECTED`) happens exactly once, at a point
fixed by the address mode.  In LATE mode the SETUP dispatch changes only
`ep0next`, `ep0n` and `ep0state` (which becomes SENDING_STS) and calls only
`usb_lld_start_in(0, NULL, 0)`; the following EP0 IN-complete performs the
whole commit and ends in WAITING_SETUP.  In EARLY mode the commit is performed
by the request dispatch, and an EP0 IN-complete in SENDING_STS only sets
`ep0state` to WAITING_SETUP. -/
theorem C5_set_address_timing (env : Env M) (w : World M) (cfg : USBConfig)
    (hst : w.usbp.ep0state = usbep0state_t.USB_EP0_WAITING_SETUP)
    (hcfg : w.usbp.config = some cfg) (hhook : cfg.requests_hook_cb = false)
    (h0 : w.usbp.setup 0 = 0x00) (h1 : w.usbp.setup 1 = USB_REQ_SET_ADDRESS) :
    (env.USB_SET_ADDRESS_MODE = usbaddrmode_t.USB_LATE_SET_ADDRESS →
      ∃ w1 : World M, _usb_ep0out env w = some w1 ∧
        w1.usbp = { w.usbp with ep0next := Ptr.NULL, ep0n := 0,
                                ep0state := usbep0state_t.USB_EP0_SENDING_STS } ∧
        w1.trace = w.trace ++ [Call.usb_lld_start_in 0 Ptr.NULL 0] ∧
        ∃ w2 : World M, _usb_ep0in env w1 = some w2 ∧
          w2.trace = w1.trace ++ [Call.usb_lld_set_address (w.usbp.setup 2)] ++
            (if cfg.event_cb then [Call.event_cb usbevent_t.USB_EVENT_ADDRESS] else []) ∧
          w2.usbp =
            { (if cfg.event_cb then
                env.event_cb { w1.usbp with address := w.usbp.setup 2 }
                  usbevent_t.USB_EVENT_ADDRESS
               else { w1.usbp with address := w.usbp.setup 2 }) with
              state := usbstate_t.USB_SELECTED,
              ep0state := usbep0state_t.USB_EP0_WAITING_SETUP } ∧
          w2.usbp.state = usbstate_t.USB_SELECTED ∧
          w2.usbp.ep0state = usbep0state_t.USB_EP0_WAITING_SETUP ∧
          (cfg.event_cb = false → w2.usbp.address = w.usbp.setup 2)) ∧
    (env.USB_SET_ADDRESS_MODE = usbaddrmode_t.USB_EARLY_SET_ADDRESS →
      (∃ wd : World M, setup_dispatch env w = some (wd, true) ∧
        _usb_ep0out env w = some (transfer_preparation wd) ∧
        wd.trace = w.trace ++ [Call.usb_lld_set_address (w.usbp.setup 2)] ++
          (if cfg.event_cb then [Call.event_cb usbevent_t.USB_EVENT_ADDRESS] else []) ∧
        wd.usbp =
          { (if cfg.event_cb then
              env.event_cb { w.usbp with address := w.usbp.setup 2 }
                usbevent_t.USB_EVENT_ADDRESS
             else { w.usbp with address := w.usbp.setup 2 }) with
            state := usbstate_t.USB_SELECTED, ep0next := Ptr.NULL, ep0n := 0 } ∧
        wd.usbp.state = usbstate_t.USB_SELECTED ∧
        (cfg.event_cb = false → wd.usbp.address = w.usbp.setup 2)) ∧
      (∀ w3 : World M, w3.usbp.ep0state = usbep0state_t.USB_EP0_SENDING_STS →
        _usb_ep0in env w3 =
          some { w3 with usbp :=
            { w3.usbp with ep0state := usbep0state_t.USB_EP0_WAITING_SETUP } })) := by
  have hreq := standard_of_setup0_zero w.usbp.setup _ h0 h1
  have hdisp := dispatch_no_hook_standard env w cfg hcfg hhook hreq.1
  constructor
  · intro hmode
    have hacc : setup_dispatch env w = some (usbSetupTransfer w Ptr.NULL 0, true) := by
      rw [hdisp]; exact default_handler_set_address_late env w hmode hreq
    have hout := ep0out_of_accepted env w _ hst hacc
    have hprep : transfer_preparation (usbSetupTransfer w Ptr.NULL 0) =
        { usbp := { w.usbp with ep0next := Ptr.NULL, ep0n := 0,
                                ep0state := usbep0state_t.USB_EP0_SENDING_STS },
          trace := w.trace ++ [Call.usb_lld_start_in 0 Ptr.NULL 0] } := by
      simp [transfer_preparation, usbSetupTransfer, World.call, h0, USB_RTYPE_DIR_MASK,
        USB_RTYPE_DIR_DEV2HOST]
    rw [hprep] at hout
    refine ⟨_, hout, rfl, rfl, ?_⟩
    have hsa := set_address_spec env
      ({ usbp := { w.usbp with ep0next := Ptr.NULL, ep0n := 0,
                               ep0state := usbep0state_t.USB_EP0_SENDING_STS },
         trace := w.trace ++ [Call.usb_lld_start_in 0 Ptr.NULL 0] } : World M) cfg hcfg
    refine ⟨{ usbp :=
                { (if cfg.event_cb then
                    env.event_cb
                      { w.usbp with ep0next := Ptr.NULL, ep0n := 0,
                                    ep0state := usbep0state_t.USB_EP0_SENDING_STS,
                                    address := w.usbp.setup 2 }
                      usbevent_t.USB_EVENT_ADDRESS
                   else
                      { w.usbp with ep0next := Ptr.NULL, ep0n := 0,
                                    ep0state := usbep0state_t.USB_EP0_SENDING_STS,
                                    address := w.usbp.setup 2 }) with
                  state := usbstate_t.USB_SELECTED,
                  ep0state := usbep0state_t.USB_EP0_WAITING_SETUP },
              trace := w.trace ++ [Call.usb_lld_start_in 0 Ptr.NULL 0] ++
                [Call.usb_lld_set_address (w.usbp.setup 2)] ++
                (if cfg.event_cb then [Call.event_cb usbevent_t.USB_EVENT_ADDRESS] else []) },
      ?_, rfl, rfl, rfl, rfl, ?_⟩
    · simp only [_usb_ep0in, hmode, h0, h1, USB_RTYPE_RECIPIENT_DEVICE, and_self, if_true, hsa]
    · intro hcb
      simp [hcb]
  · intro hmode
    have hsa := set_address_spec env w cfg hcfg
    have hacc : setup_dispatch env w = some
        (usbSetupTransfer
          { usbp :=
              { (if cfg.event_cb then
                  env.event_cb { w.usbp with address := w.usbp.setup 2 }
                    usbevent_t.USB_EVENT_ADDRESS
                 else { w.usbp with address := w.usbp.setup 2 }) with
                state := usbstate_t.USB_SELECTED },
            trace := w.trace ++ [Call.usb_lld_set_address (w.usbp.setup 2)] ++
              (if cfg.event_cb then [Call.event_cb usbevent_t.USB_EVENT_ADDRESS] else []) }
          Ptr.NULL 0, true) := by
      rw [hdisp]
      have hsel := selector_of_standard _ _ _ hreq
      simp [default_handler, hsel, hmode, h0, h1, hsa, USB_RTYPE_RECIPIENT_DEVICE,
        USB_REQ_SET_ADDRESS, USB_REQ_GET_STATUS, USB_REQ_CLEAR_FEATURE, USB_REQ_SET_FEATURE]
    refine ⟨⟨_, hacc, ep0out_of_accepted env w _ hst hacc, rfl, rfl, rfl, ?_⟩, ?_⟩
    · intro hcb
      simp [usbSetupTransfer, hcb]
    · intro w3 h3
      simp [_usb_ep0in, h3, hmode]

/-- Witness for C5: SET_ADDRESS `00 05 05 00 00 00 00 00` in LATE mode with an
event callback installed: the commit happens on the IN-complete and gives
`address = 5`. -/
theorem C5_set_address_timing_witness :
    ∃ w1 w2 : World 7,
      _usb_ep0out (sampleEnv usbaddrmode_t.USB_LATE_SET_ADDRESS usbepstatus_t.EP_STATUS_ACTIVE)
        ⟨sampleDriver ⟨true, false⟩ usbep0state_t.USB_EP0_WAITING_SETUP
          (mkSetup 0x00 0x05 0x05 0x00 0x00 0x00 0x00 0x00), []⟩ = some w1 ∧
      w1.usbp.address = 0 ∧
      w1.trace = [Call.usb_lld_start_in 0 Ptr.NULL 0] ∧
      _usb_ep0in (sampleEnv usbaddrmode_t.USB_LATE_SET_ADDRESS usbepstatus_t.EP_STATUS_ACTIVE)
        w1 = some w2 ∧
      w2.usbp.address = 5 ∧
      w2.usbp.state = usbstate_t.USB_SELECTED ∧
      w2.usbp.ep0state = usbep0state_t.USB_EP0_WAITING_SETUP ∧
      w2.trace = [Call.usb_lld_start_in 0 Ptr.NULL 0, Call.usb_lld_set_address 5,
                  Call.event_cb usbevent_t.USB_EVENT_ADDRESS] := by
  obtain ⟨w1, h1, hu1, ht1, w2, h2, ht2, hu2, hs, he, -⟩ :=
    (C5_set_address_timing
      (sampleEnv usbaddrmode_t.USB_LATE_SET_ADDRESS usbepstatus_t.EP_STATUS_ACTIVE)
      ⟨sampleDriver ⟨true, false⟩ usbep0state_t.USB_EP0_WAITING_SETUP
        (mkSetup 0x00 0x05 0x05 0x00 0x00 0x00 0x00 0x00), []⟩
      ⟨true, false⟩ rfl rfl rfl rfl rfl).1 rfl
  refine ⟨w1, w2, h1, ?_, ht1, h2, ?_, hs, he, ?_⟩
  · rw [hu1]; rfl
  · rw [hu2]; rfl
  · rw [ht2, ht1]; rfl

/-- A request the standard handler rejects leaves every driver field as it was. -/
theorem default_handler_reject_usbp (env : Env M) (w wr : World M)
    (h : default_handler env w = some (wr, false)) : wr.usbp = w.usbp := by
  unfold default_handler at h
  simp only [] at h
  generalize request_selector w.usbp.setup = sel at h
  by_cases c1 : sel = USB_RTYPE_RECIPIENT_DEVICE ||| (USB_REQ_GET_STATUS <<< 8)
  · rw [if_pos c1] at h; simp at h
  rw [if_neg c1] at h
  by_cases c2 : sel = USB_RTYPE_RECIPIENT_DEVICE ||| (USB_REQ_CLEAR_FEATURE <<< 8)
  · rw [if_pos c2] at h
    split at h
    · simp at h
    · simp only [Option.some.injEq, Prod.mk.injEq, and_true] at h; rw [← h]
  rw [if_neg c2] at h
  by_cases c3 : sel = USB_RTYPE_RECIPIENT_DEVICE ||| (USB_REQ_SET_FEATURE <<< 8)
  · rw [if_pos c3] at h
    split at h
    · simp at h
    · simp only [Option.some.injEq, Prod.mk.injEq, and_true] at h; rw [← h]
  rw [if_neg c3] at h
  by_cases c4 : sel = USB_RTYPE_RECIPIENT_DEVICE ||| (USB_REQ_SET_ADDRESS <<< 8)
  · rw [if_pos c4] at h
    split at h <;> simp at h
  rw [if_neg c4] at h
  by_cases c5 : sel = USB_RTYPE_RECIPIENT_DEVICE ||| (USB_REQ_GET_DESCRIPTOR <<< 8)
  · rw [if_pos c5] at h
    split at h
    · simp at h
    · split at h
      · simp only [Option.some.injEq, Prod.mk.injEq, and_true] at h; rw [← h]; rfl
      · simp at h
  rw [if_neg c5] at h
  by_cases c6 : sel = USB_RTYPE_RECIPIENT_DEVICE ||| (USB_REQ_GET_CONFIGURATION <<< 8)
  · rw [if_pos c6] at h; simp at h
  rw [if_neg c6] at h
  by_cases c7 : sel = USB_RTYPE_RECIPIENT_DEVICE ||| (USB_REQ_SET_CONFIGURATION <<< 8)
  · rw [if_pos c7] at h
    split at h <;> simp at h
  rw [if_neg c7] at h
  by_cases c8 : sel = USB_RTYPE_RECIPIENT_INTERFACE ||| (USB_REQ_GET_STATUS <<< 8) ∨
      sel = USB_RTYPE_RECIPIENT_ENDPOINT ||| (USB_REQ_SYNCH_FRAME <<< 8)
  · rw [if_pos c8] at h; simp at h
  rw [if_neg c8] at h
  by_cases c9 : sel = USB_RTYPE_RECIPIENT_ENDPOINT ||| (USB_REQ_GET_STATUS <<< 8)
  · rw [if_pos c9] at h
    split at h
    · split at h
      · simp at h
      · simp at h
      · simp only [Option.some.injEq, Prod.mk.injEq, and_true] at h; rw [← h]; rfl
    · split at h
      · simp at h
      · simp at h
      · simp only [Option.some.injEq, Prod.mk.injEq, and_true] at h; rw [← h]; rfl
  rw [if_neg c9] at h
  by_cases c10 : sel = USB_RTYPE_RECIPIENT_ENDPOINT ||| (USB_REQ_CLEAR_FEATURE <<< 8)
  · rw [if_pos c10] at h
    split at h
    · simp only [Option.some.injEq, Prod.mk.injEq, and_true] at h; rw [← h]
    · simp at h
  rw [if_neg c10] at h
  by_cases c11 : sel = USB_RTYPE_RECIPIENT_ENDPOINT ||| (USB_REQ_SET_FEATURE <<< 8)
  · rw [if_pos c11] at h
    split at h
    · simp only [Option.some.injEq, Prod.mk.injEq, and_true] at h; rw [← h]
    · simp at h
  rw [if_neg c11] at h
  simp only [Option.some.injEq, Prod.mk.injEq, and_true] at h; rw [← h]

/-- The transfer preparation never leaves EP0 waiting for a SETUP packet. -/
theorem transfer_preparation_ep0state (w : World M) :
    (transfer_preparation w).usbp.ep0state ≠ usbep0state_t.USB_EP0_WAITING_SETUP := by
  simp only [transfer_preparation, World.call]
  split_ifs <;> simp

/-- The answer of the hook test is `true` exactly when a hook is installed and
returns `true`. -/
theorem hook_stage_true_iff (env : Env M) (cfg : USBConfig) (w : World M) :
    (hook_stage env cfg w).2 = true ↔
      cfg.requests_hook_cb = true ∧ (env.requests_hook_cb w.usbp).2 = true := by
  cases hh : cfg.requests_hook_cb <;> simp [hook_stage, hh]

/-- The request dispatch in terms of the hook test. -/
theorem setup_dispatch_eq (env : Env M) (w : World M) (cfg : USBConfig)
    (hcfg : w.usbp.config = some cfg) :
    setup_dispatch env w =
      if (hook_stage env cfg w).2 = true then some ((hook_stage env cfg w).1, true)
      else if (hook_stage env cfg w).1.usbp.setup 0 &&& USB_RTYPE_TYPE_MASK ≠ USB_RTYPE_TYPE_STD
        then some ((hook_stage env cfg w).1, false)
      else default_handler env (hook_stage env cfg w).1 := by
  simp [setup_dispatch, hcfg]

/-- Counterexample to C6 as stated: the vendor request `C0 FF 00 00 00 00 00 00`
with no hook and no event callback installed.  The hook is absent and the type
bits are not Standard, EP0 is stalled and stays in WAITING_SETUP, but no STALLED
event is emitted. -/
theorem C6_counterexample :
    (sampleDriver ⟨false, false⟩ usbep0state_t.USB_EP0_WAITING_SETUP
        (mkSetup 0xC0 0xFF 0x00 0x00 0x00 0x00 0x00 0x00)).setup 0 &&& USB_RTYPE_TYPE_MASK ≠
      USB_RTYPE_TYPE_STD ∧
    (_usb_ep0out (sampleEnv usbaddrmode_t.USB_LATE_SET_ADDRESS usbepstatus_t.EP_STATUS_ACTIVE)
        ⟨sampleDriver ⟨false, false⟩ usbep0state_t.USB_EP0_WAITING_SETUP
          (mkSetup 0xC0 0xFF 0x00 0x00 0x00 0x00 0x00 0x00), []⟩).map
      (fun w1 => (w1.usbp.ep0state, w1.trace,
                  w1.trace.count (Call.event_cb usbevent_t.USB_EVENT_STALLED))) =
      some (usbep0state_t.USB_EP0_WAITING_SETUP,
            [Call.usb_lld_stall_in 0, Call.usb_lld_stall_out 0], 0) := by
  decide

/-- C6 (amended): for a SETUP received in WAITING_SETUP (configuration attached,
also after the hook has run), the request is rejected (EP0 IN and OUT stalled,
a STALLED event when an event callback is installed, `ep0state = WAITING_SETUP`)
if and only if the application hook is absent or returns false and, in
addition, either the type bits of `setup[0]` are not Standard or the standard
handler returns FALSE.  When the hook returns true the outcome is the transfer
preparation on the driver the hook left: the standard handler is not invoked. -/
theorem C6_rejection_iff (env : Env M) (w : World M) (cfg cfgh : USBConfig)
    (hst : w.usbp.ep0state = usbep0state_t.USB_EP0_WAITING_SETUP)
    (hcfg : w.usbp.config = some cfg)
    (hcfgh : (hook_stage env cfg w).1.usbp.config = some cfgh) :
    ((∃ (w1 : World M) (pre : List Call), _usb_ep0out env w = some w1 ∧
        w1.usbp.ep0state = usbep0state_t.USB_EP0_WAITING_SETUP ∧
        w1.trace = pre ++ [Call.usb_lld_stall_in 0, Call.usb_lld_stall_out 0] ++
          (if cfgh.event_cb then [Call.event_cb usbevent_t.USB_EVENT_STALLED] else [])) ↔
      ((cfg.requests_hook_cb = false ∨ (env.requests_hook_cb w.usbp).2 = false) ∧
       ((hook_stage env cfg w).1.usbp.setup 0 &&& USB_RTYPE_TYPE_MASK ≠ USB_RTYPE_TYPE_STD ∨
        ∃ wr : World M, default_handler env (hook_stage env cfg w).1 = some (wr, false)))) ∧
    (cfg.requests_hook_cb = true → (env.requests_hook_cb w.usbp).2 = true →
      _usb_ep0out env w = some (transfer_preparation
        { usbp := (env.requests_hook_cb w.usbp).1,
          trace := w.trace ++ [Call.requests_hook_cb] })) := by
  have hdisp := setup_dispatch_eq env w cfg hcfg
  have hhook := hook_stage_true_iff env cfg w
  constructor
  · constructor
    · rintro ⟨w1, pre, hout, hs, -⟩
      by_cases hr : (hook_stage env cfg w).2 = true
      · rw [if_pos hr] at hdisp
        rw [ep0out_of_accepted env w _ hst hdisp] at hout
        cases hout
        exact absurd hs (transfer_preparation_ep0state _)
      · have hl : cfg.requests_hook_cb = false ∨ (env.requests_hook_cb w.usbp).2 = false := by
          by_contra hcon
          apply hr
          apply hhook.mpr
          cases h1 : cfg.requests_hook_cb <;> cases h2 : (env.requests_hook_cb w.usbp).2 <;>
            simp_all
        refine ⟨hl, ?_⟩
        rw [if_neg hr] at hdisp
        by_cases hty : (hook_stage env cfg w).1.usbp.setup 0 &&& USB_RTYPE_TYPE_MASK ≠
            USB_RTYPE_TYPE_STD
        · exact Or.inl hty
        · right
          rw [if_neg hty] at hdisp
          cases hdh : default_handler env (hook_stage env cfg w).1 with
          | none =>
            rw [hdh] at hdisp
            simp [_usb_ep0out, hst, hdisp] at hout
          | some r =>
            obtain ⟨wr, b⟩ := r
            cases b with
            | false => exact ⟨wr, rfl⟩
            | true =>
              rw [hdh] at hdisp
              rw [ep0out_of_accepted env w _ hst hdisp] at hout
              cases hout
              exact absurd hs (transfer_preparation_ep0state _)
    · rintro ⟨hl, hrj⟩
      have hr : ¬ (hook_stage env cfg w).2 = true := by
        intro hr
        obtain ⟨h1, h2⟩ := hhook.mp hr
        rcases hl with hl | hl
        · rw [hl] at h1; exact Bool.noConfusion h1
        · rw [hl] at h2; exact Bool.noConfusion h2
      rw [if_neg hr] at hdisp
      by_cases hty : (hook_stage env cfg w).1.usbp.setup 0 &&& USB_RTYPE_TYPE_MASK ≠
          USB_RTYPE_TYPE_STD
      · rw [if_pos hty] at hdisp
        obtain ⟨w1, h1, hs, ht⟩ := error_response_spec env _ cfgh hcfgh
        exact ⟨w1, _, by rw [ep0out_of_rejected env w _ hst hdisp]; exact h1, hs, ht⟩
      · rw [if_neg hty] at hdisp
        rcases hrj with hrj | ⟨wr, hrj⟩
        · exact absurd hrj hty
        · rw [hrj] at hdisp
          have hu := default_handler_reject_usbp env _ wr hrj
          obtain ⟨w1, h1, hs, ht⟩ := error_response_spec env wr cfgh (by rw [hu]; exact hcfgh)
          exact ⟨w1, _, by rw [ep0out_of_rejected env w _ hst hdisp]; exact h1, hs, ht⟩
  · intro h1 h2
    have hr : (hook_stage env cfg w).2 = true := hhook.mpr ⟨h1, h2⟩
    rw [if_pos hr] at hdisp
    rw [ep0out_of_accepted env w _ hst hdisp]
    simp [hook_stage, h1]

/-- Witness for C6: the vendor request `C0 FF 00 00 00 00 00 00` with no hook
and an event callback installed is stalled. -/
theorem C6_rejection_iff_witness :
    ∃ (w1 : World 7) (pre : List Call),
      _usb_ep0out (sampleEnv usbaddrmode_t.USB_LATE_SET_ADDRESS usbepstatus_t.EP_STATUS_ACTIVE)
        ⟨sampleDriver ⟨true, false⟩ usbep0state_t.USB_EP0_WAITING_SETUP
          (mkSetup 0xC0 0xFF 0x00 0x00 0x00 0x00 0x00 0x00), []⟩ = some w1 ∧
      w1.usbp.ep0state = usbep0state_t.USB_EP0_WAITING_SETUP ∧
      w1.trace = pre ++ [Call.usb_lld_stall_in 0, Call.usb_lld_stall_out 0] ++
        [Call.event_cb usbevent_t.USB_EVENT_STALLED] :=
  (C6_rejection_iff
    (sampleEnv usbaddrmode_t.USB_LATE_SET_ADDRESS usbepstatus_t.EP_STATUS_ACTIVE)
    ⟨sampleDriver ⟨true, false⟩ usbep0state_t.USB_EP0_WAITING_SETUP
      (mkSetup 0xC0 0xFF 0x00 0x00 0x00 0x00 0x00 0x00), []⟩
    ⟨true, false⟩ ⟨true, false⟩ rfl rfl rfl).1.mpr ⟨Or.inl rfl, Or.inl (by decide)⟩

/-- The standard handler on GET_DESCRIPTOR for the device. -/
theorem default_handler_get_descriptor (env : Env M) (w : World M) (cfg : USBConfig)
    (hcfg : w.usbp.config = some cfg)
    (hreq : isStandardRequest w.usbp.setup USB_RTYPE_RECIPIENT_DEVICE USB_REQ_GET_DESCRIPTOR) :
    default_handler env w =
      match env.get_descriptor_cb w.usbp (w.usbp.setup 3) (w.usbp.setup 2)
          (w.usbp.setup 4 + 256 * w.usbp.setup 5) with
      | none =>
        some (w.call (Call.get_descriptor_cb (w.usbp.setup 3) (w.usbp.setup 2)
          (w.usbp.setup 4 + 256 * w.usbp.setup 5)), false)
      | some dp =>
        some (usbSetupTransfer
          (w.call (Call.get_descriptor_cb (w.usbp.setup 3) (w.usbp.setup 2)
            (w.usbp.setup 4 + 256 * w.usbp.setup 5))) dp.ud_string dp.ud_size, true) := by
  have hsel := selector_of_standard _ _ _ hreq
  simp [default_handler, hsel, hcfg, fetch_word_4, USB_RTYPE_RECIPIENT_DEVICE,
    USB_REQ_GET_DESCRIPTOR, USB_REQ_GET_STATUS, USB_REQ_CLEAR_FEATURE, USB_REQ_SET_FEATURE,
    USB_REQ_SET_ADDRESS]

/-- What the transfer preparation does: it clamps `ep0n`, keeps `ep0next`, and
makes one call, a start of an IN or OUT transfer on endpoint zero. -/
theorem transfer_preparation_spec (w : World M) :
    (transfer_preparation w).usbp.ep0n = min w.usbp.ep0n (w.usbp.setup 6 + 256 * w.usbp.setup 7) ∧
    (transfer_preparation w).usbp.ep0next = w.usbp.ep0next ∧
    ∃ (buf : Ptr) (k : Nat),
      (transfer_preparation w).trace = w.trace ++ [Call.usb_lld_start_in 0 buf k] ∨
      (transfer_preparation w).trace = w.trace ++ [Call.usb_lld_start_out 0 buf k] := by
  simp only [transfer_preparation, fetch_word_6, World.call]
  refine ⟨?_, ?_, ?_⟩
  · split_ifs <;> simp <;> omega
  · split_ifs <;> rfl
  · split_ifs
    all_goals first
      | exact ⟨_, _, Or.inl rfl⟩
      | exact ⟨_, _, Or.inr rfl⟩

/-- C7: for a Standard DEVICE GET_DESCRIPTOR SETUP with no hook installed, the
handler calls `get_descriptor_cb` with type `setup[3]`, index `setup[2]` and
langid `setup[4] + 256 * setup[5]`.  If the callback returns null the request
is rejected and `_usb_ep0out` takes the stall path (the error response: EP0 IN
and OUT stalled, `ep0state = WAITING_SETUP`).  Otherwise the request is
accepted, the reply is set to the descriptor's bytes with length
`min(ud_size, wLength)`, and an IN or OUT phase is started on endpoint zero. -/
theorem C7_get_descriptor (env : Env M) (w : World M) (cfg : USBConfig)
    (hst : w.usbp.ep0state = usbep0state_t.USB_EP0_WAITING_SETUP)
    (hcfg : w.usbp.config = some cfg) (hhook : cfg.requests_hook_cb = false)
    (hreq : isStandardRequest w.usbp.setup USB_RTYPE_RECIPIENT_DEVICE USB_REQ_GET_DESCRIPTOR) :
    (env.get_descriptor_cb w.usbp (w.usbp.setup 3) (w.usbp.setup 2)
        (w.usbp.setup 4 + 256 * w.usbp.setup 5) = none →
      default_handler env w =
        some (w.call (Call.get_descriptor_cb (w.usbp.setup 3) (w.usbp.setup 2)
          (w.usbp.setup 4 + 256 * w.usbp.setup 5)), false) ∧
      _usb_ep0out env w = ep0_error_response env
        (w.call (Call.get_descriptor_cb (w.usbp.setup 3) (w.usbp.setup 2)
          (w.usbp.setup 4 + 256 * w.usbp.setup 5))) ∧
      ∃ w1 : World M, _usb_ep0out env w = some w1 ∧
        w1.usbp.ep0state = usbep0state_t.USB_EP0_WAITING_SETUP ∧
        w1.trace = w.trace ++
          [Call.get_descriptor_cb (w.usbp.setup 3) (w.usbp.setup 2)
            (w.usbp.setup 4 + 256 * w.usbp.setup 5)] ++
          [Call.usb_lld_stall_in 0, Call.usb_lld_stall_out 0] ++
          (if cfg.event_cb then [Call.event_cb usbevent_t.USB_EVENT_STALLED] else [])) ∧
    (∀ dp : USBDescriptor,
      env.get_descriptor_cb w.usbp (w.usbp.setup 3) (w.usbp.setup 2)
        (w.usbp.setup 4 + 256 * w.usbp.setup 5) = some dp →
      default_handler env w =
        some (usbSetupTransfer
          (w.call (Call.get_descriptor_cb (w.usbp.setup 3) (w.usbp.setup 2)
            (w.usbp.setup 4 + 256 * w.usbp.setup 5))) dp.ud_string dp.ud_size, true) ∧
      ∃ w1 : World M, _usb_ep0out env w = some w1 ∧
        w1.usbp.ep0next = dp.ud_string ∧
        w1.usbp.ep0n = min dp.ud_size (w.usbp.setup 6 + 256 * w.usbp.setup 7) ∧
        reply w1.usbp = (dp.ud_string.read w1.usbp).take
          (min dp.ud_size (w.usbp.setup 6 + 256 * w.usbp.setup 7)) ∧
        w1.usbp.ep0state ≠ usbep0state_t.USB_EP0_WAITING_SETUP ∧
        ∃ (buf : Ptr) (k : Nat),
          w1.trace = w.trace ++
            [Call.get_descriptor_cb (w.usbp.setup 3) (w.usbp.setup 2)
              (w.usbp.setup 4 + 256 * w.usbp.setup 5), Call.usb_lld_start_in 0 buf k] ∨
          w1.trace = w.trace ++
            [Call.get_descriptor_cb (w.usbp.setup 3) (w.usbp.setup 2)
              (w.usbp.setup 4 + 256 * w.usbp.setup 5), Call.usb_lld_start_out 0 buf k]) := by
  have hdisp := dispatch_no_hook_standard env w cfg hcfg hhook hreq.1
  have hdh := default_handler_get_descriptor env w cfg hcfg hreq
  constructor
  · intro hnone
    rw [hnone] at hdh
    have hrej := hdisp.trans hdh
    have hout := ep0out_of_rejected env w _ hst hrej
    obtain ⟨w1, h1, hs, ht⟩ := error_response_spec env
      (w.call (Call.get_descriptor_cb (w.usbp.setup 3) (w.usbp.setup 2)
        (w.usbp.setup 4 + 256 * w.usbp.setup 5))) cfg hcfg
    exact ⟨hdh, hout, w1, hout.trans h1, hs, ht⟩
  · intro dp hsome
    rw [hsome] at hdh
    have hacc := hdisp.trans hdh
    have hout := ep0out_of_accepted env w _ hst hacc
    obtain ⟨hn, hnext, buf, k, htr⟩ := transfer_preparation_spec (usbSetupTransfer
          (w.call (Call.get_descriptor_cb (w.usbp.setup 3) (w.usbp.setup 2)
            (w.usbp.setup 4 + 256 * w.usbp.setup 5))) dp.ud_string dp.ud_size)
    refine ⟨hdh, _, hout, hnext, hn, ?_, transfer_preparation_ep0state _, buf, k, ?_⟩
    · rw [reply, hnext, hn]; rfl
    · rcases htr with htr | htr
      · left; rw [htr]; simp [usbSetupTransfer, World.call]
      · right; rw [htr]; simp [usbSetupTransfer, World.call]

/-- Witness for C7: GET_DESCRIPTOR(Device) `80 06 00 01 00 00 12 00` with no
hook; the descriptor callback is asked for type 1, index 0, langid 0 and the
reply is the 18 bytes of the device descriptor. -/
theorem C7_get_descriptor_witness :
    ∃ w1 : World 7,
      _usb_ep0out (descriptorEnv usbaddrmode_t.USB_LATE_SET_ADDRESS)
        ⟨sampleDriver ⟨false, false⟩ usbep0state_t.USB_EP0_WAITING_SETUP
          (mkSetup 0x80 0x06 0x00 0x01 0x00 0x00 0x12 0x00), []⟩ = some w1 ∧
      w1.usbp.ep0n = 18 ∧
      reply w1.usbp = [0x12, 0x01, 0x10, 0x01, 0x02, 0x00, 0x00, 0x40, 0x83, 0x04,
                       0x40, 0x57, 0x00, 0x02, 0x01, 0x02, 0x03, 0x01] := by
  obtain ⟨-, w1, h1, -, hn, hr, -⟩ :=
    (C7_get_descriptor (descriptorEnv usbaddrmode_t.USB_LATE_SET_ADDRESS)
      ⟨sampleDriver ⟨false, false⟩ usbep0state_t.USB_EP0_WAITING_SETUP
        (mkSetup 0x80 0x06 0x00 0x01 0x00 0x00 0x12 0x00), []⟩
      ⟨false, false⟩ rfl rfl rfl (by decide)).2 deviceDescriptor rfl
  exact ⟨w1, h1, by rw [hn]; decide, by rw [hr]; rfl⟩

/-- Counterexample to C8 as stated: SET_CONFIGURATION `00 09 01 00 00 00 00 00`
with no event callback installed.  The handler accepts, stores configuration 1
and enters ACTIVE, but fires no CONFIGURED event (it makes no call at all). -/
theorem C8_counterexample :
    (default_handler (sampleEnv usbaddrmode_t.USB_LATE_SET_ADDRESS usbepstatus_t.EP_STATUS_ACTIVE)
        ⟨sampleDriver ⟨false, false⟩ usbep0state_t.USB_EP0_WAITING_SETUP
          (mkSetup 0x00 0x09 0x01 0x00 0x00 0x00 0x00 0x00), []⟩).map
      (fun r => (r.2, r.1.usbp.configuration, r.1.usbp.state, r.1.trace,
                 r.1.trace.count (Call.event_cb usbevent_t.USB_EVENT_CONFIGURED))) =
      some (true, 1, usbstate_t.USB_ACTIVE, [], 0) := by
  decide

/-- C8 (amended): for a Standard DEVICE SET_CONFIGURATION SETUP on a driver with
a configuration attached, the standard handler stores
`configuration = setup[2]`, sets `state = SELECTED` when `setup[2] = 0` and
`state = ACTIVE` otherwise, then, when an event callback is installed, fires
the CONFIGURED event once on the driver so updated (and fires nothing when none
is installed), and accepts the request with a zero-length reply. -/
theorem C8_set_configuration (env : Env M) (w : World M) (cfg : USBConfig)
    (hcfg : w.usbp.config = some cfg)
    (hreq : isStandardRequest w.usbp.setup USB_RTYPE_RECIPIENT_DEVICE
      USB_REQ_SET_CONFIGURATION) :
    ∃ w1 : World M, default_handler env w = some (w1, true) ∧
      w1.usbp.ep0next = Ptr.NULL ∧ w1.usbp.ep0n = 0 ∧ reply w1.usbp = [] ∧
      (cfg.event_cb = false →
        w1.trace = w.trace ∧
        w1.usbp = { w.usbp with
          configuration := w.usbp.setup 2,
          state := if w.usbp.setup 2 = 0 then usbstate_t.USB_SELECTED
                   else usbstate_t.USB_ACTIVE,
          ep0next := Ptr.NULL, ep0n := 0 }) ∧
      (cfg.event_cb = true →
        w1.trace = w.trace ++ [Call.event_cb usbevent_t.USB_EVENT_CONFIGURED] ∧
        w1.usbp = { env.event_cb
            { w.usbp with
              configuration := w.usbp.setup 2,
              state := if w.usbp.setup 2 = 0 then usbstate_t.USB_SELECTED
                       else usbstate_t.USB_ACTIVE }
            usbevent_t.USB_EVENT_CONFIGURED with
          ep0next := Ptr.NULL, ep0n := 0 }) := by
  have hsel := selector_of_standard _ _ _ hreq
  cases hcb : cfg.event_cb <;> by_cases hz : w.usbp.setup 2 = 0 <;>
    simp [default_handler, hsel, hcfg, hcb, hz, invoke_event_cb, usbSetupTransfer, reply,
      Ptr.read, USB_RTYPE_RECIPIENT_DEVICE, USB_REQ_SET_CONFIGURATION, USB_REQ_GET_DESCRIPTOR,
      USB_REQ_GET_STATUS, USB_REQ_CLEAR_FEATURE, USB_REQ_SET_FEATURE, USB_REQ_SET_ADDRESS,
      USB_REQ_GET_CONFIGURATION]

/-- Witness for C8: SET_CONFIGURATION `00 09 01 00 00 00 00 00` with an event
callback installed gives `configuration = 1`, `state = ACTIVE` and one
CONFIGURED event. -/
theorem C8_set_configuration_witness :
    ∃ w1 : World 7,
      default_handler (sampleEnv usbaddrmode_t.USB_LATE_SET_ADDRESS usbepstatus_t.EP_STATUS_ACTIVE)
        ⟨sampleDriver ⟨true, false⟩ usbep0state_t.USB_EP0_WAITING_SETUP
          (mkSetup 0x00 0x09 0x01 0x00 0x00 0x00 0x00 0x00), []⟩ = some (w1, true) ∧
      w1.usbp.configuration = 1 ∧
      w1.usbp.state = usbstate_t.USB_ACTIVE ∧
      w1.trace = [Call.event_cb usbevent_t.USB_EVENT_CONFIGURED] := by
  obtain ⟨w1, h1, -, -, -, -, hcb⟩ :=
    C8_set_configuration
      (sampleEnv usbaddrmode_t.USB_LATE_SET_ADDRESS usbepstatus_t.EP_STATUS_ACTIVE)
      ⟨sampleDriver ⟨true, false⟩ usbep0state_t.USB_EP0_WAITING_SETUP
        (mkSetup 0x00 0x09 0x01 0x00 0x00 0x00 0x00 0x00), []⟩
      ⟨true, false⟩ rfl (by decide)
  obtain ⟨ht, hu⟩ := hcb rfl
  exact ⟨w1, h1, by rw [hu]; rfl, by rw [hu]; rfl, by rw [ht]; rfl⟩

/-- C9: for a Standard ENDPOINT GET_STATUS SETUP the standard handler makes one
call, `usb_lld_get_status_in(setup[4] & 0x0F)` when bit 7 of `setup[4]` is set
and `usb_lld_get_status_out(setup[4] & 0x0F)` otherwise.  A STALLED answer is
accepted with the 2 byte reply `{0x01, 0x00}`, an ACTIVE answer is accepted with
the 2 byte reply `{0x00, 0x00}`, and any other answer rejects the request,
leaving the driver fields as they were. -/
theorem C9_endpoint_get_status (env : Env M) (w : World M)
    (hreq : isStandardRequest w.usbp.setup USB_RTYPE_RECIPIENT_ENDPOINT USB_REQ_GET_STATUS) :
    ∃ (w1 : World M) (b : Bool), default_handler env w = some (w1, b) ∧
      w1.trace = w.trace ++
        [if (w.usbp.setup 4).testBit 7 = true
          then Call.usb_lld_get_status_in (w.usbp.setup 4 &&& 0x0F)
          else Call.usb_lld_get_status_out (w.usbp.setup 4 &&& 0x0F)] ∧
      ((if (w.usbp.setup 4).testBit 7 = true
          then env.usb_lld_get_status_in w.usbp (w.usbp.setup 4 &&& 0x0F)
          else env.usb_lld_get_status_out w.usbp (w.usbp.setup 4 &&& 0x0F)) =
          usbepstatus_t.EP_STATUS_STALLED →
        b = true ∧ w1.usbp.ep0next = Ptr.halted_status ∧ w1.usbp.ep0n = 2 ∧
        reply w1.usbp = [0x01, 0x00]) ∧
      ((if (w.usbp.setup 4).testBit 7 = true
          then env.usb_lld_get_status_in w.usbp (w.usbp.setup 4 &&& 0x0F)
          else env.usb_lld_get_status_out w.usbp (w.usbp.setup 4 &&& 0x0F)) =
          usbepstatus_t.EP_STATUS_ACTIVE →
        b = true ∧ w1.usbp.ep0next = Ptr.active_status ∧ w1.usbp.ep0n = 2 ∧
        reply w1.usbp = [0x00, 0x00]) ∧
      ((if (w.usbp.setup 4).testBit 7 = true
          then env.usb_lld_get_status_in w.usbp (w.usbp.setup 4 &&& 0x0F)
          else env.usb_lld_get_status_out w.usbp (w.usbp.setup 4 &&& 0x0F)) ≠
          usbepstatus_t.EP_STATUS_STALLED →
       (if (w.usbp.setup 4).testBit 7 = true
          then env.usb_lld_get_status_in w.usbp (w.usbp.setup 4 &&& 0x0F)
          else env.usb_lld_get_status_out w.usbp (w.usbp.setup 4 &&& 0x0F)) ≠
          usbepstatus_t.EP_STATUS_ACTIVE →
        b = false ∧ w1.usbp = w.usbp) := by
  have hsel := selector_of_standard _ _ _ hreq
  have hbit := and_0x80_ne_zero_iff_testBit (w.usbp.setup 4)
  by_cases hb : (w.usbp.setup 4).testBit 7 = true
  · have hd : w.usbp.setup 4 &&& 0x80 ≠ 0 := hbit.mpr hb
    cases hs : env.usb_lld_get_status_in w.usbp (w.usbp.setup 4 &&& 0x0F) <;>
      simp [default_handler, hsel, hb, hd, hs, usbSetupTransfer, World.call, reply, Ptr.read,
        halted_status, active_status, USB_RTYPE_RECIPIENT_DEVICE, USB_RTYPE_RECIPIENT_ENDPOINT,
        USB_RTYPE_RECIPIENT_INTERFACE, USB_REQ_SET_CONFIGURATION, USB_REQ_GET_DESCRIPTOR,
        USB_REQ_GET_STATUS, USB_REQ_CLEAR_FEATURE, USB_REQ_SET_FEATURE, USB_REQ_SET_ADDRESS,
        USB_REQ_GET_CONFIGURATION, USB_REQ_SYNCH_FRAME]
  · have hd : ¬ (w.usbp.setup 4 &&& 0x80 ≠ 0) := fun h => hb (hbit.mp h)
    cases hs : env.usb_lld_get_status_out w.usbp (w.usbp.setup 4 &&& 0x0F) <;>
      simp [default_handler, hsel, hb, hd, hs, usbSetupTransfer, World.call, reply, Ptr.read,
        halted_status, active_status, USB_RTYPE_RECIPIENT_DEVICE, USB_RTYPE_RECIPIENT_ENDPOINT,
        USB_RTYPE_RECIPIENT_INTERFACE, USB_REQ_SET_CONFIGURATION, USB_REQ_GET_DESCRIPTOR,
        USB_REQ_GET_STATUS, USB_REQ_CLEAR_FEATURE, USB_REQ_SET_FEATURE, USB_REQ_SET_ADDRESS,
        USB_REQ_GET_CONFIGURATION, USB_REQ_SYNCH_FRAME]

/-- Witness for C9: GET_STATUS `82 00 00 00 82 00 02 00` with IN endpoint 2
reported as stalled: the handler queries `usb_lld_get_status_in(2)` and replies
`{0x01, 0x00}`. -/
theorem C9_endpoint_get_status_witness :
    ∃ w1 : World 7,
      default_handler
        (sampleEnv usbaddrmode_t.USB_LATE_SET_ADDRESS usbepstatus_t.EP_STATUS_STALLED)
        ⟨sampleDriver ⟨false, false⟩ usbep0state_t.USB_EP0_WAITING_SETUP
          (mkSetup 0x82 0x00 0x00 0x00 0x82 0x00 0x02 0x00), []⟩ = some (w1, true) ∧
      w1.trace = [Call.usb_lld_get_status_in 2] ∧
      reply w1.usbp = [0x01, 0x00] := by
  obtain ⟨w1, b, h1, ht, hstalled, -⟩ :=
    C9_endpoint_get_status
      (sampleEnv usbaddrmode_t.USB_LATE_SET_ADDRESS usbepstatus_t.EP_STATUS_STALLED)
      ⟨sampleDriver ⟨false, false⟩ usbep0state_t.USB_EP0_WAITING_SETUP
        (mkSetup 0x82 0x00 0x00 0x00 0x82 0x00 0x02 0x00), []⟩ (by decide)
  obtain ⟨hb, -, -, hr⟩ := hstalled (by decide)
  rw [hb] at h1
  exact ⟨w1, h1, by rw [ht]; decide, hr⟩

/-- C10: for a Standard ENDPOINT CLEAR_FEATURE SETUP: if `setup[2]` is not
ENDPOINT_HALT the handler rejects the request, makes no call and leaves the
driver as it was; otherwise it accepts with a zero-length reply and, when the
endpoint number `setup[4] & 0x0F` is non-zero, makes exactly one call,
`usb_lld_clear_in(ep)` if bit 7 of `setup[4]` is set and `usb_lld_clear_out(ep)`
otherwise, and makes no call for endpoint 0. -/
theorem C10_endpoint_clear_feature (env : Env M) (w : World M)
    (hreq : isStandardRequest w.usbp.setup USB_RTYPE_RECIPIENT_ENDPOINT
      USB_REQ_CLEAR_FEATURE) :
    (w.usbp.setup 2 ≠ USB_FEATURE_ENDPOINT_HALT → default_handler env w = some (w, false)) ∧
    (w.usbp.setup 2 = USB_FEATURE_ENDPOINT_HALT →
      ∃ w1 : World M, default_handler env w = some (w1, true) ∧
        w1.usbp = { w.usbp with ep0next := Ptr.NULL, ep0n := 0 } ∧
        reply w1.usbp = [] ∧
        (w.usbp.setup 4 &&& 0x0F = 0 → w1.trace = w.trace) ∧
        (w.usbp.setup 4 &&& 0x0F ≠ 0 → (w.usbp.setup 4).testBit 7 = true →
          w1.trace = w.trace ++ [Call.usb_lld_clear_in (w.usbp.setup 4 &&& 0x0F)]) ∧
        (w.usbp.setup 4 &&& 0x0F ≠ 0 → (w.usbp.setup 4).testBit 7 = false →
          w1.trace = w.trace ++ [Call.usb_lld_clear_out (w.usbp.setup 4 &&& 0x0F)])) := by
  have hsel := selector_of_standard _ _ _ hreq
  have hbit := and_0x80_ne_zero_iff_testBit (w.usbp.setup 4)
  constructor
  · intro hf
    simp [default_handler, hsel, hf, USB_RTYPE_RECIPIENT_DEVICE, USB_RTYPE_RECIPIENT_ENDPOINT,
      USB_RTYPE_RECIPIENT_INTERFACE, USB_REQ_SET_CONFIGURATION, USB_REQ_GET_DESCRIPTOR,
      USB_REQ_GET_STATUS, USB_REQ_CLEAR_FEATURE, USB_REQ_SET_FEATURE, USB_REQ_SET_ADDRESS,
      USB_REQ_GET_CONFIGURATION, USB_REQ_SYNCH_FRAME]
  · intro hf
    by_cases hz : w.usbp.setup 4 &&& 0x0F = 0
    · simp [default_handler, hsel, hf, hz, usbSetupTransfer, reply, Ptr.read,
        USB_RTYPE_RECIPIENT_DEVICE, USB_RTYPE_RECIPIENT_ENDPOINT,
        USB_RTYPE_RECIPIENT_INTERFACE, USB_REQ_SET_CONFIGURATION, USB_REQ_GET_DESCRIPTOR,
        USB_REQ_GET_STATUS, USB_REQ_CLEAR_FEATURE, USB_REQ_SET_FEATURE, USB_REQ_SET_ADDRESS,
        USB_REQ_GET_CONFIGURATION, USB_REQ_SYNCH_FRAME]
    · have hpos : 0 < w.usbp.setup 4 &&& 0x0F := Nat.pos_of_ne_zero hz
      by_cases hb : (w.usbp.setup 4).testBit 7 = true
      · have hd : w.usbp.setup 4 &&& 0x80 ≠ 0 := hbit.mpr hb
        simp [default_handler, hsel, hf, hz, hpos, hb, hd, usbSetupTransfer, World.call, reply,
          Ptr.read, USB_RTYPE_RECIPIENT_DEVICE, USB_RTYPE_RECIPIENT_ENDPOINT,
          USB_RTYPE_RECIPIENT_INTERFACE, USB_REQ_SET_CONFIGURATION, USB_REQ_GET_DESCRIPTOR,
          USB_REQ_GET_STATUS, USB_REQ_CLEAR_FEATURE, USB_REQ_SET_FEATURE, USB_REQ_SET_ADDRESS,
          USB_REQ_GET_CONFIGURATION, USB_REQ_SYNCH_FRAME]
      · have hd : ¬ (w.usbp.setup 4 &&& 0x80 ≠ 0) := fun h => hb (hbit.mp h)
        simp [default_handler, hsel, hf, hz, hpos, hb, hd, usbSetupTransfer, World.call, reply,
          Ptr.read, USB_RTYPE_RECIPIENT_DEVICE, USB_RTYPE_RECIPIENT_ENDPOINT,
          USB_RTYPE_RECIPIENT_INTERFACE, USB_REQ_SET_CONFIGURATION, USB_REQ_GET_DESCRIPTOR,
          USB_REQ_GET_STATUS, USB_REQ_CLEAR_FEATURE, USB_REQ_SET_FEATURE, USB_REQ_SET_ADDRESS,
          USB_REQ_GET_CONFIGURATION, USB_REQ_SYNCH_FRAME]

/-- Witness for C10: CLEAR_FEATURE(ENDPOINT_HALT) `02 01 00 00 02 00 00 00`
calls `usb_lld_clear_out(2)` and acknowledges with a zero-length reply. -/
theorem C10_endpoint_clear_feature_witness :
    ∃ w1 : World 7,
      default_handler
        (sampleEnv usbaddrmode_t.USB_LATE_SET_ADDRESS usbepstatus_t.EP_STATUS_ACTIVE)
        ⟨sampleDriver ⟨false, false⟩ usbep0state_t.USB_EP0_WAITING_SETUP
          (mkSetup 0x02 0x01 0x00 0x00 0x02 0x00 0x00 0x00), []⟩ = some (w1, true) ∧
      w1.usbp.ep0n = 0 ∧
      w1.trace = [Call.usb_lld_clear_out 2] := by
  obtain ⟨w1, h1, hu, -, -, -, hout⟩ :=
    (C10_endpoint_clear_feature
      (sampleEnv usbaddrmode_t.USB_LATE_SET_ADDRESS usbepstatus_t.EP_STATUS_ACTIVE)
      ⟨sampleDriver ⟨false, false⟩ usbep0state_t.USB_EP0_WAITING_SETUP
        (mkSetup 0x02 0x01 0x00 0x00 0x02 0x00 0x00 0x00), []⟩ (by decide)).2 (by decide)
  exact ⟨w1, h1, by rw [hu], by rw [hout (by decide) (by decide)]; decide⟩

/-- The mask `0xFFFD` has every bit below 16 set except bit 1. -/
theorem testBit_0xFFFD (i : Nat) : (0xFFFD : Nat).testBit i = decide (i < 16 ∧ i ≠ 1) := by
  by_cases h : i < 16
  · interval_cases i <;> decide
  · have : (0xFFFD : Nat) < 2 ^ i := by
      calc (0xFFFD : Nat) < 2 ^ 16 := by decide
        _ ≤ 2 ^ i := Nat.pow_le_pow_right (by decide) (by omega)
    rw [Nat.testBit_lt_two_pow this]
    simp [h]

/-- C11: for a Standard DEVICE SET_FEATURE / CLEAR_FEATURE SETUP (the status
word being a 16 bit value): when the feature selector `setup[2]` is
DEVICE_REMOTE_WAKEUP, SET_FEATURE sets and CLEAR_FEATURE clears bit 1 of
`status`, every other bit of `status` is unchanged, and the request is accepted
with a zero-length reply and no call; for every other feature selector the
request is rejected and the driver, `status` included, is unchanged. -/
theorem C11_device_remote_wakeup (env : Env M) (w : World M)
    (hstatus : w.usbp.status < 65536)
    (hrec : w.usbp.setup 0 &&& USB_RTYPE_TYPE_MASK = USB_RTYPE_TYPE_STD ∧
      w.usbp.setup 0 &&& USB_RTYPE_RECIPIENT_MASK = USB_RTYPE_RECIPIENT_DEVICE) :
    (w.usbp.setup 1 = USB_REQ_SET_FEATURE →
      (w.usbp.setup 2 = USB_FEATURE_DEVICE_REMOTE_WAKEUP →
        ∃ w1 : World M, default_handler env w = some (w1, true) ∧
          w1.usbp.status.testBit 1 = true ∧
          (∀ i : Nat, i ≠ 1 → w1.usbp.status.testBit i = w.usbp.status.testBit i) ∧
          w1.usbp.ep0next = Ptr.NULL ∧ w1.usbp.ep0n = 0 ∧ reply w1.usbp = [] ∧
          w1.trace = w.trace) ∧
      (w.usbp.setup 2 ≠ USB_FEATURE_DEVICE_REMOTE_WAKEUP →
        default_handler env w = some (w, false))) ∧
    (w.usbp.setup 1 = USB_REQ_CLEAR_FEATURE →
      (w.usbp.setup 2 = USB_FEATURE_DEVICE_REMOTE_WAKEUP →
        ∃ w1 : World M, default_handler env w = some (w1, true) ∧
          w1.usbp.status.testBit 1 = false ∧
          (∀ i : Nat, i ≠ 1 → w1.usbp.status.testBit i = w.usbp.status.testBit i) ∧
          w1.usbp.ep0next = Ptr.NULL ∧ w1.usbp.ep0n = 0 ∧ reply w1.usbp = [] ∧
          w1.trace = w.trace) ∧
      (w.usbp.setup 2 ≠ USB_FEATURE_DEVICE_REMOTE_WAKEUP →
        default_handler env w = some (w, false))) := by
  constructor
  · intro h1
    have hsel := selector_of_standard _ _ _ ⟨hrec.1, hrec.2, h1⟩
    constructor
    · intro hf
      refine ⟨usbSetupTransfer
        { w with usbp := { w.usbp with status := w.usbp.status ||| 2 } } Ptr.NULL 0, ?_, ?_, ?_,
        rfl, rfl, rfl, rfl⟩
      · simp [default_handler, hsel, hf, USB_RTYPE_RECIPIENT_DEVICE, USB_REQ_SET_FEATURE,
          USB_REQ_GET_STATUS, USB_REQ_CLEAR_FEATURE]
      · simp [usbSetupTransfer, Nat.testBit_or]
        right; decide
      · intro i hi
        simp only [usbSetupTransfer, Nat.testBit_or]
        have : (2 : Nat).testBit i = false := by
          have h2 : (2 : Nat) = 2 ^ 1 := rfl
          rw [h2, Nat.testBit_two_pow]
          simp; omega
        rw [this, Bool.or_false]
    · intro hf
      simp [default_handler, hsel, hf, USB_RTYPE_RECIPIENT_DEVICE, USB_REQ_SET_FEATURE,
        USB_REQ_GET_STATUS, USB_REQ_CLEAR_FEATURE]
  · intro h1
    have hsel := selector_of_standard _ _ _ ⟨hrec.1, hrec.2, h1⟩
    constructor
    · intro hf
      refine ⟨usbSetupTransfer
        { w with usbp := { w.usbp with status := w.usbp.status &&& 0xFFFD } } Ptr.NULL 0, ?_, ?_,
        ?_, rfl, rfl, rfl, rfl⟩
      · simp [default_handler, hsel, hf, USB_RTYPE_RECIPIENT_DEVICE, USB_REQ_SET_FEATURE,
          USB_REQ_GET_STATUS, USB_REQ_CLEAR_FEATURE]
      · simp only [usbSetupTransfer, Nat.testBit_and, testBit_0xFFFD]
        simp
      · intro i hi
        simp only [usbSetupTransfer, Nat.testBit_and, testBit_0xFFFD]
        by_cases h16 : i < 16
        · simp [h16, hi]
        · have : w.usbp.status < 2 ^ i := by
            calc w.usbp.status < 2 ^ 16 := hstatus
              _ ≤ 2 ^ i := Nat.pow_le_pow_right (by decide) (by omega)
          rw [Nat.testBit_lt_two_pow this]
          simp
    · intro hf
      simp [default_handler, hsel, hf, USB_RTYPE_RECIPIENT_DEVICE, USB_REQ_SET_FEATURE,
        USB_REQ_GET_STATUS, USB_REQ_CLEAR_FEATURE]
/-- Witness for C11: SET_FEATURE(DEVICE_REMOTE_WAKEUP) `00 03 01 00 00 00 00 00`
sets bit 1 of the status word. -/
theorem C11_device_remote_wakeup_witness :
    ∃ w1 : World 7,
      default_handler (sampleEnv usbaddrmode_t.USB_LATE_SET_ADDRESS usbepstatus_t.EP_STATUS_ACTIVE)
        ⟨sampleDriver ⟨false, false⟩ usbep0state_t.USB_EP0_WAITING_SETUP
          (mkSetup 0x00 0x03 0x01 0x00 0x00 0x00 0x00 0x00), []⟩ = some (w1, true) ∧
      w1.usbp.status.testBit 1 = true ∧ w1.usbp.ep0n = 0 := by
  obtain ⟨w1, h1, hb, -, -, hn, -⟩ :=
    ((C11_device_remote_wakeup
      (sampleEnv usbaddrmode_t.USB_LATE_SET_ADDRESS usbepstatus_t.EP_STATUS_ACTIVE)
      ⟨sampleDriver ⟨false, false⟩ usbep0state_t.USB_EP0_WAITING_SETUP
        (mkSetup 0x00 0x03 0x01 0x00 0x00 0x00 0x00 0x00), []⟩
      (by decide) (by decide)).1 rfl).1 rfl
  exact ⟨w1, h1, hb, hn⟩

/-- C12: for every driver state, `_usb_reset` ends with `state = READY`,
`address = 0`, `configuration = 0`, `status = 0`, `ep0state = WAITING_SETUP`,
and it calls `usb_lld_reset` exactly once, after those updates.  The driver
object `w0` that the low level reset is handed holds the five values, has every
endpoint slot `ep[0..MAX]` null, and no call has been made on it yet; the result
of `_usb_reset` is the low level reset running on `w0`.  So slot 0 ends as the
low level driver installs it from `w0`, the slots `ep[1..MAX]` end null, and the
other fields are as they were. -/
theorem C12_usb_reset (env : Env M) (w : World M) :
    ∃ w0 : World M, _usb_reset env w = usb_lld_reset env w0 ∧
      w0.trace = w.trace ∧
      w0.usbp.state = usbstate_t.USB_READY ∧
      w0.usbp.address = 0 ∧ w0.usbp.configuration = 0 ∧ w0.usbp.status = 0 ∧
      w0.usbp.ep0state = usbep0state_t.USB_EP0_WAITING_SETUP ∧
      (∀ i : Fin (M + 1), w0.usbp.ep i = none) ∧
      (_usb_reset env w).trace = w.trace ++ [Call.usb_lld_reset] ∧
      (_usb_reset env w).usbp.state = usbstate_t.USB_READY ∧
      (_usb_reset env w).usbp.address = 0 ∧
      (_usb_reset env w).usbp.configuration = 0 ∧
      (_usb_reset env w).usbp.status = 0 ∧
      (_usb_reset env w).usbp.ep0state = usbep0state_t.USB_EP0_WAITING_SETUP ∧
      (_usb_reset env w).usbp.ep 0 = env.lld_reset_ep0 w0.usbp ∧
      (∀ i : Fin (M + 1), i ≠ 0 → (_usb_reset env w).usbp.ep i = none) ∧
      (_usb_reset env w).usbp.config = w.usbp.config ∧
      (_usb_reset env w).usbp.param = w.usbp.param ∧
      (_usb_reset env w).usbp.setup = w.usbp.setup ∧
      (_usb_reset env w).usbp.ep0next = w.usbp.ep0next ∧
      (_usb_reset env w).usbp.ep0n = w.usbp.ep0n := by
  refine ⟨World.mk { w.usbp with
        state := usbstate_t.USB_READY, status := 0, address := 0, configuration := 0,
        ep := fun _ => none, ep0state := usbep0state_t.USB_EP0_WAITING_SETUP } w.trace,
   rfl, rfl, rfl, rfl, rfl, rfl, rfl, fun _ => rfl, rfl, rfl, rfl, rfl, rfl, rfl, ?_, ?_,
   rfl, rfl, rfl, rfl, rfl⟩
  · simp [_usb_reset, usb_lld_reset, World.call]
  · intro i hi0
    simp only [_usb_reset, usb_lld_reset, World.call]
    rw [Function.update_noteq hi0]

/-- Witness for C12: a low level driver that installs endpoint zero only when it
finds the driver in READY with address 0 and slot 1 null.  From a driver in
ACTIVE with address 7 and slot 1 bound, `_usb_reset` ends with endpoint zero
installed: the low level reset ran on the updated driver, and what it installed
was not nulled afterwards. -/
theorem C12_usb_reset_witness :
    (_usb_reset resetProbeEnv ⟨boundDriver, []⟩).usbp.ep 0 = some (ep0slot 64 0) ∧
    (_usb_reset resetProbeEnv ⟨boundDriver, []⟩).usbp.ep 1 = none ∧
    (_usb_reset resetProbeEnv ⟨boundDriver, []⟩).usbp.state = usbstate_t.USB_READY ∧
    (_usb_reset resetProbeEnv ⟨boundDriver, []⟩).trace = [Call.usb_lld_reset] := by
  obtain ⟨w0, -, -, hs, ha, -, -, -, he, ht, hst, -, -, -, -, h0, h1, -⟩ :=
    C12_usb_reset resetProbeEnv ⟨boundDriver, []⟩
  refine ⟨?_, h1 1 (by decide), hst, ht⟩
  rw [h0]
  simp [resetProbeEnv, hs, ha, he 1]

/-- C13: for every driver and every populated endpoint `ep`, `usbStartTransmitI`
returns busy (`true`) if and only if the `transmitting` flag of `ep` was set on
entry.  When busy it makes no call and leaves the driver unchanged.  When not
busy it sets the `transmitting` flag of `ep`, leaves everything else as it was,
and makes the one call `usb_lld_start_in(ep, buf, n)`; a second call on the
result returns busy and changes nothing. -/
theorem C13_start_transmit_busy (w : World M) (ep : Fin (M + 1)) (epp : USBEndpointState)
    (buf : Ptr) (n : Nat) (hep : w.usbp.ep ep = some epp) :
    ∃ (w1 : World M) (busy : Bool), usbStartTransmitI w ep buf n = some (w1, busy) ∧
      (busy = true ↔ epp.transmitting = true) ∧
      (busy = true → w1 = w) ∧
      (busy = false →
        w1.trace = w.trace ++ [Call.usb_lld_start_in ep.val buf n] ∧
        w1.usbp.ep ep = some { epp with transmitting := true } ∧
        (∀ j : Fin (M + 1), j ≠ ep → w1.usbp.ep j = w.usbp.ep j) ∧
        w1.usbp = { w.usbp with
          ep := Function.update w.usbp.ep ep (some { epp with transmitting := true }) } ∧
        ∀ (buf2 : Ptr) (n2 : Nat), usbStartTransmitI w1 ep buf2 n2 = some (w1, true)) := by
  cases ht : epp.transmitting with
  | true =>
    exact ⟨w, true, by simp [usbStartTransmitI, hep, ht], by simp, fun _ => rfl, by simp⟩
  | false =>
    refine ⟨_, false, by simp [usbStartTransmitI, hep, ht]; rfl, by simp, by simp, ?_⟩
    intro _
    refine ⟨rfl, by simp [World.call], ?_, rfl, ?_⟩
    · intro j hj
      simp [World.call, Function.update_noteq hj]
    · intro buf2 n2
      simp [usbStartTransmitI, World.call]

/-- Witness for C13: on endpoint zero of a driver with no transfer in flight
`usbStartTransmitI` returns not busy and starts the transfer; called again on
the result it returns busy. -/
theorem C13_start_transmit_busy_witness :
    ∃ w1 : World 7,
      usbStartTransmitI ⟨activeDriver, []⟩ 0 Ptr.zero_status 2 = some (w1, false) ∧
      w1.trace = [Call.usb_lld_start_in 0 Ptr.zero_status 2] ∧
      usbStartTransmitI w1 0 Ptr.zero_status 2 = some (w1, true) := by
  obtain ⟨w1, busy, h1, hb, -, hnb⟩ :=
    C13_start_transmit_busy ⟨activeDriver, []⟩ 0 (ep0slot 64 0) Ptr.zero_status 2 rfl
  have hbusy : busy = false := by
    cases busy with
    | false => rfl
    | true => exact absurd (hb.mp rfl) (by decide)
  subst hbusy
  obtain ⟨ht, -, -, -, h2⟩ := hnb rfl
  exact ⟨w1, h1, ht, h2 _ _⟩

/-- C14 (code behaviour): `usbInitEndpointI` asserts `usbp->ep[ep] != NULL`, so
on a driver whose slot `ep[ep]` is unbound (null) the assertion fails, whatever
the state: the slot is not initialized and `usb_lld_init_endpoint` is not
called.  The function passes its assertions only in `USB_ACTIVE` with the slot
already bound, and then rebinds the slot to the zeroed structure linked to
`epcp` and calls `usb_lld_init_endpoint(ep)` once. -/
theorem C14_init_endpoint_assertion (w : World M) (ep : Fin (M + 1))
    (epcp : Option USBEndpointConfig) :
    (w.usbp.ep ep = none → usbInitEndpointI w ep epcp = none) ∧
    (∀ w1 : World M, usbInitEndpointI w ep epcp = some w1 →
      w.usbp.state = usbstate_t.USB_ACTIVE ∧ w.usbp.ep ep ≠ none ∧
      w1.usbp.ep ep = some { config := epcp, transmitting := false, receiving := false,
                             rxsize := 0 } ∧
      w1.trace = w.trace ++ [Call.usb_lld_init_endpoint ep.val]) := by
  constructor
  · intro h
    simp [usbInitEndpointI, h]
  · intro w1 h
    unfold usbInitEndpointI at h
    split_ifs at h with h1 h2
    · simp only [ne_eq, not_not] at h1
      cases h
      exact ⟨h1, h2, by simp [World.call], rfl⟩
/-- Witness for C14: in ACTIVE with slot 1 unbound, `usbInitEndpointI` on
endpoint 1 fails its assertion. -/
theorem C14_init_endpoint_assertion_witness :
    activeDriver.state = usbstate_t.USB_ACTIVE ∧ activeDriver.ep 1 = none ∧
    usbInitEndpointI ⟨activeDriver, []⟩ 1 (some ⟨64, 64⟩) = none :=
  ⟨rfl, rfl, (C14_init_endpoint_assertion ⟨activeDriver, []⟩ 1 (some ⟨64, 64⟩)).1 rfl⟩

/-- When the standard handler rejects a request, or accepts it with a non-empty
reply, the calls it has made are queries only. -/
theorem default_handler_trace_queries (env : Env M) (w w1 : World M) (b : Bool)
    (h : default_handler env w = some (w1, b)) (hb : b = false ∨ 0 < w1.usbp.ep0n) :
    ∃ l : List Call, w1.trace = w.trace ++ l ∧ ∀ c ∈ l, c.isQuery = true := by
  unfold default_handler at h
  simp only [] at h
  generalize request_selector w.usbp.setup = sel at h
  have hnil : ∀ u : USBDriver M, ∃ l : List Call,
      ({ usbp := u, trace := w.trace } : World M).trace = w.trace ++ l ∧
        ∀ c ∈ l, c.isQuery = true := fun _ => ⟨[], by simp, by simp⟩
  have hbad : ∀ u : World M, (true = false ∨ 0 < (usbSetupTransfer u Ptr.NULL 0).usbp.ep0n) →
      False := by
    intro u hu
    rcases hu with hu | hu
    · exact Bool.noConfusion hu
    · simp [usbSetupTransfer] at hu
  by_cases c1 : sel = USB_RTYPE_RECIPIENT_DEVICE ||| (USB_REQ_GET_STATUS <<< 8)
  · rw [if_pos c1] at h; cases h; exact hnil _
  rw [if_neg c1] at h
  by_cases c2 : sel = USB_RTYPE_RECIPIENT_DEVICE ||| (USB_REQ_CLEAR_FEATURE <<< 8)
  · rw [if_pos c2] at h
    split at h <;> (cases h; exact hnil _)
  rw [if_neg c2] at h
  by_cases c3 : sel = USB_RTYPE_RECIPIENT_DEVICE ||| (USB_REQ_SET_FEATURE <<< 8)
  · rw [if_pos c3] at h
    split at h <;> (cases h; exact hnil _)
  rw [if_neg c3] at h
  by_cases c4 : sel = USB_RTYPE_RECIPIENT_DEVICE ||| (USB_REQ_SET_ADDRESS <<< 8)
  · rw [if_pos c4] at h
    split at h
    · simp at h
    · cases h; exact absurd hb (hbad _)
  rw [if_neg c4] at h
  by_cases c5 : sel = USB_RTYPE_RECIPIENT_DEVICE ||| (USB_REQ_GET_DESCRIPTOR <<< 8)
  · rw [if_pos c5] at h
    split at h
    · simp at h
    · split at h <;>
        (cases h; exact ⟨[_], rfl, by simp [Call.isQuery]⟩)
  rw [if_neg c5] at h
  by_cases c6 : sel = USB_RTYPE_RECIPIENT_DEVICE ||| (USB_REQ_GET_CONFIGURATION <<< 8)
  · rw [if_pos c6] at h; cases h; exact hnil _
  rw [if_neg c6] at h
  by_cases c7 : sel = USB_RTYPE_RECIPIENT_DEVICE ||| (USB_REQ_SET_CONFIGURATION <<< 8)
  · rw [if_pos c7] at h
    split at h
    · simp at h
    · cases h; exact absurd hb (hbad _)
  rw [if_neg c7] at h
  by_cases c8 : sel = USB_RTYPE_RECIPIENT_INTERFACE ||| (USB_REQ_GET_STATUS <<< 8) ∨
      sel = USB_RTYPE_RECIPIENT_ENDPOINT ||| (USB_REQ_SYNCH_FRAME <<< 8)
  · rw [if_pos c8] at h; cases h; exact hnil _
  rw [if_neg c8] at h
  by_cases c9 : sel = USB_RTYPE_RECIPIENT_ENDPOINT ||| (USB_REQ_GET_STATUS <<< 8)
  · rw [if_pos c9] at h
    split at h <;> split at h <;>
      (cases h; exact ⟨[_], rfl, by simp [Call.isQuery]⟩)
  rw [if_neg c9] at h
  by_cases c10 : sel = USB_RTYPE_RECIPIENT_ENDPOINT ||| (USB_REQ_CLEAR_FEATURE <<< 8)
  · rw [if_pos c10] at h
    split at h
    · cases h; exact hnil _
    · cases h; exact absurd hb (hbad _)
  rw [if_neg c10] at h
  by_cases c11 : sel = USB_RTYPE_RECIPIENT_ENDPOINT ||| (USB_REQ_SET_FEATURE <<< 8)
  · rw [if_pos c11] at h
    split at h
    · cases h; exact hnil _
    · cases h; exact absurd hb (hbad _)
  rw [if_neg c11] at h
  cases h; exact hnil _

/-- A query is not an event, a stall, a clear or a change of address. -/
theorem isQuery_harmless (c : Call) (h : c.isQuery = true) :
    (∀ ev : usbevent_t, c ≠ Call.event_cb ev) ∧
    (∀ e : Nat, c ≠ Call.usb_lld_stall_in e) ∧ (∀ e : Nat, c ≠ Call.usb_lld_stall_out e) ∧
    (∀ e : Nat, c ≠ Call.usb_lld_clear_in e) ∧ (∀ e : Nat, c ≠ Call.usb_lld_clear_out e) ∧
    (∀ a : Nat, c ≠ Call.usb_lld_set_address a) ∧
    (∀ (e : Nat) (buf : Ptr) (n : Nat), c ≠ Call.usb_lld_start_in e buf n) ∧
    (∀ (e : Nat) (buf : Ptr) (n : Nat), c ≠ Call.usb_lld_start_out e buf n) := by
  cases c <;> simp [Call.isQuery] at h ⊢


/-- When the request dispatch accepts a request with a non-empty reply, the
calls it has made are the hook call and queries. -/
theorem setup_dispatch_trace (env : Env M) (w wd : World M)
    (h : setup_dispatch env w = some (wd, true)) (hn : 0 < wd.usbp.ep0n) :
    ∃ l : List Call, wd.trace = w.trace ++ l ∧
      ∀ c ∈ l, c = Call.requests_hook_cb ∨ c.isQuery = true := by
  cases hc : w.usbp.config with
  | none => simp [setup_dispatch, hc] at h
  | some cfg =>
    rw [setup_dispatch_eq env w cfg hc] at h
    have hh : ∃ l0 : List Call, (hook_stage env cfg w).1.trace = w.trace ++ l0 ∧
        ∀ c ∈ l0, c = Call.requests_hook_cb := by
      unfold hook_stage
      split_ifs
      · exact ⟨[Call.requests_hook_cb], rfl, by simp⟩
      · exact ⟨[], by simp, by simp⟩
    obtain ⟨l0, hl0, hq0⟩ := hh
    split_ifs at h
    · cases h
      exact ⟨l0, hl0, fun c hc => Or.inl (hq0 c hc)⟩
    · simp at h
    · obtain ⟨l, hl, hq⟩ := default_handler_trace_queries env _ wd true h (Or.inr hn)
      refine ⟨l0 ++ l, by rw [hl, hl0, List.append_assoc], ?_⟩
      intro c hc
      rcases List.mem_append.mp hc with hc | hc
      · exact Or.inl (hq0 c hc)
      · exact Or.inr (hq c hc)

/-- C15: for a device-to-host SETUP that is accepted with a reply whose clamped
length equals `wLength > 0`, with endpoint zero populated and a zero-length
status packet received (`rxsize = 0`), the events SETUP OUT-complete,
IN-complete, OUT-complete drive `ep0state` from WAITING_SETUP to TX, to
WAITING_STS and back to WAITING_SETUP.  After the dispatch the calls are
`usb_lld_start_in(0, ep0next, wLength)` and `usb_lld_start_out(0, NULL, 0)`; in
the whole sequence no zero-length IN packet is started and no event is
delivered. -/
theorem C15_in_transfer_sequence (env : Env M) (w wd : World M) (epp : USBEndpointState)
    (hst : w.usbp.ep0state = usbep0state_t.USB_EP0_WAITING_SETUP)
    (hacc : setup_dispatch env w = some (wd, true))
    (hdir : (wd.usbp.setup 0).testBit 7 = true)
    (hpos : 0 < wd.usbp.setup 6 + 256 * wd.usbp.setup 7)
    (hlen : min wd.usbp.ep0n (wd.usbp.setup 6 + 256 * wd.usbp.setup 7) =
      wd.usbp.setup 6 + 256 * wd.usbp.setup 7)
    (hep : wd.usbp.ep 0 = some epp) (hrx : epp.rxsize = 0) :
    ∃ w1 w2 w3 : World M,
      _usb_ep0out env w = some w1 ∧ w1.usbp.ep0state = usbep0state_t.USB_EP0_TX ∧
      _usb_ep0in env w1 = some w2 ∧ w2.usbp.ep0state = usbep0state_t.USB_EP0_WAITING_STS ∧
      _usb_ep0out env w2 = some w3 ∧ w3.usbp.ep0state = usbep0state_t.USB_EP0_WAITING_SETUP ∧
      w3.trace = wd.trace ++
        [Call.usb_lld_start_in 0 wd.usbp.ep0next (wd.usbp.setup 6 + 256 * wd.usbp.setup 7),
         Call.usb_lld_start_out 0 Ptr.NULL 0] ∧
      ∃ l : List Call, w3.trace = w.trace ++ l ∧
        ∀ c ∈ l, (∀ ev : usbevent_t, c ≠ Call.event_cb ev) ∧
          (∀ (e : Nat) (buf : Ptr), c ≠ Call.usb_lld_start_in e buf 0) := by
  have hd : wd.usbp.setup 0 &&& 0x80 = 0x80 := (and_0x80_eq_iff_testBit _).mpr hdir
  have hle : wd.usbp.setup 6 + 256 * wd.usbp.setup 7 ≤ wd.usbp.ep0n := by omega
  have hn : 0 < wd.usbp.ep0n := by omega
  have hprep : transfer_preparation wd =
      { usbp := { wd.usbp with ep0n := wd.usbp.setup 6 + 256 * wd.usbp.setup 7,
                               ep0state := usbep0state_t.USB_EP0_TX },
        trace := wd.trace ++
          [Call.usb_lld_start_in 0 wd.usbp.ep0next (wd.usbp.setup 6 + 256 * wd.usbp.setup 7)] } := by
    simp only [transfer_preparation, fetch_word_6, World.call, USB_RTYPE_DIR_MASK,
      USB_RTYPE_DIR_DEV2HOST]
    by_cases hc : wd.usbp.ep0n > wd.usbp.setup 6 + 256 * wd.usbp.setup 7
    · simp [hc, hd, hpos]
    · have heq : wd.usbp.ep0n = wd.usbp.setup 6 + 256 * wd.usbp.setup 7 := by omega
      simp only [hc, hd, hn, if_true, if_false]
      rw [← heq]
  have h1 := ep0out_of_accepted env w wd hst hacc
  rw [hprep] at h1
  have h2 : _usb_ep0in env
      { usbp := { wd.usbp with ep0n := wd.usbp.setup 6 + 256 * wd.usbp.setup 7,
                               ep0state := usbep0state_t.USB_EP0_TX },
        trace := wd.trace ++
          [Call.usb_lld_start_in 0 wd.usbp.ep0next (wd.usbp.setup 6 + 256 * wd.usbp.setup 7)] } =
      some { usbp := { wd.usbp with ep0n := wd.usbp.setup 6 + 256 * wd.usbp.setup 7,
                                    ep0state := usbep0state_t.USB_EP0_WAITING_STS },
             trace := wd.trace ++
               [Call.usb_lld_start_in 0 wd.usbp.ep0next (wd.usbp.setup 6 + 256 * wd.usbp.setup 7),
                Call.usb_lld_start_out 0 Ptr.NULL 0] } := by
    simp [_usb_ep0in, fetch_word_6, World.call]
  have h3 : _usb_ep0out env
      { usbp := { wd.usbp with ep0n := wd.usbp.setup 6 + 256 * wd.usbp.setup 7,
                               ep0state := usbep0state_t.USB_EP0_WAITING_STS },
        trace := wd.trace ++
          [Call.usb_lld_start_in 0 wd.usbp.ep0next (wd.usbp.setup 6 + 256 * wd.usbp.setup 7),
           Call.usb_lld_start_out 0 Ptr.NULL 0] } =
      some { usbp := { wd.usbp with ep0n := wd.usbp.setup 6 + 256 * wd.usbp.setup 7,
                                    ep0state := usbep0state_t.USB_EP0_WAITING_SETUP },
             trace := wd.trace ++
               [Call.usb_lld_start_in 0 wd.usbp.ep0next (wd.usbp.setup 6 + 256 * wd.usbp.setup 7),
                Call.usb_lld_start_out 0 Ptr.NULL 0] } := by
    simp [_usb_ep0out, hep, hrx]
  refine ⟨_, _, _, h1, rfl, h2, rfl, h3, rfl, rfl, ?_⟩
  · obtain ⟨l, hl, hq⟩ := setup_dispatch_trace env w wd hacc hn
    refine ⟨l ++ [Call.usb_lld_start_in 0 wd.usbp.ep0next
        (wd.usbp.setup 6 + 256 * wd.usbp.setup 7), Call.usb_lld_start_out 0 Ptr.NULL 0], ?_, ?_⟩
    · show wd.trace ++ _ = _
      rw [hl, List.append_assoc]
    · intro c hc
      rcases List.mem_append.mp hc with hc | hc
      · rcases hq c hc with hq | hq
        · subst hq
          exact ⟨fun _ => by simp, fun _ _ => by simp⟩
        · obtain ⟨h1, -, -, -, -, -, h7, -⟩ := isQuery_harmless c hq
          exact ⟨h1, fun e buf => h7 e buf 0⟩
      · simp only [List.mem_cons, List.mem_singleton, List.not_mem_nil, or_false] at hc
        rcases hc with hc | hc
        · subst hc
          refine ⟨fun _ => by simp, fun e buf => ?_⟩
          intro heq
          injection heq with _ _ h3
          omega
        · subst hc
          exact ⟨fun _ => by simp, fun _ _ => by simp⟩
/-- Witness for C15: GET_DESCRIPTOR(Device) `80 06 00 01 00 00 12 00` answered
with the 18 byte descriptor, with an event callback installed: the three events
end in WAITING_SETUP, the calls are the descriptor callback, the 18 byte IN
transfer and the zero-length status OUT. -/
theorem C15_in_transfer_sequence_witness :
    ∃ w1 w2 w3 : World 7,
      _usb_ep0out (descriptorEnv usbaddrmode_t.USB_LATE_SET_ADDRESS)
        ⟨sampleDriver ⟨true, false⟩ usbep0state_t.USB_EP0_WAITING_SETUP
          (mkSetup 0x80 0x06 0x00 0x01 0x00 0x00 0x12 0x00), []⟩ = some w1 ∧
      _usb_ep0in (descriptorEnv usbaddrmode_t.USB_LATE_SET_ADDRESS) w1 = some w2 ∧
      _usb_ep0out (descriptorEnv usbaddrmode_t.USB_LATE_SET_ADDRESS) w2 = some w3 ∧
      w1.usbp.ep0state = usbep0state_t.USB_EP0_TX ∧
      w2.usbp.ep0state = usbep0state_t.USB_EP0_WAITING_STS ∧
      w3.usbp.ep0state = usbep0state_t.USB_EP0_WAITING_SETUP ∧
      w3.trace = [Call.get_descriptor_cb 1 0 0,
                  Call.usb_lld_start_in 0 deviceDescriptor.ud_string 18,
                  Call.usb_lld_start_out 0 Ptr.NULL 0] := by
  obtain ⟨w1, w2, w3, h1, s1, h2, s2, h3, s3, ht, -⟩ :=
    C15_in_transfer_sequence (descriptorEnv usbaddrmode_t.USB_LATE_SET_ADDRESS)
      ⟨sampleDriver ⟨true, false⟩ usbep0state_t.USB_EP0_WAITING_SETUP
        (mkSetup 0x80 0x06 0x00 0x01 0x00 0x00 0x12 0x00), []⟩
      (usbSetupTransfer
        (World.call ⟨sampleDriver ⟨true, false⟩ usbep0state_t.USB_EP0_WAITING_SETUP
          (mkSetup 0x80 0x06 0x00 0x01 0x00 0x00 0x12 0x00), []⟩ (Call.get_descriptor_cb 1 0 0))
        deviceDescriptor.ud_string 18)
      (ep0slot 64 0) rfl rfl (by decide) (by decide) (by decide) rfl rfl
  exact ⟨w1, w2, w3, h1, h2, h3, s1, s2, s3, by rw [ht]; rfl⟩

/-- Every driver is within the bound of itself. -/
theorem lifecycleEffect_refl (d : USBDriver M) : lifecycleEffect d d :=
  ⟨rfl, rfl, Or.inl ⟨rfl, rfl⟩⟩

/-- The bounds compose. -/
theorem lifecycleEffect_trans {d d1 d2 : USBDriver M}
    (h1 : lifecycleEffect d d1) (h2 : lifecycleEffect d1 d2) : lifecycleEffect d d2 := by
  obtain ⟨hc1, he1, hs1⟩ := h1
  obtain ⟨hc2, he2, hs2⟩ := h2
  refine ⟨hc2.trans hc1, he2.trans he1, ?_⟩
  rcases hs2 with ⟨hs, hn⟩ | ⟨hc, hs⟩ | ⟨hc, hs, hn⟩
  · rcases hs1 with ⟨hs', hn'⟩ | ⟨hc', hs'⟩ | ⟨hc', hs', hn'⟩
    · exact Or.inl ⟨hs.trans hs', hn.trans hn'⟩
    · exact Or.inr (Or.inl ⟨hc', hs.trans hs'⟩)
    · exact Or.inr (Or.inr ⟨hc', hs.trans hs', by rw [hn]; exact hn'⟩)
  · exact Or.inr (Or.inl ⟨by rw [← hc1]; exact hc, hs⟩)
  · exact Or.inr (Or.inr ⟨by rw [← hc1]; exact hc, hs, hn⟩)

/-- An event delivery needs a configuration and keeps the life cycle fields. -/
theorem invoke_event_cb_effect (env : Env M) (hk : env.keepsFields) (ev : usbevent_t)
    (w w1 : World M) (h : invoke_event_cb env ev w = some w1) :
    w.usbp.config ≠ none ∧ w1.usbp.config = w.usbp.config ∧ w1.usbp.ep = w.usbp.ep ∧
    w1.usbp.state = w.usbp.state ∧ w1.usbp.configuration = w.usbp.configuration := by
  unfold invoke_event_cb at h
  cases hc : w.usbp.config with
  | none => simp [hc] at h
  | some cfg =>
    simp only [hc] at h
    obtain ⟨h1, h2, h3, h4⟩ := hk.1 w.usbp ev
    split_ifs at h
    · cases h
      exact ⟨by simp, by rw [h3, hc], h4, h1, h2⟩
    · cases h
      exact ⟨by simp, hc, rfl, rfl, rfl⟩

/-- The function `set_address` needs a configuration, keeps `config` and the
endpoint table and ends in SELECTED. -/
theorem set_address_effect (env : Env M) (hk : env.keepsFields) (w w1 : World M)
    (h : set_address env w = some w1) : lifecycleEffect w.usbp w1.usbp := by
  unfold set_address at h
  simp only [] at h
  split at h
  · simp at h
  · rename_i w3 h3
    cases h
    obtain ⟨hc, h1, h2, -, -⟩ := invoke_event_cb_effect env hk _ _ _ h3
    exact ⟨h1, h2, Or.inr (Or.inl ⟨hc, rfl⟩)⟩

/-- The error response keeps the life cycle fields. -/
theorem error_response_effect (env : Env M) (hk : env.keepsFields) (w w1 : World M)
    (h : ep0_error_response env w = some w1) : lifecycleEffect w.usbp w1.usbp := by
  unfold ep0_error_response at h
  simp only [] at h
  split at h
  · simp at h
  · rename_i w3 h3
    cases h
    obtain ⟨-, h1, h2, h4, h5⟩ := invoke_event_cb_effect env hk _ _ _ h3
    exact ⟨h1, h2, Or.inl ⟨h4, h5⟩⟩

/-- The transfer preparation keeps the life cycle fields. -/
theorem transfer_preparation_effect (w : World M) :
    lifecycleEffect w.usbp (transfer_preparation w).usbp := by
  simp only [transfer_preparation, World.call]
  split_ifs <;> exact ⟨rfl, rfl, Or.inl ⟨rfl, rfl⟩⟩

/-- The EP0 IN callback stays within the bound. -/
theorem ep0in_effect (env : Env M) (hk : env.keepsFields) (w w1 : World M)
    (h : _usb_ep0in env w = some w1) : lifecycleEffect w.usbp w1.usbp := by
  unfold _usb_ep0in at h
  simp only [] at h
  split at h
  · repeat' split at h
    all_goals first
      | (simp at h; done)
      | (cases h; exact ⟨rfl, rfl, Or.inl ⟨rfl, rfl⟩⟩)
  · split at h
    · simp at h
    · rename_i w2 h2
      cases h
      have : lifecycleEffect w.usbp w2.usbp := by
        split at h2
        · split_ifs at h2
          · exact set_address_effect env hk _ _ h2
          · cases h2; exact lifecycleEffect_refl _
        · cases h2; exact lifecycleEffect_refl _
      exact lifecycleEffect_trans this ⟨rfl, rfl, Or.inl ⟨rfl, rfl⟩⟩
  · exact error_response_effect env hk _ _ h
/-- The standard handler stays within the bound. -/
theorem default_handler_effect (env : Env M) (hk : env.keepsFields) (w w1 : World M) (b : Bool)
    (h : default_handler env w = some (w1, b)) : lifecycleEffect w.usbp w1.usbp := by
  unfold default_handler at h
  simp only [] at h
  generalize request_selector w.usbp.setup = sel at h
  by_cases c1 : sel = USB_RTYPE_RECIPIENT_DEVICE ||| (USB_REQ_GET_STATUS <<< 8)
  · rw [if_pos c1] at h; cases h; exact lifecycleEffect_refl _
  rw [if_neg c1] at h
  by_cases c2 : sel = USB_RTYPE_RECIPIENT_DEVICE ||| (USB_REQ_CLEAR_FEATURE <<< 8)
  · rw [if_pos c2] at h
    split at h <;> (cases h; exact lifecycleEffect_refl _)
  rw [if_neg c2] at h
  by_cases c3 : sel = USB_RTYPE_RECIPIENT_DEVICE ||| (USB_REQ_SET_FEATURE <<< 8)
  · rw [if_pos c3] at h
    split at h <;> (cases h; exact lifecycleEffect_refl _)
  rw [if_neg c3] at h
  by_cases c4 : sel = USB_RTYPE_RECIPIENT_DEVICE ||| (USB_REQ_SET_ADDRESS <<< 8)
  · rw [if_pos c4] at h
    split at h
    · simp at h
    · rename_i w2 h2
      cases h
      have : lifecycleEffect w.usbp w2.usbp := by
        split at h2
        · split_ifs at h2
          · exact set_address_effect env hk _ _ h2
          · cases h2; exact lifecycleEffect_refl _
        · cases h2; exact lifecycleEffect_refl _
      exact lifecycleEffect_trans this ⟨rfl, rfl, Or.inl ⟨rfl, rfl⟩⟩
  rw [if_neg c4] at h
  by_cases c5 : sel = USB_RTYPE_RECIPIENT_DEVICE ||| (USB_REQ_GET_DESCRIPTOR <<< 8)
  · rw [if_pos c5] at h
    split at h
    · simp at h
    · split at h <;> (cases h; exact lifecycleEffect_refl _)
  rw [if_neg c5] at h
  by_cases c6 : sel = USB_RTYPE_RECIPIENT_DEVICE ||| (USB_REQ_GET_CONFIGURATION <<< 8)
  · rw [if_pos c6] at h; cases h; exact lifecycleEffect_refl _
  rw [if_neg c6] at h
  by_cases c7 : sel = USB_RTYPE_RECIPIENT_DEVICE ||| (USB_REQ_SET_CONFIGURATION <<< 8)
  · rw [if_pos c7] at h
    split at h
    · simp at h
    · rename_i w3 h3
      cases h
      obtain ⟨hc, h1, h2, h4, h5⟩ := invoke_event_cb_effect env hk _ _ _ h3
      refine ⟨?_, ?_, ?_⟩
      · simp only [usbSetupTransfer]; rw [h1]; split_ifs <;> rfl
      · simp only [usbSetupTransfer]; rw [h2]; split_ifs <;> rfl
      · have hcw : w.usbp.config ≠ none := by
          intro hn; apply hc; split_ifs <;> exact hn
        by_cases hz : w.usbp.setup 2 = 0
        · right; left
          refine ⟨hcw, ?_⟩
          simp only [usbSetupTransfer]; rw [h4]; simp [hz]
        · right; right
          refine ⟨hcw, ?_, ?_⟩
          · simp only [usbSetupTransfer]; rw [h4]; simp [hz]
          · simp only [usbSetupTransfer]; rw [h5]; simp [hz]
  rw [if_neg c7] at h
  by_cases c8 : sel = USB_RTYPE_RECIPIENT_INTERFACE ||| (USB_REQ_GET_STATUS <<< 8) ∨
      sel = USB_RTYPE_RECIPIENT_ENDPOINT ||| (USB_REQ_SYNCH_FRAME <<< 8)
  · rw [if_pos c8] at h; cases h; exact lifecycleEffect_refl _
  rw [if_neg c8] at h
  by_cases c9 : sel = USB_RTYPE_RECIPIENT_ENDPOINT ||| (USB_REQ_GET_STATUS <<< 8)
  · rw [if_pos c9] at h
    split at h <;> split at h <;> (cases h; exact lifecycleEffect_refl _)
  rw [if_neg c9] at h
  by_cases c10 : sel = USB_RTYPE_RECIPIENT_ENDPOINT ||| (USB_REQ_CLEAR_FEATURE <<< 8)
  · rw [if_pos c10] at h
    split at h
    · cases h; exact lifecycleEffect_refl _
    · cases h
      simp only [usbSetupTransfer, World.call]
      split_ifs <;> exact lifecycleEffect_refl _
  rw [if_neg c10] at h
  by_cases c11 : sel = USB_RTYPE_RECIPIENT_ENDPOINT ||| (USB_REQ_SET_FEATURE <<< 8)
  · rw [if_pos c11] at h
    split at h
    · cases h; exact lifecycleEffect_refl _
    · cases h
      simp only [usbSetupTransfer, World.call]
      split_ifs <;> exact lifecycleEffect_refl _
  rw [if_neg c11] at h
  cases h; exact lifecycleEffect_refl _

/-- The hook test keeps the life cycle fields. -/
theorem hook_stage_effect (env : Env M) (hk : env.keepsFields) (cfg : USBConfig) (w : World M) :
    lifecycleEffect w.usbp (hook_stage env cfg w).1.usbp := by
  unfold hook_stage
  split_ifs
  · obtain ⟨h1, h2, h3, h4⟩ := hk.2 w.usbp
    exact ⟨h3, h4, Or.inl ⟨h1, h2⟩⟩
  · exact lifecycleEffect_refl _

/-- The request dispatch stays within the bound. -/
theorem setup_dispatch_effect (env : Env M) (hk : env.keepsFields) (w w1 : World M) (b : Bool)
    (h : setup_dispatch env w = some (w1, b)) : lifecycleEffect w.usbp w1.usbp := by
  cases hc : w.usbp.config with
  | none => simp [setup_dispatch, hc] at h
  | some cfg =>
    rw [setup_dispatch_eq env w cfg hc] at h
    have hh := hook_stage_effect env hk cfg w
    split_ifs at h
    · cases h; exact hh
    · cases h; exact hh
    · exact lifecycleEffect_trans hh (default_handler_effect env hk _ _ _ h)

/-- The EP0 OUT callback stays within the bound. -/
theorem ep0out_effect (env : Env M) (hk : env.keepsFields) (w w1 : World M)
    (h : _usb_ep0out env w = some w1) : lifecycleEffect w.usbp w1.usbp := by
  unfold _usb_ep0out at h
  split at h
  · split at h
    · simp at h
    · rename_i wd hd
      exact lifecycleEffect_trans (setup_dispatch_effect env hk _ _ _ hd)
        (error_response_effect env hk _ _ h)
    · rename_i wd hd
      cases h
      exact lifecycleEffect_trans (setup_dispatch_effect env hk _ _ _ hd)
        (transfer_preparation_effect _)
  · cases h; exact ⟨rfl, rfl, Or.inl ⟨rfl, rfl⟩⟩
  · split at h
    · simp at h
    · split_ifs at h
      · exact error_response_effect env hk _ _ h
      · cases h; exact ⟨rfl, rfl, Or.inl ⟨rfl, rfl⟩⟩
  · exact error_response_effect env hk _ _ h

/-- The invariant survives every change within the bound. -/
theorem lifecycleInvariant_of_effect {d d1 : USBDriver M}
    (hi : lifecycleInvariant d) (he : lifecycleEffect d d1) : lifecycleInvariant d1 := by
  obtain ⟨i1, i2, i3⟩ := hi
  obtain ⟨hc, hep, hs⟩ := he
  rcases hs with ⟨hs, hn⟩ | ⟨hcn, hs⟩ | ⟨hcn, hs, hn⟩
  · refine ⟨?_, ?_, ?_⟩
    · intro h; rw [hs]; exact i1 (by rw [← hc]; exact h)
    · intro h; rw [hep]; exact i2 (by rw [← hc]; exact h)
    · intro h; rw [hn]; exact i3 (by rw [← hs]; exact h)
  · refine ⟨?_, ?_, ?_⟩
    · intro h; exact absurd (hc ▸ h) hcn
    · intro _; rw [hep]; exact i2 hcn
    · intro h; rw [hs] at h; exact absurd h (by decide)
  · refine ⟨?_, ?_, ?_⟩
    · intro h; exact absurd (hc ▸ h) hcn
    · intro _; rw [hep]; exact i2 hcn
    · intro _; exact hn

/-- The invariant survives every step, when the callbacks keep the life cycle
fields. -/
theorem lifecycleInvariant_step (env : Env M) (hk : env.keepsFields) (w w1 : World M)
    (hi : lifecycleInvariant w.usbp) (hs : Step env w w1) : lifecycleInvariant w1.usbp := by
  cases hs with
  | stop h =>
    unfold usbStop at h
    split_ifs at h
    cases h
    exact ⟨fun _ => Or.inl rfl, hi.2.1, fun h => absurd h (by simp [World.call])⟩
  | reset =>
    refine ⟨fun _ => Or.inr rfl, ?_, fun h => absurd h (by simp [_usb_reset, usb_lld_reset, World.call])⟩
    intro _ i hi0
    simp only [_usb_reset, usb_lld_reset, World.call]
    rw [Function.update_noteq hi0]
  | init_endpoint ep epcp h =>
    unfold usbInitEndpointI at h
    split_ifs at h with h1 h2
    simp only [ne_eq, not_not] at h1
    cases h
    have hcn : w.usbp.config ≠ none := by
      intro hn
      rcases hi.1 hn with h3 | h3 <;> rw [h1] at h3 <;> exact absurd h3 (by decide)
    have hep0 : ep = 0 := by
      by_contra hne
      exact h2 (hi.2.1 hcn ep hne)
    refine ⟨fun h => absurd h hcn, ?_, hi.2.2⟩
    intro _ i hi0
    simp only [World.call]
    rw [Function.update_noteq (by rw [hep0]; exact hi0)]
    exact hi.2.1 hcn i hi0
  | disable_endpoints h =>
    unfold usbDisableEndpointsI at h
    split_ifs at h with h1
    simp only [ne_eq, not_not] at h1
    cases h
    refine ⟨hi.1, ?_, hi.2.2⟩
    intro _ i hi0
    have : 1 ≤ i.val := by
      rcases Nat.eq_zero_or_pos i.val with h0 | h0
      · exact absurd (Fin.ext h0) hi0
      · exact h0
    simp [World.call, this]
  | lld_ep0 epp =>
    refine ⟨hi.1, ?_, hi.2.2⟩
    intro hcn i hi0
    simp only [lld_set_ep0]
    rw [Function.update_noteq hi0]
    exact hi.2.1 hcn i hi0
  | lld_setup setup => exact hi
  | ep0in h => exact lifecycleInvariant_of_effect hi (ep0in_effect env hk _ _ h)
  | ep0out h => exact lifecycleInvariant_of_effect hi (ep0out_effect env hk _ _ h)

/-- The invariant holds in every reachable world, when the callbacks keep the
life cycle fields. -/
theorem lifecycleInvariant_reachable (env : Env M) (hk : env.keepsFields) (w : World M)
    (hr : Reachable env w) : lifecycleInvariant w.usbp := by
  induction hr with
  | init w0 =>
    exact ⟨fun _ => Or.inl rfl, fun h => absurd rfl h, fun h => absurd h (by simp [usbObjectInit])⟩
  | start config _ h _ =>
    unfold usbStart at h
    cases config with
    | none => simp at h
    | some cfg =>
      simp only [] at h
      split_ifs at h
      cases h
      exact ⟨fun h => absurd h (by simp [World.call]), fun _ _ _ => rfl,
        fun h => absurd h (by simp [World.call])⟩
  | step _ hs ih => exact lifecycleInvariant_step env hk _ _ ih hs

/-- With no configuration attached no event can be delivered. -/
theorem invoke_event_cb_unconfigured (env : Env M) (ev : usbevent_t) (w : World M)
    (hc : w.usbp.config = none) : invoke_event_cb env ev w = none := by
  simp [invoke_event_cb, hc]

/-- With no configuration attached the EP0 IN callback attaches none. -/
theorem ep0in_unconfigured (env : Env M) (w w1 : World M) (hc : w.usbp.config = none)
    (h : _usb_ep0in env w = some w1) : w1.usbp.config = none := by
  unfold _usb_ep0in at h
  simp only [] at h
  split at h
  · repeat' split at h
    all_goals first
      | (simp at h; done)
      | (cases h; exact hc)
  · split at h
    · simp at h
    · rename_i w2 h2
      cases h
      split at h2
      · split_ifs at h2
        · simp [set_address, invoke_event_cb, World.call, hc] at h2
        · cases h2; exact hc
      · cases h2; exact hc
  · simp [ep0_error_response, invoke_event_cb, World.call, hc] at h

/-- With no configuration attached the EP0 OUT callback attaches none. -/
theorem ep0out_unconfigured (env : Env M) (w w1 : World M) (hc : w.usbp.config = none)
    (h : _usb_ep0out env w = some w1) : w1.usbp.config = none := by
  unfold _usb_ep0out at h
  split at h
  · simp [setup_dispatch, hc] at h
  · cases h; exact hc
  · split at h
    · simp at h
    · split_ifs at h
      · simp [ep0_error_response, invoke_event_cb, World.call, hc] at h
      · cases h; exact hc
  · simp [ep0_error_response, invoke_event_cb, World.call, hc] at h

/-- A step other than `usbStart` attaches no configuration. -/
theorem step_unconfigured (env : Env M) (w w1 : World M) (hc : w.usbp.config = none)
    (hs : Step env w w1) : w1.usbp.config = none := by
  cases hs with
  | stop h =>
    unfold usbStop at h
    split_ifs at h
    cases h
    exact hc
  | reset => exact hc
  | init_endpoint ep epcp h =>
    unfold usbInitEndpointI at h
    split_ifs at h
    cases h
    exact hc
  | disable_endpoints h =>
    unfold usbDisableEndpointsI at h
    split_ifs at h
    cases h
    exact hc
  | lld_ep0 epp => exact hc
  | lld_setup setup => exact hc
  | ep0in h => exact ep0in_unconfigured env _ _ hc h
  | ep0out h => exact ep0out_unconfigured env _ _ hc h

/-- Counterexample to C16 as stated: `usbObjectInit`, then `usbStart` with a
configuration, then `usbStop`.  The driver is in STOP and `config` still points
to the configuration given to `usbStart`. -/
theorem C16_counterexample :
    ∃ w : World 7,
      Reachable (sampleEnv usbaddrmode_t.USB_LATE_SET_ADDRESS usbepstatus_t.EP_STATUS_ACTIVE) w ∧
      (usbStart (usbObjectInit rawWorld) (some ⟨false, false⟩)).bind usbStop = some w ∧
      w.usbp.state = usbstate_t.USB_STOP ∧
      w.usbp.config = some ⟨false, false⟩ ∧
      w.trace = [Call.usb_lld_start, Call.usb_lld_stop] :=
  ⟨_, Reachable.step (Reachable.start (some ⟨false, false⟩) (Reachable.init rawWorld) rfl)
        (Step.stop rfl), rfl, rfl, rfl, rfl⟩

/-- C16 (amended): in every driver state reachable from `usbObjectInit` through
`usbStop`, `_usb_reset`, the endpoint functions and the EP0 callbacks, with
`usbStart` not called, `config` is null (in STOP as in any other state).
`usbObjectInit` gives STOP with `config` null; `usbStart` attaches a non-null
configuration and gives READY; `usbStop` gives STOP and leaves `config` as it
was. -/
theorem C16_stop_config (env : Env M) :
    (∀ w : World M, ReachableUnstarted env w → w.usbp.config = none) ∧
    (∀ w : World M, ReachableUnstarted env w → w.usbp.state = usbstate_t.USB_STOP →
      w.usbp.config = none) ∧
    (∀ w : World M, (usbObjectInit w).usbp.state = usbstate_t.USB_STOP ∧
      (usbObjectInit w).usbp.config = none) ∧
    (∀ (w w1 : World M) (config : Option USBConfig), usbStart w config = some w1 →
      w1.usbp.state = usbstate_t.USB_READY ∧ w1.usbp.config = config ∧ config ≠ none) ∧
    (∀ w w1 : World M, usbStop w = some w1 →
      w1.usbp.state = usbstate_t.USB_STOP ∧ w1.usbp.config = w.usbp.config) := by
  have hun : ∀ w : World M, ReachableUnstarted env w → w.usbp.config = none := by
    intro w hr
    induction hr with
    | init w0 => rfl
    | step _ hs ih => exact step_unconfigured env _ _ ih hs
  refine ⟨hun, fun w hr _ => hun w hr, fun w => ⟨rfl, rfl⟩, ?_, ?_⟩
  · intro w w1 config h
    unfold usbStart at h
    cases config with
    | none => simp at h
    | some cfg =>
      simp only [] at h
      split_ifs at h
      cases h
      exact ⟨rfl, rfl, by simp⟩
  · intro w w1 h
    unfold usbStop at h
    split_ifs at h
    cases h
    exact ⟨rfl, rfl⟩

/-- The callbacks of `sampleEnv` keep the life cycle fields. -/
theorem sampleEnv_keepsFields (mode : usbaddrmode_t) (st : usbepstatus_t) :
    (sampleEnv mode st).keepsFields :=
  ⟨fun _ _ => ⟨rfl, rfl, rfl, rfl⟩, fun _ => ⟨rfl, rfl, rfl, rfl⟩⟩

/-- A call of `usbInitEndpointI` that passes its assertions was made in ACTIVE
and runs the statements that follow them. -/
theorem usbInitEndpointI_eq_body (w w1 : World M) (ep : Fin (M + 1))
    (epcp : Option USBEndpointConfig) (h : usbInitEndpointI w ep epcp = some w1) :
    w.usbp.state = usbstate_t.USB_ACTIVE ∧ w1 = usbInitEndpointI_body w ep epcp := by
  unfold usbInitEndpointI at h
  split_ifs at h with h1 h2
  simp only [ne_eq, not_not] at h1
  cases h
  exact ⟨h1, rfl⟩

/-- Every world of `Reachable` is a world of `ReachableEnabling`. -/
theorem reachableEnabling_of_reachable (env : Env M) (w : World M) (hr : Reachable env w) :
    ∃ f : Bool, ReachableEnabling env f w := by
  induction hr with
  | init w0 => exact ⟨_, ReachableEnabling.init w0⟩
  | start config _ h ih =>
    obtain ⟨f, hf⟩ := ih
    exact ⟨_, ReachableEnabling.start config hf h⟩
  | step _ hs ih =>
    obtain ⟨f, hf⟩ := ih
    cases hs with
    | stop h => exact ⟨_, ReachableEnabling.stop hf h⟩
    | reset => exact ⟨_, ReachableEnabling.reset hf⟩
    | init_endpoint ep epcp h =>
      obtain ⟨h1, h2⟩ := usbInitEndpointI_eq_body _ _ ep epcp h
      rw [h2]
      by_cases h0 : ep = 0
      · rw [h0]
        exact ⟨_, ReachableEnabling.init_endpoint_zero epcp hf h1⟩
      · exact ⟨_, ReachableEnabling.init_endpoint ep epcp hf h1 h0⟩
    | disable_endpoints h => exact ⟨_, ReachableEnabling.disable_endpoints hf h⟩
    | lld_ep0 epp => exact ⟨_, ReachableEnabling.lld_ep0 epp hf⟩
    | lld_setup setup => exact ⟨_, ReachableEnabling.lld_setup setup hf⟩
    | ep0in h => exact ⟨_, ReachableEnabling.ep0in hf h⟩
    | ep0out h => exact ⟨_, ReachableEnabling.ep0out hf h⟩

/-- What `usbDisableEndpointsI` does: it is called in SELECTED, keeps the state
and slot 0, and nulls every other slot. -/
theorem usbDisableEndpointsI_spec (w w1 : World M) (h : usbDisableEndpointsI w = some w1) :
    w.usbp.state = usbstate_t.USB_SELECTED ∧ w1.usbp.state = usbstate_t.USB_SELECTED ∧
    (∀ i : Fin (M + 1), i ≠ 0 → w1.usbp.ep i = none) ∧ w1.usbp.ep 0 = w.usbp.ep 0 ∧
    w1.trace = w.trace ++ [Call.usb_lld_disable_endpoints] := by
  unfold usbDisableEndpointsI at h
  split_ifs at h with h1
  simp only [ne_eq, not_not] at h1
  cases h
  refine ⟨h1, h1, ?_, by simp [World.call], rfl⟩
  intro i hi0
  have : 1 ≤ i.val := by
    rcases Nat.eq_zero_or_pos i.val with h0 | h0
    · exact absurd (Fin.ext h0) hi0
    · exact h0
  simp [World.call, this]

/-- With the flag down every non-zero endpoint slot is null, when the callbacks
keep the life cycle fields. -/
theorem reachableEnabling_slots (env : Env M) (hk : env.keepsFields) (f : Bool) (w : World M)
    (hr : ReachableEnabling env f w) (hf : f = false) :
    ∀ i : Fin (M + 1), i ≠ 0 → w.usbp.ep i = none := by
  induction hr with
  | init w0 => exact absurd hf (by decide)
  | start config _ h _ =>
    unfold usbStart at h
    cases config with
    | none => simp at h
    | some cfg =>
      simp only [] at h
      split_ifs at h
      cases h
      exact fun _ _ => rfl
  | stop _ h ih =>
    unfold usbStop at h
    split_ifs at h
    cases h
    exact ih hf
  | reset _ _ =>
    intro i hi0
    simp only [_usb_reset, usb_lld_reset, World.call]
    rw [Function.update_noteq hi0]
  | init_endpoint ep epcp _ _ _ _ => exact absurd hf (by decide)
  | init_endpoint_zero epcp _ _ ih =>
    intro i hi0
    simp only [usbInitEndpointI_body, World.call]
    rw [Function.update_noteq hi0]
    exact ih hf i hi0
  | disable_endpoints _ h _ => exact (usbDisableEndpointsI_spec _ _ h).2.2.1
  | lld_ep0 epp _ ih =>
    intro i hi0
    simp only [lld_set_ep0]
    rw [Function.update_noteq hi0]
    exact ih hf i hi0
  | lld_setup setup _ ih => exact ih hf
  | ep0in _ h ih =>
    intro i hi0
    rw [(ep0in_effect env hk _ _ h).2.1]
    exact ih hf i hi0
  | ep0out _ h ih =>
    intro i hi0
    rw [(ep0out_effect env hk _ _ h).2.1]
    exact ih hf i hi0

/-- Counterexample to C17 as stated, in two runs that end in SELECTED with slot 1
bound.  First run: the application enables endpoint 1 in its event callback when
configuration 1 is selected; a later SET_ADDRESS `00 05 07 00 00 00 00 00` is
committed on the status IN-complete.  Second run, with callbacks that leave the
driver as it is: in ACTIVE with slot 1 unbound the application calls
`usbInitEndpointI` for endpoint 1, then the same SET_ADDRESS is received and
committed. -/
theorem C17_counterexample :
    (∃ w : World 7, Reachable bindingEnv w ∧
      w.usbp.state = usbstate_t.USB_SELECTED ∧
      w.usbp.ep 1 = some (ep0slot 64 0) ∧
      w.trace = [Call.usb_lld_start, Call.usb_lld_reset,
                 Call.event_cb usbevent_t.USB_EVENT_CONFIGURED,
                 Call.usb_lld_start_in 0 Ptr.NULL 0,
                 Call.usb_lld_start_in 0 Ptr.NULL 0,
                 Call.usb_lld_set_address 7,
                 Call.event_cb usbevent_t.USB_EVENT_ADDRESS]) ∧
    (∃ wa w : World 7,
      ReachableEnabling
        (sampleEnv usbaddrmode_t.USB_LATE_SET_ADDRESS usbepstatus_t.EP_STATUS_ACTIVE) false wa ∧
      wa.usbp.state = usbstate_t.USB_ACTIVE ∧
      wa.usbp.ep 1 = none ∧
      ((_usb_ep0in (sampleEnv usbaddrmode_t.USB_LATE_SET_ADDRESS usbepstatus_t.EP_STATUS_ACTIVE)
          (usbInitEndpointI_body wa 1 (some ⟨64, 64⟩))).bind
        (fun w2 =>
          _usb_ep0out (sampleEnv usbaddrmode_t.USB_LATE_SET_ADDRESS usbepstatus_t.EP_STATUS_ACTIVE)
            (lld_set_setup w2 (mkSetup 0x00 0x05 0x07 0x00 0x00 0x00 0x00 0x00)))).bind
        (_usb_ep0in (sampleEnv usbaddrmode_t.USB_LATE_SET_ADDRESS usbepstatus_t.EP_STATUS_ACTIVE))
        = some w ∧
      ReachableEnabling
        (sampleEnv usbaddrmode_t.USB_LATE_SET_ADDRESS usbepstatus_t.EP_STATUS_ACTIVE) true w ∧
      w.usbp.state = usbstate_t.USB_SELECTED ∧
      w.usbp.ep 1 = some ⟨some ⟨64, 64⟩, false, false, 0⟩ ∧
      w.trace = [Call.usb_lld_start, Call.usb_lld_reset,
                 Call.event_cb usbevent_t.USB_EVENT_CONFIGURED,
                 Call.usb_lld_start_in 0 Ptr.NULL 0,
                 Call.usb_lld_init_endpoint 1,
                 Call.usb_lld_start_in 0 Ptr.NULL 0,
                 Call.usb_lld_set_address 7,
                 Call.event_cb usbevent_t.USB_EVENT_ADDRESS]) := by
  refine ⟨⟨_,
   Reachable.step (Reachable.step (Reachable.step (Reachable.step (Reachable.step
     (Reachable.step (Reachable.step
       (Reachable.start (some ⟨true, false⟩) (Reachable.init rawWorld) rfl)
       (Step.reset _))
       (Step.lld_setup _ (mkSetup 0x00 0x09 0x01 0x00 0x00 0x00 0x00 0x00)))
       (Step.ep0out rfl))
       (Step.ep0in rfl))
       (Step.lld_setup _ (mkSetup 0x00 0x05 0x07 0x00 0x00 0x00 0x00 0x00)))
       (Step.ep0out rfl))
       (Step.ep0in rfl),
   rfl, rfl, rfl⟩, ?_⟩
  have ha : ReachableEnabling
      (sampleEnv usbaddrmode_t.USB_LATE_SET_ADDRESS usbepstatus_t.EP_STATUS_ACTIVE) false _ :=
    ReachableEnabling.ep0out (ReachableEnabling.lld_setup
      (mkSetup 0x00 0x09 0x01 0x00 0x00 0x00 0x00 0x00)
      (ReachableEnabling.reset
      (ReachableEnabling.start (some ⟨true, false⟩) (ReachableEnabling.init rawWorld) rfl)))
      rfl
  exact ⟨_, _, ha, rfl, rfl, rfl,
    ReachableEnabling.ep0in (ReachableEnabling.ep0out (ReachableEnabling.lld_setup
      (mkSetup 0x00 0x05 0x07 0x00 0x00 0x00 0x00 0x00)
      (ReachableEnabling.ep0in
      (ReachableEnabling.init_endpoint 1 (some ⟨64, 64⟩) ha rfl (by decide)) rfl)) rfl) rfl,
    rfl, rfl, rfl⟩

/-- C17 (amended): in every driver state reachable from `usbObjectInit` through
`usbStart`, `usbStop`, `_usb_reset`, `usbInitEndpointI` (called in ACTIVE),
`usbDisableEndpointsI` and the EP0 callbacks, when the application callbacks
leave `state`, `configuration`, `config` and the endpoint table as they are:
every non-zero endpoint slot `ep[1..MAX]` is null if no call of
`usbInitEndpointI` on a non-zero endpoint has followed the last `usbStart`,
`_usb_reset` or `usbDisableEndpointsI`, and there `state = SELECTED` implies
that they are null.
The EP0 callbacks, which are what sets `state = SELECTED`, leave the endpoint
table as it was, so an endpoint enabled in ACTIVE stays bound in SELECTED;
`usbDisableEndpointsI`, which is called in SELECTED, keeps the state and slot 0
and nulls `ep[1..MAX]`. -/
theorem C17_selected_slots_null (env : Env M) (hk : env.keepsFields) :
    (∀ w : World M, ReachableEnabling env false w →
      ∀ i : Fin (M + 1), i ≠ 0 → w.usbp.ep i = none) ∧
    (∀ w : World M, ReachableEnabling env false w → w.usbp.state = usbstate_t.USB_SELECTED →
      ∀ i : Fin (M + 1), i ≠ 0 → w.usbp.ep i = none) ∧
    (∀ w w1 : World M, _usb_ep0in env w = some w1 → w1.usbp.ep = w.usbp.ep) ∧
    (∀ w w1 : World M, _usb_ep0out env w = some w1 → w1.usbp.ep = w.usbp.ep) ∧
    (∀ w w1 : World M, usbDisableEndpointsI w = some w1 →
      w.usbp.state = usbstate_t.USB_SELECTED ∧ w1.usbp.state = usbstate_t.USB_SELECTED ∧
      (∀ i : Fin (M + 1), i ≠ 0 → w1.usbp.ep i = none) ∧ w1.usbp.ep 0 = w.usbp.ep 0) :=
  ⟨fun w hr => reachableEnabling_slots env hk false w hr rfl,
   fun w hr _ => reachableEnabling_slots env hk false w hr rfl,
   fun w w1 h => (ep0in_effect env hk w w1 h).2.1,
   fun w w1 h => (ep0out_effect env hk w w1 h).2.1,
   fun w w1 h =>
     let s := usbDisableEndpointsI_spec w w1 h
     ⟨s.1, s.2.1, s.2.2.1, s.2.2.2.1⟩⟩

/-- Witness for C17: after `usbObjectInit`, `usbStart`, a reset and
SET_CONFIGURATION(1) the application enables endpoint 1 with
`usbInitEndpointI`; SET_CONFIGURATION(0) `00 09 00 00 00 00 00 00` then leaves
the driver `wb` in SELECTED with slot 1 still bound; `usbDisableEndpointsI`
leaves it in SELECTED with every non-zero slot null. -/
theorem C17_selected_slots_null_witness :
    ∃ wb w : World 7,
      ReachableEnabling
        (sampleEnv usbaddrmode_t.USB_LATE_SET_ADDRESS usbepstatus_t.EP_STATUS_ACTIVE) true wb ∧
      wb.usbp.state = usbstate_t.USB_SELECTED ∧
      wb.usbp.ep 1 = some ⟨some ⟨64, 64⟩, false, false, 0⟩ ∧
      usbDisableEndpointsI wb = some w ∧
      ReachableEnabling
        (sampleEnv usbaddrmode_t.USB_LATE_SET_ADDRESS usbepstatus_t.EP_STATUS_ACTIVE) false w ∧
      w.usbp.state = usbstate_t.USB_SELECTED ∧
      ∀ i : Fin 8, i ≠ 0 → w.usbp.ep i = none := by
  have hb : ReachableEnabling
      (sampleEnv usbaddrmode_t.USB_LATE_SET_ADDRESS usbepstatus_t.EP_STATUS_ACTIVE) true _ :=
    ReachableEnabling.ep0out (ReachableEnabling.lld_setup
      (mkSetup 0x00 0x09 0x00 0x00 0x00 0x00 0x00 0x00)
      (ReachableEnabling.ep0in
      (ReachableEnabling.init_endpoint 1 (some ⟨64, 64⟩)
      (ReachableEnabling.ep0out (ReachableEnabling.lld_setup
        (mkSetup 0x00 0x09 0x01 0x00 0x00 0x00 0x00 0x00)
        (ReachableEnabling.reset
        (ReachableEnabling.start (some ⟨true, false⟩) (ReachableEnabling.init rawWorld) rfl)))
        rfl) rfl (by decide)) rfl)) rfl
  have hr := ReachableEnabling.disable_endpoints hb rfl
  exact ⟨_, _, hb, rfl, rfl, rfl, hr, rfl,
    (C17_selected_slots_null _ (sampleEnv_keepsFields _ _)).2.1 _ hr rfl⟩

/-- C18: in every driver state reachable from `usbObjectInit` through
`usbStart`, `usbStop`, `_usb_reset`, the endpoint functions and the EP0
callbacks, when the application callbacks leave the life cycle fields of the
driver as they are, `state = ACTIVE` implies that `configuration` is non-zero. -/
theorem C18_active_configuration (env : Env M) (hk : env.keepsFields) (w : World M)
    (hr : Reachable env w) (hs : w.usbp.state = usbstate_t.USB_ACTIVE) :
    w.usbp.configuration ≠ 0 :=
  (lifecycleInvariant_reachable env hk w hr).2.2 hs

/-- Witness for C18: after `usbObjectInit`, `usbStart`, a reset and
SET_CONFIGURATION(1) `00 09 01 00 00 00 00 00` the driver is in ACTIVE with
configuration 1. -/
theorem C18_active_configuration_witness :
    ∃ w : World 7,
      Reachable (sampleEnv usbaddrmode_t.USB_LATE_SET_ADDRESS usbepstatus_t.EP_STATUS_ACTIVE) w ∧
      w.usbp.state = usbstate_t.USB_ACTIVE ∧
      w.usbp.configuration = 1 ∧
      w.usbp.configuration ≠ 0 := by
  have hr : Reachable
      (sampleEnv usbaddrmode_t.USB_LATE_SET_ADDRESS usbepstatus_t.EP_STATUS_ACTIVE) _ :=
    Reachable.step (Reachable.step (Reachable.step
      (Reachable.start (some ⟨true, false⟩) (Reachable.init rawWorld) rfl)
      (Step.reset _))
      (Step.lld_setup _ (mkSetup 0x00 0x09 0x01 0x00 0x00 0x00 0x00 0x00)))
      (Step.ep0out rfl)
  exact ⟨_, hr, rfl, rfl,
    C18_active_configuration _ (sampleEnv_keepsFields _ _) _ hr rfl⟩

/-- The EP0 IN callback in TX or SENDING_STS does not start with an EP0 stall. -/
theorem ep0in_expected_no_stall (env : Env M) (w w1 : World M) (cfg : USBConfig)
    (hcfg : w.usbp.config = some cfg)
    (hst : w.usbp.ep0state = usbep0state_t.USB_EP0_TX ∨
      w.usbp.ep0state = usbep0state_t.USB_EP0_SENDING_STS)
    (h : _usb_ep0in env w = some w1) :
    ¬ ∃ l : List Call, w1.trace = w.trace ++ Call.usb_lld_stall_in 0 :: l := by
  rintro ⟨l, hl⟩
  rcases hst with hst | hst
  · unfold _usb_ep0in at h
    simp only [hst] at h
    repeat' split at h
    all_goals first
      | (simp at h; done)
      | (cases h; simp [World.call] at hl)
  · have hsa := set_address_spec env w cfg hcfg
    unfold _usb_ep0in at h
    simp only [hst] at h
    split at h
    · simp at h
    · rename_i w2 h2
      cases h
      split at h2
      · split_ifs at h2
        · rw [hsa] at h2
          cases h2
          simp at hl
        · cases h2
          have := congrArg List.length hl
          simp at this
      · cases h2
        have := congrArg List.length hl
        simp at this

/-- C19: outside SETUP dispatch, on a driver with a configuration attached, the
protocol error path is taken exactly on unexpected events.  `_usb_ep0in` takes
it if and only if `ep0state` is not TX and not SENDING_STS.  `_usb_ep0out`
called with `ep0state` other than WAITING_SETUP takes it if and only if
`ep0state` is TX or SENDING_STS, or `ep0state` is WAITING_STS and the `rxsize`
of `ep[0]` is non-zero.  In the remaining cases RX goes to SENDING_STS with the
one call `usb_lld_start_in(0, NULL, 0)`, and WAITING_STS with `rxsize = 0` goes
to WAITING_SETUP with no call. -/
theorem C19_error_path_iff (env : Env M) (w : World M) (cfg : USBConfig)
    (hcfg : w.usbp.config = some cfg) :
    ((∃ w1 : World M, _usb_ep0in env w = some w1 ∧ ep0_error_response env w = some w1) ↔
      (w.usbp.ep0state ≠ usbep0state_t.USB_EP0_TX ∧
       w.usbp.ep0state ≠ usbep0state_t.USB_EP0_SENDING_STS)) ∧
    (w.usbp.ep0state ≠ usbep0state_t.USB_EP0_WAITING_SETUP →
      ((∃ w1 : World M, _usb_ep0out env w = some w1 ∧ ep0_error_response env w = some w1) ↔
        (w.usbp.ep0state = usbep0state_t.USB_EP0_TX ∨
         w.usbp.ep0state = usbep0state_t.USB_EP0_SENDING_STS ∨
         (w.usbp.ep0state = usbep0state_t.USB_EP0_WAITING_STS ∧
          ∃ epp : USBEndpointState, w.usbp.ep 0 = some epp ∧ epp.rxsize ≠ 0)))) ∧
    (w.usbp.ep0state = usbep0state_t.USB_EP0_RX →
      _usb_ep0out env w = some
        { usbp := { w.usbp with ep0state := usbep0state_t.USB_EP0_SENDING_STS },
          trace := w.trace ++ [Call.usb_lld_start_in 0 Ptr.NULL 0] }) ∧
    (∀ epp : USBEndpointState, w.usbp.ep0state = usbep0state_t.USB_EP0_WAITING_STS →
      w.usbp.ep 0 = some epp → epp.rxsize = 0 →
      _usb_ep0out env w = some
        { usbp := { w.usbp with ep0state := usbep0state_t.USB_EP0_WAITING_SETUP },
          trace := w.trace }) := by
  obtain ⟨we, hwe, -, hte⟩ := error_response_spec env w cfg hcfg
  have hstall : ∃ l : List Call, we.trace = w.trace ++ Call.usb_lld_stall_in 0 :: l :=
    ⟨_, by rw [hte, List.append_assoc]; rfl⟩
  refine ⟨⟨?_, ?_⟩, ?_, ?_, ?_⟩
  · rintro ⟨w1, h1, h2⟩
    rw [hwe] at h2
    cases h2
    constructor
    · intro hst
      exact ep0in_expected_no_stall env w _ cfg hcfg (Or.inl hst) h1 hstall
    · intro hst
      exact ep0in_expected_no_stall env w _ cfg hcfg (Or.inr hst) h1 hstall
  · rintro ⟨h1, h2⟩
    refine ⟨we, ?_, hwe⟩
    rw [← hwe]
    cases hst : w.usbp.ep0state <;> simp_all [_usb_ep0in]
  · intro hns
    constructor
    · rintro ⟨w1, h1, h2⟩
      rw [hwe] at h2
      cases h2
      obtain ⟨l, hl⟩ := hstall
      cases hst : w.usbp.ep0state with
      | USB_EP0_WAITING_SETUP => exact absurd hst hns
      | USB_EP0_TX => exact Or.inl rfl
      | USB_EP0_SENDING_STS => exact Or.inr (Or.inl rfl)
      | USB_EP0_RX =>
        simp only [_usb_ep0out, hst] at h1
        cases h1
        simp [World.call] at hl
      | USB_EP0_WAITING_STS =>
        refine Or.inr (Or.inr ⟨rfl, ?_⟩)
        simp only [_usb_ep0out, hst] at h1
        cases hep : w.usbp.ep 0 with
        | none => simp [hep] at h1
        | some epp =>
          refine ⟨epp, rfl, ?_⟩
          intro hrx
          simp only [hep, hrx, ne_eq, not_true_eq_false, if_false] at h1
          cases h1
          have := congrArg List.length hl
          simp at this
    · intro h
      refine ⟨we, ?_, hwe⟩
      rw [← hwe]
      rcases h with h | h | ⟨h, epp, hep, hrx⟩
      · simp [_usb_ep0out, h]
      · simp [_usb_ep0out, h]
      · simp [_usb_ep0out, h, hep, hrx]
  · intro hst
    simp [_usb_ep0out, hst, World.call]
  · intro epp hst hep hrx
    simp [_usb_ep0out, hst, hep, hrx]

/-- Witness for C19: a SETUP-less EP0 OUT-complete in TX takes the error path;
in RX it starts the zero-length status IN. -/
theorem C19_error_path_iff_witness :
    (∃ w1 : World 7,
      _usb_ep0out (sampleEnv usbaddrmode_t.USB_LATE_SET_ADDRESS usbepstatus_t.EP_STATUS_ACTIVE)
        ⟨txDriver, []⟩ = some w1 ∧
      ep0_error_response
        (sampleEnv usbaddrmode_t.USB_LATE_SET_ADDRESS usbepstatus_t.EP_STATUS_ACTIVE)
        ⟨txDriver, []⟩ = some w1) :=
  ((C19_error_path_iff
    (sampleEnv usbaddrmode_t.USB_LATE_SET_ADDRESS usbepstatus_t.EP_STATUS_ACTIVE)
    ⟨txDriver, []⟩ ⟨false, false⟩ rfl).2.1 (by decide)).mpr (Or.inl rfl)

/-- C20: rejection by the standard handler is atomic.  For every driver state
and SETUP packet for which `default_handler` returns FALSE, every driver field
is unchanged, in particular `status`, `address`, `configuration`, `state`,
`ep0n` and `ep0next`, and the calls the handler has made are queries only
(`get_descriptor_cb`, `usb_lld_get_status_in`, `usb_lld_get_status_out`): no
event, no stall, no clear and no `usb_lld_set_address`. -/
theorem C20_rejection_atomic (env : Env M) (w wr : World M)
    (h : default_handler env w = some (wr, false)) :
    wr.usbp = w.usbp ∧
    wr.usbp.status = w.usbp.status ∧ wr.usbp.address = w.usbp.address ∧
    wr.usbp.configuration = w.usbp.configuration ∧ wr.usbp.state = w.usbp.state ∧
    wr.usbp.ep0n = w.usbp.ep0n ∧ wr.usbp.ep0next = w.usbp.ep0next ∧
    ∃ l : List Call, wr.trace = w.trace ++ l ∧
      ∀ c ∈ l, c.isQuery = true ∧
        (∀ ev : usbevent_t, c ≠ Call.event_cb ev) ∧
        (∀ e : Nat, c ≠ Call.usb_lld_stall_in e) ∧ (∀ e : Nat, c ≠ Call.usb_lld_stall_out e) ∧
        (∀ e : Nat, c ≠ Call.usb_lld_clear_in e) ∧ (∀ e : Nat, c ≠ Call.usb_lld_clear_out e) ∧
        (∀ a : Nat, c ≠ Call.usb_lld_set_address a) := by
  have hu := default_handler_reject_usbp env w wr h
  obtain ⟨l, hl, hq⟩ := default_handler_trace_queries env w wr false h (Or.inl rfl)
  refine ⟨hu, by rw [hu], by rw [hu], by rw [hu], by rw [hu], by rw [hu], by rw [hu], l, hl, ?_⟩
  intro c hc
  obtain ⟨h1, h2, h3, h4, h5, h6, -, -⟩ := isQuery_harmless c (hq c hc)
  exact ⟨hq c hc, h1, h2, h3, h4, h5, h6⟩

/-- Witness for C20: GET_DESCRIPTOR(Device) `80 06 00 01 00 00 12 00` with no
descriptor known is rejected; the driver is unchanged and the only call is the
descriptor callback. -/
theorem C20_rejection_atomic_witness :
    ∃ wr : World 7,
      default_handler (sampleEnv usbaddrmode_t.USB_LATE_SET_ADDRESS usbepstatus_t.EP_STATUS_ACTIVE)
        ⟨sampleDriver ⟨true, false⟩ usbep0state_t.USB_EP0_WAITING_SETUP
          (mkSetup 0x80 0x06 0x00 0x01 0x00 0x00 0x12 0x00), []⟩ = some (wr, false) ∧
      wr.usbp.state = usbstate_t.USB_READY ∧ wr.usbp.ep0n = 0 ∧
      wr.trace = [Call.get_descriptor_cb 1 0 0] := by
  have h : default_handler
      (sampleEnv usbaddrmode_t.USB_LATE_SET_ADDRESS usbepstatus_t.EP_STATUS_ACTIVE)
      ⟨sampleDriver ⟨true, false⟩ usbep0state_t.USB_EP0_WAITING_SETUP
        (mkSetup 0x80 0x06 0x00 0x01 0x00 0x00 0x12 0x00), []⟩ = some (_, false) := rfl
  obtain ⟨-, -, -, -, hs, hn, -, -⟩ := C20_rejection_atomic _ _ _ h
  exact ⟨_, h, hs, hn, rfl⟩

/-- The request selector does not depend on bit 7 of `setup[0]`. -/
theorem request_selector_eq_of_equalUpToDirection {d1 d2 : USBDriver M}
    (h : EqualUpToDirection d1 d2) : request_selector d1.setup = request_selector d2.setup := by
  have hm : USB_RTYPE_RECIPIENT_MASK ||| USB_RTYPE_TYPE_MASK = 0x7F := by decide
  have h0 : d1.setup 0 &&& 0x7F = d2.setup 0 &&& 0x7F := by
    apply Nat.eq_of_testBit_eq
    intro i
    rw [Nat.testBit_and, Nat.testBit_and]
    by_cases hi : i = 7
    · subst hi
      have : (0x7F : Nat).testBit 7 = false := by decide
      rw [this, Bool.and_false, Bool.and_false]
    · rw [h.setup0_bits i hi]
  rw [request_selector, request_selector, hm, h0, h.setup_rest 1 (by decide)]

/-- Setting up a transfer keeps two worlds equal up to the direction bit. -/
theorem equalUpToDirection_setupTransfer {a c : World M}
    (h : EqualUpToDirection a.usbp c.usbp) (buf : Ptr) (n : Nat) :
    EqualUpToDirection (usbSetupTransfer a buf n).usbp (usbSetupTransfer c buf n).usbp :=
  ⟨h.state, h.config, h.param, h.ep, h.ep0state, rfl, rfl, h.status, h.address,
   h.configuration, h.setup_rest, h.setup0_bits⟩

/-- Agreement of two accepted or rejected results. -/
theorem sameOutcome_some {a c : World M} (b : Bool)
    (h : EqualUpToDirection a.usbp c.usbp) (ht : a.trace = c.trace) :
    sameOutcome (some (a, b)) (some (c, b)) :=
  Or.inr ⟨a, c, b, rfl, rfl, h, ht⟩

/-- An event delivery keeps two worlds equal up to the direction bit. -/
theorem invoke_event_cb_equalUpToDirection (env : Env M) (henv : env.ignoresDirection)
    (ev : usbevent_t) (a c : World M)
    (h : EqualUpToDirection a.usbp c.usbp) (ht : a.trace = c.trace) :
    (invoke_event_cb env ev a = none ∧ invoke_event_cb env ev c = none) ∨
    ∃ a1 c1 : World M, invoke_event_cb env ev a = some a1 ∧ invoke_event_cb env ev c = some c1 ∧
      EqualUpToDirection a1.usbp c1.usbp ∧ a1.trace = c1.trace := by
  unfold invoke_event_cb
  rw [h.config]
  cases c.usbp.config with
  | none => exact Or.inl ⟨rfl, rfl⟩
  | some cfg =>
    simp only []
    split_ifs
    · exact Or.inr ⟨_, _, rfl, rfl, (henv _ _ h).2.2.2 ev, by rw [ht]⟩
    · exact Or.inr ⟨_, _, rfl, rfl, h, ht⟩

/-- In LATE address mode the standard handler treats alike two worlds that are
equal except for bit 7 of `setup[0]`. -/
theorem default_handler_sameOutcome (env : Env M) (w1 w2 : World M)
    (hmode : env.USB_SET_ADDRESS_MODE = usbaddrmode_t.USB_LATE_SET_ADDRESS)
    (henv : env.ignoresDirection)
    (heq : EqualUpToDirection w1.usbp w2.usbp) (htr : w1.trace = w2.trace) :
    sameOutcome (default_handler env w1) (default_handler env w2) := by
  have hsel := request_selector_eq_of_equalUpToDirection heq
  have hs2 := heq.setup_rest 2 (by decide)
  have hs3 := heq.setup_rest 3 (by decide)
  have hs4 := heq.setup_rest 4 (by decide)
  have hs5 := heq.setup_rest 5 (by decide)
  obtain ⟨hdesc, hin, hout, -⟩ := henv _ _ heq
  have hbase : ∀ (buf : Ptr) (n : Nat) (b : Bool),
      sameOutcome (some (usbSetupTransfer w1 buf n, b)) (some (usbSetupTransfer w2 buf n, b)) :=
    fun buf n b => sameOutcome_some b (equalUpToDirection_setupTransfer heq buf n) htr
  have hrej : sameOutcome (some (w1, false)) (some (w2, false)) := sameOutcome_some false heq htr
  unfold default_handler
  simp only [hmode, fetch_word_4]
  rw [hsel, hs2, hs3, hs4, hs5]
  generalize request_selector w2.usbp.setup = sel
  by_cases c1 : sel = USB_RTYPE_RECIPIENT_DEVICE ||| (USB_REQ_GET_STATUS <<< 8)
  · rw [if_pos c1, if_pos c1]; exact hbase _ _ _
  rw [if_neg c1, if_neg c1]
  by_cases c2 : sel = USB_RTYPE_RECIPIENT_DEVICE ||| (USB_REQ_CLEAR_FEATURE <<< 8)
  · rw [if_pos c2, if_pos c2]
    split_ifs
    · exact sameOutcome_some true
        ⟨heq.state, heq.config, heq.param, heq.ep, heq.ep0state, rfl, rfl,
         by simp [usbSetupTransfer, heq.status], heq.address, heq.configuration, heq.setup_rest,
         heq.setup0_bits⟩ htr
    · exact hrej
  rw [if_neg c2, if_neg c2]
  by_cases c3 : sel = USB_RTYPE_RECIPIENT_DEVICE ||| (USB_REQ_SET_FEATURE <<< 8)
  · rw [if_pos c3, if_pos c3]
    split_ifs
    · exact sameOutcome_some true
        ⟨heq.state, heq.config, heq.param, heq.ep, heq.ep0state, rfl, rfl,
         by simp [usbSetupTransfer, heq.status], heq.address, heq.configuration, heq.setup_rest,
         heq.setup0_bits⟩ htr
    · exact hrej
  rw [if_neg c3, if_neg c3]
  by_cases c4 : sel = USB_RTYPE_RECIPIENT_DEVICE ||| (USB_REQ_SET_ADDRESS <<< 8)
  · rw [if_pos c4, if_pos c4]; exact hbase _ _ _
  rw [if_neg c4, if_neg c4]
  by_cases c5 : sel = USB_RTYPE_RECIPIENT_DEVICE ||| (USB_REQ_GET_DESCRIPTOR <<< 8)
  · rw [if_pos c5, if_pos c5, heq.config, hdesc]
    cases w2.usbp.config with
    | none => exact Or.inl ⟨rfl, rfl⟩
    | some cfg =>
      simp only []
      cases env.get_descriptor_cb w2.usbp (w2.usbp.setup 3) (w2.usbp.setup 2)
          (w2.usbp.setup 4 + 256 * w2.usbp.setup 5) with
      | none =>
        exact sameOutcome_some false heq (by simp [World.call, htr])
      | some dp =>
        exact sameOutcome_some true
          ⟨heq.state, heq.config, heq.param, heq.ep, heq.ep0state, rfl, rfl,
           heq.status, heq.address, heq.configuration, heq.setup_rest, heq.setup0_bits⟩
          (by simp [usbSetupTransfer, World.call, htr])
  rw [if_neg c5, if_neg c5]
  by_cases c6 : sel = USB_RTYPE_RECIPIENT_DEVICE ||| (USB_REQ_GET_CONFIGURATION <<< 8)
  · rw [if_pos c6, if_pos c6]; exact hbase _ _ _
  rw [if_neg c6, if_neg c6]
  by_cases c7 : sel = USB_RTYPE_RECIPIENT_DEVICE ||| (USB_REQ_SET_CONFIGURATION <<< 8)
  · rw [if_pos c7, if_pos c7]
    have hrel : ∀ st : usbstate_t,
        EqualUpToDirection
          ({ w1.usbp with configuration := w2.usbp.setup 2, state := st } : USBDriver M)
          ({ w2.usbp with configuration := w2.usbp.setup 2, state := st } : USBDriver M) :=
      fun st => ⟨rfl, heq.config, heq.param, heq.ep, heq.ep0state, heq.ep0next, heq.ep0n,
        heq.status, heq.address, rfl, heq.setup_rest, heq.setup0_bits⟩
    by_cases hz : w2.usbp.setup 2 = 0
    · simp only [hz, if_true]
      rcases invoke_event_cb_equalUpToDirection env henv usbevent_t.USB_EVENT_CONFIGURED
          ({ w1 with usbp := { w1.usbp with configuration := 0,
                                             state := usbstate_t.USB_SELECTED } })
          ({ w2 with usbp := { w2.usbp with configuration := 0,
                                             state := usbstate_t.USB_SELECTED } })
          (by have := hrel usbstate_t.USB_SELECTED; rw [hz] at this; exact this) htr
        with ⟨h1, h2⟩ | ⟨a1, c1, h1, h2, hr, ht⟩
      · rw [h1, h2]; exact Or.inl ⟨rfl, rfl⟩
      · rw [h1, h2]
        exact sameOutcome_some true (equalUpToDirection_setupTransfer hr _ _) ht
    · simp only [hz, if_false]
      rcases invoke_event_cb_equalUpToDirection env henv usbevent_t.USB_EVENT_CONFIGURED
          ({ w1 with usbp := { w1.usbp with configuration := w2.usbp.setup 2,
                                             state := usbstate_t.USB_ACTIVE } })
          ({ w2 with usbp := { w2.usbp with configuration := w2.usbp.setup 2,
                                             state := usbstate_t.USB_ACTIVE } })
          (hrel usbstate_t.USB_ACTIVE) htr
        with ⟨h1, h2⟩ | ⟨a1, c1, h1, h2, hr, ht⟩
      · rw [h1, h2]; exact Or.inl ⟨rfl, rfl⟩
      · rw [h1, h2]
        exact sameOutcome_some true (equalUpToDirection_setupTransfer hr _ _) ht
  rw [if_neg c7, if_neg c7]
  by_cases c8 : sel = USB_RTYPE_RECIPIENT_INTERFACE ||| (USB_REQ_GET_STATUS <<< 8) ∨
      sel = USB_RTYPE_RECIPIENT_ENDPOINT ||| (USB_REQ_SYNCH_FRAME <<< 8)
  · rw [if_pos c8, if_pos c8]; exact hbase _ _ _
  rw [if_neg c8, if_neg c8]
  have hcall : ∀ (q : Call) (buf : Ptr) (n : Nat) (b : Bool),
      sameOutcome (some (usbSetupTransfer (w1.call q) buf n, b))
        (some (usbSetupTransfer (w2.call q) buf n, b)) :=
    fun q buf n b => sameOutcome_some b
      ⟨heq.state, heq.config, heq.param, heq.ep, heq.ep0state, rfl, rfl,
       heq.status, heq.address, heq.configuration, heq.setup_rest, heq.setup0_bits⟩
      (by simp [usbSetupTransfer, World.call, htr])
  have hcallrej : ∀ q : Call, sameOutcome (some (w1.call q, false)) (some (w2.call q, false)) :=
    fun q => sameOutcome_some false heq (by simp [World.call, htr])
  by_cases c9 : sel = USB_RTYPE_RECIPIENT_ENDPOINT ||| (USB_REQ_GET_STATUS <<< 8)
  · rw [if_pos c9, if_pos c9, hin, hout]
    split_ifs
    · cases env.usb_lld_get_status_in w2.usbp (w2.usbp.setup 4 &&& 15) with
      | EP_STATUS_DISABLED => exact hcallrej _
      | EP_STATUS_STALLED => exact hcall _ _ _ _
      | EP_STATUS_ACTIVE => exact hcall _ _ _ _
    · cases env.usb_lld_get_status_out w2.usbp (w2.usbp.setup 4 &&& 15) with
      | EP_STATUS_DISABLED => exact hcallrej _
      | EP_STATUS_STALLED => exact hcall _ _ _ _
      | EP_STATUS_ACTIVE => exact hcall _ _ _ _
  rw [if_neg c9, if_neg c9]
  by_cases c10 : sel = USB_RTYPE_RECIPIENT_ENDPOINT ||| (USB_REQ_CLEAR_FEATURE <<< 8)
  · rw [if_pos c10, if_pos c10]
    split_ifs
    · exact hrej
    · exact hcall _ _ _ _
    · exact hcall _ _ _ _
    · exact hbase _ _ _
  rw [if_neg c10, if_neg c10]
  by_cases c11 : sel = USB_RTYPE_RECIPIENT_ENDPOINT ||| (USB_REQ_SET_FEATURE <<< 8)
  · rw [if_pos c11, if_pos c11]
    split_ifs
    · exact hrej
    · exact hcall _ _ _ _
    · exact hcall _ _ _ _
    · exact hbase _ _ _
  rw [if_neg c11, if_neg c11]
  exact hrej
/-- The type bits of `setup[0]` do not depend on bit 7. -/
theorem type_bits_eq_of_equalUpToDirection {d1 d2 : USBDriver M}
    (h : EqualUpToDirection d1 d2) :
    d1.setup 0 &&& USB_RTYPE_TYPE_MASK = d2.setup 0 &&& USB_RTYPE_TYPE_MASK := by
  apply Nat.eq_of_testBit_eq
  intro i
  rw [Nat.testBit_and, Nat.testBit_and]
  by_cases hi : i = 7
  · subst hi
    have : USB_RTYPE_TYPE_MASK.testBit 7 = false := by decide
    rw [this, Bool.and_false, Bool.and_false]
  · rw [h.setup0_bits i hi]

/-- The transfer preparation in the spec's words: the length is clamped and the
phase and its call are those of `specDataStage`. -/
theorem transfer_preparation_dataStage (w : World M) :
    (transfer_preparation w).usbp =
      { w.usbp with
        ep0n := min w.usbp.ep0n (w.usbp.setup 6 + 256 * w.usbp.setup 7),
        ep0state := (specDataStage (w.usbp.setup 0) w.usbp.ep0next
          (min w.usbp.ep0n (w.usbp.setup 6 + 256 * w.usbp.setup 7))).1 } ∧
    (transfer_preparation w).trace = w.trace ++
      [(specDataStage (w.usbp.setup 0) w.usbp.ep0next
        (min w.usbp.ep0n (w.usbp.setup 6 + 256 * w.usbp.setup 7))).2] := by
  have hdir := and_0x80_eq_iff_testBit (w.usbp.setup 0)
  simp only [transfer_preparation, specDataStage, fetch_word_6, USB_RTYPE_DIR_MASK,
    USB_RTYPE_DIR_DEV2HOST, World.call]
  by_cases hb : (w.usbp.setup 0).testBit 7 = true
  · have hd : w.usbp.setup 0 &&& 0x80 = 0x80 := hdir.mpr hb
    by_cases hc : w.usbp.ep0n > w.usbp.setup 6 + 256 * w.usbp.setup 7
    · have hm : min w.usbp.ep0n (w.usbp.setup 6 + 256 * w.usbp.setup 7) =
          w.usbp.setup 6 + 256 * w.usbp.setup 7 := by omega
      by_cases hz : w.usbp.setup 6 + 256 * w.usbp.setup 7 > 0
      · simp [hb, hd, hc, hz, hm]
      · simp [hb, hd, hc, hz, hm]
    · have hm : min w.usbp.ep0n (w.usbp.setup 6 + 256 * w.usbp.setup 7) = w.usbp.ep0n := by
        omega
      by_cases hz : w.usbp.ep0n > 0
      · simp [hb, hd, hc, hz, hm]
      · simp [hb, hd, hc, hz, hm]
  · have hd : ¬ (w.usbp.setup 0 &&& 0x80 = 0x80) := fun h => hb (hdir.mp h)
    by_cases hc : w.usbp.ep0n > w.usbp.setup 6 + 256 * w.usbp.setup 7
    · have hm : min w.usbp.ep0n (w.usbp.setup 6 + 256 * w.usbp.setup 7) =
          w.usbp.setup 6 + 256 * w.usbp.setup 7 := by omega
      by_cases hz : w.usbp.setup 6 + 256 * w.usbp.setup 7 > 0
      · simp [hb, hd, hc, hz, hm]
      · simp [hb, hd, hc, hz, hm]
    · have hm : min w.usbp.ep0n (w.usbp.setup 6 + 256 * w.usbp.setup 7) = w.usbp.ep0n := by
        omega
      by_cases hz : w.usbp.ep0n > 0
      · simp [hb, hd, hc, hz, hm]
      · simp [hb, hd, hc, hz, hm]

/-- C21: the decision of the standard handler does not depend on the direction
bit.  For any two drivers that are equal except for bit 7 of `setup[0]` the
`switch` decodes the same request; in LATE address mode, the application
callbacks and the low level driver answering alike on the two drivers,
`default_handler` is undefined on both or returns on both with the
same accept/reject result, the same calls, the same `ep0n` and `ep0next` and the
same `status`, `configuration` and `state` (the two drivers it leaves are again
equal except for that bit).  Afterwards, in `_usb_ep0out` (no hook, standard
request accepted), both transfers get the same clamped `ep0n` and the same
`ep0next`, and the direction bit of each selects its phase and call as the
spec says: TX or WAITING_STS when set, RX or SENDING_STS when clear. -/
theorem C21_direction_independence (env : Env M) (w1 w2 : World M)
    (hmode : env.USB_SET_ADDRESS_MODE = usbaddrmode_t.USB_LATE_SET_ADDRESS)
    (henv : env.ignoresDirection)
    (heq : EqualUpToDirection w1.usbp w2.usbp) (htr : w1.trace = w2.trace) :
    request_selector w1.usbp.setup = request_selector w2.usbp.setup ∧
    ((default_handler env w1 = none ∧ default_handler env w2 = none) ∨
     ∃ (a c : World M) (b : Bool),
       default_handler env w1 = some (a, b) ∧ default_handler env w2 = some (c, b) ∧
       a.usbp.ep0n = c.usbp.ep0n ∧ a.usbp.ep0next = c.usbp.ep0next ∧
       a.usbp.status = c.usbp.status ∧ a.usbp.configuration = c.usbp.configuration ∧
       a.usbp.state = c.usbp.state ∧ a.trace = c.trace ∧
       EqualUpToDirection a.usbp c.usbp) ∧
    (∀ (cfg : USBConfig) (a c : World M),
      w1.usbp.config = some cfg → cfg.requests_hook_cb = false →
      w1.usbp.ep0state = usbep0state_t.USB_EP0_WAITING_SETUP →
      w1.usbp.setup 0 &&& USB_RTYPE_TYPE_MASK = USB_RTYPE_TYPE_STD →
      default_handler env w1 = some (a, true) → default_handler env w2 = some (c, true) →
      ∃ r1 r2 : World M, _usb_ep0out env w1 = some r1 ∧ _usb_ep0out env w2 = some r2 ∧
        r1.usbp.ep0n = min a.usbp.ep0n (a.usbp.setup 6 + 256 * a.usbp.setup 7) ∧
        r1.usbp.ep0n = r2.usbp.ep0n ∧ r1.usbp.ep0next = r2.usbp.ep0next ∧
        r1.usbp.status = r2.usbp.status ∧ r1.usbp.configuration = r2.usbp.configuration ∧
        r1.usbp.state = r2.usbp.state ∧
        r1.usbp.ep0state =
          (specDataStage (a.usbp.setup 0) a.usbp.ep0next r1.usbp.ep0n).1 ∧
        r1.trace = a.trace ++ [(specDataStage (a.usbp.setup 0) a.usbp.ep0next r1.usbp.ep0n).2] ∧
        r2.usbp.ep0state =
          (specDataStage (c.usbp.setup 0) c.usbp.ep0next r2.usbp.ep0n).1 ∧
        r2.trace = c.trace ++
          [(specDataStage (c.usbp.setup 0) c.usbp.ep0next r2.usbp.ep0n).2]) := by
  have hsame := default_handler_sameOutcome env w1 w2 hmode henv heq htr
  refine ⟨request_selector_eq_of_equalUpToDirection heq, ?_, ?_⟩
  · rcases hsame with h | ⟨a, c, b, h1, h2, hr, ht⟩
    · exact Or.inl h
    · exact Or.inr ⟨a, c, b, h1, h2, hr.ep0n, hr.ep0next, hr.status, hr.configuration,
        hr.state, ht, hr⟩
  · intro cfg a c hcfg hhook hst hstd ha hc
    have hr : EqualUpToDirection a.usbp c.usbp := by
      rcases hsame with ⟨h, -⟩ | ⟨a', c', b, h1, h2, hr, -⟩
      · rw [ha] at h; exact absurd h (by simp)
      · rw [ha] at h1; rw [hc] at h2
        cases h1; cases h2
        exact hr
    have hcfg2 : w2.usbp.config = some cfg := by rw [← heq.config]; exact hcfg
    have hst2 : w2.usbp.ep0state = usbep0state_t.USB_EP0_WAITING_SETUP := by
      rw [← heq.ep0state]; exact hst
    have hstd2 : w2.usbp.setup 0 &&& USB_RTYPE_TYPE_MASK = USB_RTYPE_TYPE_STD := by
      rw [← type_bits_eq_of_equalUpToDirection heq]; exact hstd
    have hd1 := (dispatch_no_hook_standard env w1 cfg hcfg hhook hstd).trans ha
    have hd2 := (dispatch_no_hook_standard env w2 cfg hcfg2 hhook hstd2).trans hc
    have ho1 := ep0out_of_accepted env w1 a hst hd1
    have ho2 := ep0out_of_accepted env w2 c hst2 hd2
    obtain ⟨hu1, ht1⟩ := transfer_preparation_dataStage a
    obtain ⟨hu2, ht2⟩ := transfer_preparation_dataStage c
    have hlen : min a.usbp.ep0n (a.usbp.setup 6 + 256 * a.usbp.setup 7) =
        min c.usbp.ep0n (c.usbp.setup 6 + 256 * c.usbp.setup 7) := by
      rw [hr.ep0n, hr.setup_rest 6 (by decide), hr.setup_rest 7 (by decide)]
    refine ⟨_, _, ho1, ho2, ?_, ?_, ?_, ?_, ?_, ?_, ?_, ?_, ?_, ?_⟩
    · rw [hu1]
    · rw [hu1, hu2]; exact hlen
    · rw [hu1, hu2]; exact hr.ep0next
    · rw [hu1, hu2]; exact hr.status
    · rw [hu1, hu2]; exact hr.configuration
    · rw [hu1, hu2]; exact hr.state
    · rw [hu1]
    · rw [ht1, hu1]
    · rw [hu2]
    · rw [ht2, hu2]

/-- The callbacks and status answers of `sampleEnv` do not look at the
direction bit. -/
theorem sampleEnv_ignoresDirection (mode : usbaddrmode_t) (st : usbepstatus_t) :
    (sampleEnv mode st).ignoresDirection :=
  fun _ _ h => ⟨fun _ _ _ => rfl, fun _ => rfl, fun _ => rfl, fun _ => h⟩

/-- Witness for C21: GET_STATUS for the device with `wLength = 2`, host-to-device
`00 00 00 00 00 00 02 00` and device-to-host `80 00 00 00 00 00 02 00`.  Both
are accepted with the 2 byte status word; the first starts a 2 byte OUT data
stage, the second a 2 byte IN data stage. -/
theorem C21_direction_independence_witness :
    ∃ r1 r2 : World 7,
      _usb_ep0out (sampleEnv usbaddrmode_t.USB_LATE_SET_ADDRESS usbepstatus_t.EP_STATUS_ACTIVE)
        ⟨sampleDriver ⟨false, false⟩ usbep0state_t.USB_EP0_WAITING_SETUP
          (mkSetup 0x00 0x00 0x00 0x00 0x00 0x00 0x02 0x00), []⟩ = some r1 ∧
      _usb_ep0out (sampleEnv usbaddrmode_t.USB_LATE_SET_ADDRESS usbepstatus_t.EP_STATUS_ACTIVE)
        ⟨sampleDriver ⟨false, false⟩ usbep0state_t.USB_EP0_WAITING_SETUP
          (mkSetup 0x80 0x00 0x00 0x00 0x00 0x00 0x02 0x00), []⟩ = some r2 ∧
      r1.usbp.ep0n = 2 ∧ r2.usbp.ep0n = 2 ∧
      r1.usbp.ep0state = usbep0state_t.USB_EP0_RX ∧
      r1.trace = [Call.usb_lld_start_out 0 Ptr.status 2] ∧
      r2.usbp.ep0state = usbep0state_t.USB_EP0_TX ∧
      r2.trace = [Call.usb_lld_start_in 0 Ptr.status 2] := by
  have heq : EqualUpToDirection
      (sampleDriver ⟨false, false⟩ usbep0state_t.USB_EP0_WAITING_SETUP
        (mkSetup 0x00 0x00 0x00 0x00 0x00 0x00 0x02 0x00))
      (sampleDriver ⟨false, false⟩ usbep0state_t.USB_EP0_WAITING_SETUP
        (mkSetup 0x80 0x00 0x00 0x00 0x00 0x00 0x02 0x00)) :=
    ⟨rfl, rfl, rfl, rfl, rfl, rfl, rfl, rfl, rfl, rfl, by decide, by
      intro k hk
      show (0 : Nat).testBit k = (2 ^ 7 : Nat).testBit k
      rw [Nat.zero_testBit, Nat.testBit_two_pow]
      simp; omega⟩
  obtain ⟨r1, r2, h1, h2, hn, hnn, -, -, -, -, hs1, ht1, hs2, ht2⟩ :=
    (C21_direction_independence
      (sampleEnv usbaddrmode_t.USB_LATE_SET_ADDRESS usbepstatus_t.EP_STATUS_ACTIVE)
      ⟨sampleDriver ⟨false, false⟩ usbep0state_t.USB_EP0_WAITING_SETUP
        (mkSetup 0x00 0x00 0x00 0x00 0x00 0x00 0x02 0x00), []⟩
      ⟨sampleDriver ⟨false, false⟩ usbep0state_t.USB_EP0_WAITING_SETUP
        (mkSetup 0x80 0x00 0x00 0x00 0x00 0x00 0x02 0x00), []⟩
      rfl (sampleEnv_ignoresDirection _ _) heq rfl).2.2
      ⟨false, false⟩
      (usbSetupTransfer ⟨sampleDriver ⟨false, false⟩ usbep0state_t.USB_EP0_WAITING_SETUP
        (mkSetup 0x00 0x00 0x00 0x00 0x00 0x00 0x02 0x00), []⟩ Ptr.status 2)
      (usbSetupTransfer ⟨sampleDriver ⟨false, false⟩ usbep0state_t.USB_EP0_WAITING_SETUP
        (mkSetup 0x80 0x00 0x00 0x00 0x00 0x00 0x02 0x00), []⟩ Ptr.status 2)
      rfl rfl rfl (by decide) rfl rfl
  have hn1 : r1.usbp.ep0n = 2 := by rw [hn]; decide
  have hn2 : r2.usbp.ep0n = 2 := by rw [← hnn]; exact hn1
  rw [hn1] at hs1 ht1
  rw [hn2] at hs2 ht2
  exact ⟨r1, r2, h1, h2, hn1, hn2, by rw [hs1]; decide, by rw [ht1]; decide,
    by rw [hs2]; decide, by rw [ht2]; decide⟩

/-- C22: for every driver with `ep0state = TX`, endpoint slot `ep[0]` populated
and its `in_maxsize` greater than 0, `_usb_ep0in` is defined, does not take the
error path (no stall is called and the result is not that of the error
response), makes exactly one call, `usb_lld_start_in(0, NULL, 0)` or
`usb_lld_start_out(0, NULL, 0)`, and ends with `ep0state` equal to TX or
WAITING_STS and all fields other than `ep0state` unchanged. -/
theorem C22_ep0in_tx_defined (env : Env M) (w : World M) (epp : USBEndpointState)
    (epc : USBEndpointConfig)
    (hst : w.usbp.ep0state = usbep0state_t.USB_EP0_TX)
    (hep : w.usbp.ep 0 = some epp) (hc : epp.config = some epc)
    (hmax : 0 < epc.in_maxsize) :
    ∃ w1 : World M, _usb_ep0in env w = some w1 ∧
      ((w1.usbp.ep0state = usbep0state_t.USB_EP0_TX ∧
          w1.trace = w.trace ++ [Call.usb_lld_start_in 0 Ptr.NULL 0]) ∨
       (w1.usbp.ep0state = usbep0state_t.USB_EP0_WAITING_STS ∧
          w1.trace = w.trace ++ [Call.usb_lld_start_out 0 Ptr.NULL 0])) ∧
      w1.usbp = { w.usbp with ep0state := w1.usbp.ep0state } ∧
      (∀ (e : Nat) (l : List Call), w1.trace ≠ w.trace ++ Call.usb_lld_stall_in e :: l) ∧
      (∀ e : Nat, Call.usb_lld_stall_in e ∉ w1.trace.drop w.trace.length ∧
        Call.usb_lld_stall_out e ∉ w1.trace.drop w.trace.length) ∧
      (∀ ev : usbevent_t, Call.event_cb ev ∉ w1.trace.drop w.trace.length) ∧
      ep0_error_response env w ≠ some w1 := by
  have hne : epc.in_maxsize ≠ 0 := by omega
  have herr : ∀ w1 : World M, ep0_error_response env w = some w1 →
      ∃ l : List Call, w1.trace = w.trace ++ Call.usb_lld_stall_in 0 :: l := by
    intro w1 h
    cases hcfg : w.usbp.config with
    | none => simp [ep0_error_response, invoke_event_cb, World.call, hcfg] at h
    | some cfg =>
      obtain ⟨we, hwe, -, hte⟩ := error_response_spec env w cfg hcfg
      rw [hwe] at h
      cases h
      exact ⟨_, by rw [hte, List.append_assoc]; rfl⟩
  by_cases hzlp : w.usbp.ep0n < w.usbp.setup 6 + 256 * w.usbp.setup 7 ∧
      w.usbp.ep0n % epc.in_maxsize = 0
  · refine ⟨w.call (Call.usb_lld_start_in 0 Ptr.NULL 0), ?_, Or.inl ⟨hst, rfl⟩, ?_, ?_, ?_, ?_, ?_⟩
    · simp [_usb_ep0in, hst, hep, hc, fetch_word_6, hne, hzlp.1, hzlp.2]
    · simp [World.call]
    · intro e l h
      simp [World.call] at h
    · intro e
      simp [World.call]
    · intro ev
      simp [World.call]
    · intro h
      obtain ⟨l, hl⟩ := herr _ h
      simp [World.call] at hl
  · refine ⟨({ w with usbp := { w.usbp with ep0state := usbep0state_t.USB_EP0_WAITING_STS } } :
        World M).call (Call.usb_lld_start_out 0 Ptr.NULL 0), ?_, Or.inr ⟨rfl, rfl⟩, rfl, ?_, ?_, ?_, ?_⟩
    · by_cases hlt : w.usbp.ep0n < w.usbp.setup 6 + 256 * w.usbp.setup 7
      · have hm : ¬ w.usbp.ep0n % epc.in_maxsize = 0 := fun h => hzlp ⟨hlt, h⟩
        simp [_usb_ep0in, hst, hep, hc, fetch_word_6, hne, hlt, hm]
      · simp [_usb_ep0in, hst, fetch_word_6, hlt]
    · intro e l h
      simp [World.call] at h
    · intro e
      simp [World.call]
    · intro ev
      simp [World.call]
    · intro h
      obtain ⟨l, hl⟩ := herr _ h
      simp [World.call] at hl

/-- Witness for C22: with 64 bytes sent of 255 requested and 64 byte packets the
IN-complete is defined and starts a zero-length packet, staying in TX. -/
theorem C22_ep0in_tx_defined_witness :
    ∃ w1 : World 7,
      _usb_ep0in (sampleEnv usbaddrmode_t.USB_LATE_SET_ADDRESS usbepstatus_t.EP_STATUS_ACTIVE)
        ⟨txDriver, []⟩ = some w1 ∧
      w1.usbp.ep0state = usbep0state_t.USB_EP0_TX ∧
      w1.trace = [Call.usb_lld_start_in 0 Ptr.NULL 0] := by
  obtain ⟨w1, h1, hcase, -⟩ :=
    C22_ep0in_tx_defined
      (sampleEnv usbaddrmode_t.USB_LATE_SET_ADDRESS usbepstatus_t.EP_STATUS_ACTIVE)
      ⟨txDriver, []⟩ (ep0slot 64 0) ⟨64, 64⟩ rfl rfl rfl (by decide)
  have h1' := h1
  have hval : _usb_ep0in
      (sampleEnv usbaddrmode_t.USB_LATE_SET_ADDRESS usbepstatus_t.EP_STATUS_ACTIVE)
      ⟨txDriver, []⟩ = some ⟨txDriver, [Call.usb_lld_start_in 0 Ptr.NULL 0]⟩ := rfl
  rw [hval] at h1'
  cases h1'
  exact ⟨_, h1, rfl, rfl⟩

end USB
